import Mathlib

/-!
Verification of the meal-planning engine (Convex backend: `convex/schema.ts`,
`convex/mealPlans.ts`, `convex/shoppingList.ts`).

The document store is modelled as explicit lists of records; Convex ids are
`Nat`; JS numbers are modelled as `Rat` (an exact idealization of IEEE
doubles); JS `Date` is modelled on minutes since the Unix epoch,
parameterized by the environment timezone, with proleptic-Gregorian calendar
arithmetic spelled out below, matching ECMAScript `Date` semantics for the
operations the engine uses (`new Date("YYYY-MM-DD")`, `getDate`, `setDate`,
`toISOString`).
-/

/- ===== Calendar arithmetic (model of the proleptic Gregorian calendar
      underlying ECMAScript `Date`) ===== -/

/-- Era offset: day-of-era (0..146096) of epoch day `z` (Hinnant's algorithm,
with floor division, era = 400 Gregorian years = 146097 days). -/
def doeOfDays (z : Int) : Int := z + 719468 - (z + 719468) / 146097 * 146097

/-- Era index of epoch day `z`. -/
def eraOfDays (z : Int) : Int := (z + 719468) / 146097

/-- Year-of-era (0..399) from day-of-era. -/
def yoeOfDoe (doe : Int) : Int := (doe - doe / 1460 + doe / 36524 - doe / 146096) / 365

/-- First day-of-era of year-of-era `yoe` (the year runs March..February). -/
def yearStartDoe (yoe : Int) : Int := 365 * yoe + yoe / 4 - yoe / 100

/-- Day-of-(shifted-)year (0..365) from day-of-era. -/
def doyOfDoe (doe : Int) : Int := doe - yearStartDoe (yoeOfDoe doe)

/-- Shifted month index (0 = March .. 11 = February) from day-of-year. -/
def mpOfDoy (doy : Int) : Int := (5 * doy + 2) / 153

/-- First day-of-year of shifted month `mp`. -/
def monthStartDoy (mp : Int) : Int := (153 * mp + 2) / 5

/-- Civil date `(year, month, day)` of epoch day `z` (days since 1970-01-01). -/
def civilFromDays (z : Int) : Int × Int × Int :=
  (eraOfDays z * 400 + yoeOfDoe (doeOfDays z) +
      (if mpOfDoy (doyOfDoe (doeOfDays z)) < 10 then 0 else 1),
    mpOfDoy (doyOfDoe (doeOfDays z)) +
      (if mpOfDoy (doyOfDoe (doeOfDays z)) < 10 then 3 else -9),
    doyOfDoe (doeOfDays z) - monthStartDoy (mpOfDoy (doyOfDoe (doeOfDays z))) + 1)

/-- Shift a civil year so the year runs March..February. -/
def yShifted (y m : Int) : Int := if m ≤ 2 then y - 1 else y

/-- Epoch day of civil date `(y, m, d)`; `d` out of range rolls over, exactly
as ECMAScript date-component normalization does. -/
def daysFromCivil (y m d : Int) : Int :=
  yShifted y m / 400 * 146097 +
    (365 * (yShifted y m % 400) + yShifted y m % 400 / 4 - yShifted y m % 400 / 100) +
    (153 * (m + (if 2 < m then -3 else 9)) + 2) / 5 + d - 1 - 719468

/-- The decimal digit character for `n` (defined for 0..9). -/
def digitChar (n : Int) : Char :=
  if n = 0 then '0' else if n = 1 then '1' else if n = 2 then '2'
  else if n = 3 then '3' else if n = 4 then '4' else if n = 5 then '5'
  else if n = 6 then '6' else if n = 7 then '7' else if n = 8 then '8'
  else if n = 9 then '9' else '?'

/-- Two-digit zero-padded decimal rendering (for 0..99). -/
def pad2 (n : Int) : String := String.mk [digitChar (n / 10 % 10), digitChar (n % 10)]

/-- Four-digit zero-padded decimal rendering (for 0..9999). -/
def pad4 (n : Int) : String :=
  String.mk [digitChar (n / 1000 % 10), digitChar (n / 100 % 10),
    digitChar (n / 10 % 10), digitChar (n % 10)]

/-- The `"YYYY-MM-DD"` rendering of a civil date, as `Date.prototype.toISOString`
produces for years 0..9999. -/
def formatCivil (c : Int × Int × Int) : String :=
  pad4 c.1 ++ "-" ++ pad2 c.2.1 ++ "-" ++ pad2 c.2.2

/- ===== ECMAScript `Date` model =====

A `Date` value is its UTC timestamp, in minutes since the epoch (the engine
never uses sub-minute precision).  Local-time behaviour depends on the
environment timezone, modelled as two offset functions: the offset (minutes
east of UTC) in effect at a given UTC instant, and the offset an
implementation applies when interpreting a given local wall-clock time
(the two coincide except around DST transitions). -/

/-- An environment timezone for the ECMAScript `Date` model. -/
structure Timezone where
  offsetAtUtc : Int → Int
  offsetAtLocal : Int → Int

/-- A fixed-offset timezone (no DST); `fixedTz 0` is UTC, the zone Convex
deployments run in. -/
def fixedTz (offset : Int) : Timezone := ⟨fun _ => offset, fun _ => offset⟩

/-- US Pacific time around the spring-forward transition of 2026-03-08
02:00 local (epoch day of 2026-03-08 is 20520): UTC−8h before the
transition instant, UTC−7h after. -/
def tzPacific2026 : Timezone :=
  ⟨fun t => if t < 1440 * 20520 + 600 then -480 else -420,
   fun l => if l < 1440 * 20520 + 120 then -480 else -420⟩

/-- The `new Date("YYYY-MM-DD")`: a date-only ISO string parses as UTC midnight. -/
def parseDateKey (y m d : Int) : Int := 1440 * daysFromCivil y m d

/-- The `Date.prototype.getDate()`: local day-of-month. -/
def jsGetDate (tz : Timezone) (t : Int) : Int :=
  (civilFromDays ((t + tz.offsetAtUtc t) / 1440)).2.2

/-- Rebuild a local timestamp from local time `localMin` with its day-of-month
replaced by `n` (normalizing out-of-range `n` through the calendar). -/
def jsWithDayOfMonth (localMin n : Int) : Int :=
  1440 * (daysFromCivil (civilFromDays (localMin / 1440)).1
      (civilFromDays (localMin / 1440)).2.1 n) + localMin % 1440

/-- The `Date.prototype.setDate(n)`: replace the local day-of-month by `n` and
convert the resulting local wall-clock time back to UTC. -/
def jsSetDate (tz : Timezone) (t n : Int) : Int :=
  jsWithDayOfMonth (t + tz.offsetAtUtc t) n -
    tz.offsetAtLocal (jsWithDayOfMonth (t + tz.offsetAtUtc t) n)

/-- The date part of `Date.prototype.toISOString()` (UTC). -/
def toISODateString (t : Int) : String := formatCivil (civilFromDays (t / 1440))

/- ===== Data model (`convex/schema.ts`) ===== -/

/-- One entry of a dish's `ingredients` array (`unit` and `category` are
required by the schema, so the `?? ""` fallbacks in `shoppingList.ts` never
fire). -/
structure Ingredient where
  name : String
  quantity : Rat
  unit : String
  category : String
deriving DecidableEq

/-- A `dishes` document (`defaultServings` is required by the schema, so the
`?? 1` fallbacks in the engine never fire). -/
structure Dish where
  _id : Nat
  name : String
  description : String
  ingredients : List Ingredient
  tags : List String
  defaultServings : Rat
  sourceUrl : Option String
  householdId : String
deriving DecidableEq

/-- The `mealPlans.status` (`v.union` of the three literals). -/
inductive MealStatus where
  | planned
  | eaten
  | skipped
deriving DecidableEq

/-- The `mealPlans.mealType` (`v.union` of the three literals). -/
inductive MealType where
  | breakfast
  | lunch
  | dinner
deriving DecidableEq

/-- A `mealPlans` document. -/
structure MealPlan where
  _id : Nat
  day : String
  mealType : MealType
  dishId : Option Nat
  customName : Option String
  servingsUsed : Rat
  status : MealStatus
  isLeftover : Bool
  sourceMealId : Option Nat
  householdId : String
deriving DecidableEq

/-- The document store: the two tables the engine touches. -/
structure DB where
  dishes : List Dish
  mealPlans : List MealPlan
deriving DecidableEq

/-- The `ctx.db.get` on a dish id. -/
def findDish (db : DB) (i : Nat) : Option Dish :=
  db.dishes.find? (fun dd => decide (dd._id = i))

/-- The `ctx.db.get` on a meal-plan id. -/
def findMeal (db : DB) (i : Nat) : Option MealPlan :=
  db.mealPlans.find? (fun mm => decide (mm._id = i))

/-- The `by_householdId` index on `mealPlans`. -/
def mealsByHousehold (db : DB) (householdId : String) : List MealPlan :=
  db.mealPlans.filter (fun mm => decide (mm.householdId = householdId))

/-- The `by_dishId` index on `mealPlans`, queried at a concrete dish id. -/
def mealsByDishId (db : DB) (did : Nat) : List MealPlan :=
  db.mealPlans.filter (fun mm => decide (mm.dishId = some did))

/- ===== `convex/mealPlans.ts` ===== -/

/-- The 7 day-keys of `getWeek` (`mealPlans.ts` lines 17-23): parse
`startDate`, then for i = 0..6 copy it, `setDate(getDate() + i)`, and take
the date part of `toISOString()`. -/
def mealPlans_weekDates (tz : Timezone) (y m d : Int) : List String :=
  (List.range 7).map (fun (i : Nat) =>
    toISODateString (jsSetDate tz (parseDateKey y m d)
      (jsGetDate tz (parseDateKey y m d) + (i : Int))))

/-- The join `{...meal, dish}` returned by `getWeek`. -/
structure JoinedMeal where
  meal : MealPlan
  dish : Option Dish
deriving DecidableEq

/-- The `dishMap` construction shared by `getWeek` and `getWeekShoppingList`:
resolve each id and keep the found dishes, keyed by their `_id`. -/
def dishMapOf (db : DB) (ids : List Nat) : List (Nat × Dish) :=
  ids.filterMap (fun i => (findDish db i).map (fun dd => (dd._id, dd)))

/-- The `Map.prototype.get` on the dish map. -/
def dishMapGet : List (Nat × Dish) → Nat → Option Dish
  | [], _ => none
  | (k, v) :: rest, i => if k = i then some v else dishMapGet rest i

/-- The `getWeek` (`mealPlans.ts` lines 14-48). -/
def getWeek (tz : Timezone) (db : DB) (householdId : String) (y m d : Int) :
    List JoinedMeal :=
  let dates := mealPlans_weekDates tz y m d
  let meals := mealsByHousehold db householdId
  let weekMeals := meals.filter (fun mm => dates.contains mm.day)
  let dishIds :=
    ((weekMeals.filter (fun mm => mm.dishId.isSome)).filterMap
      (fun mm => mm.dishId)).eraseDups
  let dishMap := dishMapOf db dishIds
  weekMeals.map (fun mm =>
    ⟨mm, match mm.dishId with
         | some did => dishMapGet dishMap did
         | none => none⟩)

/-- The `status === "eaten"`-restricted sum of `servingsUsed` over the
related meals of a source, drawn from the `by_dishId` index
(`mealPlans.ts` lines 76-88 and 223-235). -/
def relatedEatenSum (db : DB) (did : Nat) (sourceMealId : Nat) : Rat :=
  ((((mealsByDishId db did).filter (fun mm =>
        decide (mm._id = sourceMealId) || decide (mm.sourceMealId = some sourceMealId))).filter
      (fun mm => decide (mm.status = MealStatus.eaten))).map
    (fun mm => mm.servingsUsed)).sum

/-- The `getAvailableLeftovers` (`mealPlans.ts` lines 67-92). -/
def getAvailableLeftovers (db : DB) (sourceMealId : Nat) : Rat :=
  match findMeal db sourceMealId with
  | none => 0
  | some sourceMeal =>
    match sourceMeal.dishId with
    | none => 0
    | some did =>
      match findDish db did with
      | none => 0
      | some dish => max 0 (dish.defaultServings - relatedEatenSum db did sourceMealId)

/-- One element of `getLeftoverSources`' result. -/
structure LeftoverSource where
  meal : MealPlan
  dish : Dish
  available : Rat
deriving DecidableEq

/-- The body of `getLeftoverSources`' loop (`mealPlans.ts` lines 115-132):
note it recomputes the related set from `meals` — the household-indexed
list — not from the `by_dishId` index. -/
def leftoverSourcesStep (db : DB) (meals : List MealPlan)
    (acc : List LeftoverSource) (meal : MealPlan) : List LeftoverSource :=
  match meal.dishId with
  | none => acc
  | some did =>
    match findDish db did with
    | none => acc
    | some dish =>
      let relatedMeals := meals.filter (fun mm =>
        decide (mm._id = meal._id) || decide (mm.sourceMealId = some meal._id))
      let totalUsed :=
        ((relatedMeals.filter (fun mm => decide (mm.status = MealStatus.eaten))).map
          (fun mm => mm.servingsUsed)).sum
      let available := dish.defaultServings - totalUsed
      if 0 < available then acc ++ [⟨meal, dish, available⟩] else acc

/-- The `getLeftoverSources` (`mealPlans.ts` lines 97-136). -/
def getLeftoverSources (db : DB) (householdId : String) : List LeftoverSource :=
  let meals := mealsByHousehold db householdId
  let sourceMeals := meals.filter (fun mm =>
    decide (mm.status = MealStatus.eaten) && !mm.isLeftover && mm.dishId.isSome)
  sourceMeals.foldl (leftoverSourcesStep db meals) []

/-- The `planMeal` (`mealPlans.ts` lines 141-165); `newId` is the id the store
assigns to the inserted document. -/
def planMeal (db : DB) (newId : Nat) (day : String) (mealType : MealType)
    (dishId : Option Nat) (customName : Option String) (servingsUsed : Rat)
    (isLeftover : Bool) (sourceMealId : Option Nat) (householdId : String) :
    Nat × DB :=
  (newId,
    { db with mealPlans := db.mealPlans ++
        [⟨newId, day, mealType, dishId, customName, servingsUsed,
          MealStatus.planned, isLeftover, sourceMealId, householdId⟩] })

/-- The `eatMeal` (`mealPlans.ts` lines 170-175): an unconditional status patch.
(Convex `db.patch` throws when the id is absent; no claim exercises that
case, and then the patch is the identity here.) -/
def eatMeal (db : DB) (i : Nat) : DB :=
  { db with mealPlans := db.mealPlans.map (fun mm =>
      if mm._id = i then { mm with status := MealStatus.eaten } else mm) }

/-- The `skipMeal` (`mealPlans.ts` lines 180-185): an unconditional status patch. -/
def skipMeal (db : DB) (i : Nat) : DB :=
  { db with mealPlans := db.mealPlans.map (fun mm =>
      if mm._id = i then { mm with status := MealStatus.skipped } else mm) }

/-- The `update` (`mealPlans.ts` lines 190-208): patches the five listed fields
and nothing else. -/
def update (db : DB) (i : Nat) (dishId : Option Nat) (customName : Option String)
    (servingsUsed : Rat) (isLeftover : Bool) (sourceMealId : Option Nat) : DB :=
  { db with mealPlans := db.mealPlans.map (fun mm =>
      if mm._id = i then
        { mm with dishId := dishId, customName := customName,
                  servingsUsed := servingsUsed, isLeftover := isLeftover,
                  sourceMealId := sourceMealId }
      else mm) }

/-- The `voidLeftovers` (`mealPlans.ts` lines 214-253); `today` is the date key
`new Date().toISOString().split("T")[0]` of the call instant, `newId` the id
the store assigns on insert.  Returns the created id (if any) and the new
store. -/
def voidLeftovers (db : DB) (today : String) (newId : Nat) (sourceMealId : Nat) :
    Option Nat × DB :=
  match findMeal db sourceMealId with
  | none => (none, db)
  | some sourceMeal =>
    match sourceMeal.dishId with
    | none => (none, db)
    | some did =>
      match findDish db did with
      | none => (none, db)
      | some dish =>
        let remaining := dish.defaultServings - relatedEatenSum db did sourceMealId
        if remaining ≤ 0 then (none, db)
        else
          (some newId,
            { db with mealPlans := db.mealPlans ++
                [⟨newId, today, MealType.dinner, some did,
                  some (dish.name ++ " (voided)"), remaining, MealStatus.eaten,
                  true, some sourceMealId, sourceMeal.householdId⟩] })

/-- The `remove` (`mealPlans.ts` lines 258-263). -/
def remove (db : DB) (i : Nat) : DB :=
  { db with mealPlans := db.mealPlans.filter (fun mm => !decide (mm._id = i)) }

/- ===== `convex/shoppingList.ts` ===== -/

/-- An aggregated shopping line (`ShoppingItem`). -/
structure ShoppingItem where
  name : String
  quantity : Rat
  unit : String
  category : String
deriving DecidableEq

/-- The 7 day-keys of `getWeekShoppingList` (`shoppingList.ts` lines 23-29) —
textually the same algorithm as in `getWeek`. -/
def shoppingList_weekDates (tz : Timezone) (y m d : Int) : List String :=
  (List.range 7).map (fun (i : Nat) =>
    toISODateString (jsSetDate tz (parseDateKey y m d)
      (jsGetDate tz (parseDateKey y m d) + (i : Int))))

/-- The aggregation key `` `${ing.name}|${ing.unit ?? ""}|${ing.category ?? ""}` ``. -/
def ingredientKey (ing : Ingredient) : String :=
  ing.name ++ "|" ++ ing.unit ++ "|" ++ ing.category

/-- The `Map.prototype.get` on the ingredient map. -/
def mapGet : List (String × ShoppingItem) → String → Option ShoppingItem
  | [], _ => none
  | (k, v) :: rest, key => if k = key then some v else mapGet rest key

/-- The `Map.prototype.set` on the ingredient map: update in place if the key is
present, else append. -/
def mapSet : List (String × ShoppingItem) → String → ShoppingItem →
    List (String × ShoppingItem)
  | [], key, v => [(key, v)]
  | (k, v') :: rest, key, v =>
    if k = key then (k, v) :: rest else (k, v') :: mapSet rest key v

/-- The body of the inner ingredient loop (`shoppingList.ts` lines 61-75). -/
def addIngredient (ratio : Rat) (acc : List (String × ShoppingItem))
    (ing : Ingredient) : List (String × ShoppingItem) :=
  match mapGet acc (ingredientKey ing) with
  | some existing =>
    mapSet acc (ingredientKey ing)
      { existing with quantity := existing.quantity + ing.quantity * ratio }
  | none =>
    mapSet acc (ingredientKey ing)
      ⟨ing.name, ing.quantity * ratio, ing.unit, ing.category⟩

/-- The body of the outer meal loop (`shoppingList.ts` lines 53-76). -/
def addMealIngredients (dishMap : List (Nat × Dish))
    (acc : List (String × ShoppingItem)) (mm : MealPlan) :
    List (String × ShoppingItem) :=
  match mm.dishId with
  | none => acc
  | some did =>
    match dishMapGet dishMap did with
    | none => acc
    | some dish =>
      dish.ingredients.foldl (addIngredient (mm.servingsUsed / dish.defaultServings)) acc

/-- The `Math.round(q * 100) / 100` (`Math.round(x)` is `⌊x + 1/2⌋`), on the
rational idealization of JS numbers. -/
def round2 (q : Rat) : Rat := ((⌊q * 100 + 1 / 2⌋ : Int) : Rat) / 100

/-- The `grouped[item.category].push(item)`, creating the bucket on first use
(`shoppingList.ts` lines 80-88); key order is first-insertion order, as for
JS object string keys. -/
def groupPush : List (String × List ShoppingItem) → String → ShoppingItem →
    List (String × List ShoppingItem)
  | [], cat, it => [(cat, [it])]
  | (c, its) :: rest, cat, it =>
    if c = cat then (c, its ++ [it]) :: rest else (c, its) :: groupPush rest cat it

/-- The selected meals of the week window (`shoppingList.ts` lines 36-38):
in the window, not `skipped` — `planned` is *not* excluded — and carrying a
dish reference. -/
def shoppingWeekMeals (tz : Timezone) (db : DB) (householdId : String)
    (y m d : Int) : List MealPlan :=
  (mealsByHousehold db householdId).filter (fun mm =>
    (shoppingList_weekDates tz y m d).contains mm.day &&
      !decide (mm.status = MealStatus.skipped) && mm.dishId.isSome)

/-- The accumulated ingredient map of `getWeekShoppingList`
(`shoppingList.ts` lines 51-76). -/
def ingredientMapOf (tz : Timezone) (db : DB) (householdId : String)
    (y m d : Int) : List (String × ShoppingItem) :=
  let weekMeals := shoppingWeekMeals tz db householdId y m d
  let dishIds := (weekMeals.filterMap (fun mm => mm.dishId)).eraseDups
  weekMeals.foldl (addMealIngredients (dishMapOf db dishIds)) []

/-- The `getWeekShoppingList` (`shoppingList.ts` lines 20-96); `lc` is the
environment's `localeCompare`-induced "not after" relation used by the final
per-category sort (JS `sort` is stable, modelled by `mergeSort`). -/
def getWeekShoppingList (tz : Timezone) (lc : String → String → Bool) (db : DB)
    (householdId : String) (y m d : Int) : List (String × List ShoppingItem) :=
  let ingredientMap := ingredientMapOf tz db householdId y m d
  let grouped := ingredientMap.foldl
    (fun g kv => groupPush g kv.2.category { kv.2 with quantity := round2 kv.2.quantity }) []
  grouped.map (fun cl => (cl.1, cl.2.mergeSort (fun a b => lc a.name b.name)))


/-- The `status === "eaten"`-restricted `servingsUsed` sum over the entries
of `meals` that are the source (by id) or point at it via `sourceMealId` —
the sum `getLeftoverSources` computes over the household-indexed list. -/
def pointingEatenSum (meals : List MealPlan) (srcId : Nat) : Rat :=
  (((meals.filter (fun mm =>
      decide (mm._id = srcId) || decide (mm.sourceMealId = some srcId))).filter
        (fun mm => decide (mm.status = MealStatus.eaten))).map
    (fun mm => mm.servingsUsed)).sum

/-- The per-meal result of `getLeftoverSources`' loop body: `none` when the
body `continue`s, the pushed record otherwise. -/
def leftoverSourceOf (db : DB) (meals : List MealPlan) (meal : MealPlan) :
    Option LeftoverSource :=
  match meal.dishId with
  | none => none
  | some did =>
    match findDish db did with
    | none => none
    | some dish =>
      if 0 < dish.defaultServings - pointingEatenSum meals meal._id then
        some ⟨meal, dish, dish.defaultServings - pointingEatenSum meals meal._id⟩
      else none

/-- The `(servingRatio, ingredient)` contributions of one selected meal. -/
def mealContribs (dishMap : List (Nat × Dish)) (mm : MealPlan) : List (Rat × Ingredient) :=
  match mm.dishId with
  | none => []
  | some did =>
    match dishMapGet dishMap did with
    | none => []
    | some dish =>
      dish.ingredients.map (fun ing => (mm.servingsUsed / dish.defaultServings, ing))

/-- The flattened `(servingRatio, ingredient)` contributions of the selected
week meals, in iteration order. -/
def weekContributions (tz : Timezone) (db : DB) (householdId : String)
    (y m d : Int) : List (Rat × Ingredient) :=
  (shoppingWeekMeals tz db householdId y m d).flatMap
    (mealContribs (dishMapOf db
      (((shoppingWeekMeals tz db householdId y m d).filterMap (fun mm => mm.dishId)).eraseDups)))

/-- The serving-ratio-weighted quantity total of the contributions carrying
aggregation key `k`. -/
def keyTotal (l : List (Rat × Ingredient)) (k : String) : Rat :=
  ((l.filter (fun ri => decide (ingredientKey ri.2 = k))).map
    (fun ri => ri.2.quantity * ri.1)).sum

/-- Association lookup on the grouped shopping list (JS `grouped[category]`,
`undefined` as `none`). -/
def groupGet : List (String × List ShoppingItem) → String → Option (List ShoppingItem)
  | [], _ => none
  | (c, its) :: rest, cat => if c = cat then some its else groupGet rest cat

/- ===== Concrete stores used by counterexamples and witnesses ===== -/

/-- A dish with 6 default servings and one ingredient. -/
def soupDish : Dish := ⟨10, "Soup", "", [⟨"beans", 2, "cans", "Pantry"⟩], [], 6, none, "h"⟩

/-- An eaten, non-leftover cook event of `soupDish` using 2 servings. -/
def soupCook : MealPlan :=
  ⟨1, "2026-03-02", MealType.dinner, some 10, none, 2, MealStatus.eaten, false, none, "h"⟩

/-- A store with one dish and one cook event. -/
def soupDB : DB := ⟨[soupDish], [soupCook]⟩

/-- An eaten entry pointing at `soupCook` via `sourceMealId` but carrying no
dish reference of its own. -/
def noDishPtr : MealPlan :=
  ⟨2, "2026-03-03", MealType.lunch, none, some "soup leftovers", 2, MealStatus.eaten, true,
    some 1, "h"⟩

/-- The `soupDB` plus the dishless pointing entry. -/
def mixedRefDB : DB := ⟨[soupDish], [soupCook, noDishPtr]⟩

/-- A planned (never eaten) meal of `soupDish` using 3 servings. -/
def plannedMeal : MealPlan :=
  ⟨1, "2026-03-02", MealType.dinner, some 10, none, 3, MealStatus.planned, false, none, "h"⟩

/-- A store whose only entry is planned. -/
def plannedDB : DB := ⟨[soupDish], [plannedMeal]⟩

/-- A dish whose ingredient fields contain the `"|"` separator character. -/
def pipeDish : Dish := ⟨11, "Pipes", "", [⟨"a|x", 1, "", ""⟩, ⟨"a", 1, "x|", ""⟩], [], 1, none, "h"⟩

/-- A store with one eaten meal of `pipeDish`. -/
def pipeDB : DB :=
  ⟨[pipeDish], [⟨1, "2026-03-02", MealType.lunch, some 11, none, 1, MealStatus.eaten, false,
    none, "h"⟩]⟩

/-- A custom-named (dishless) planned meal. -/
def customMeal : MealPlan :=
  ⟨3, "2026-03-03", MealType.breakfast, none, some "toast", 1, MealStatus.planned, false,
    none, "h"⟩

/-- A planned meal whose dish reference (id 99) does not resolve. -/
def dangleMeal : MealPlan :=
  ⟨4, "2026-03-04", MealType.dinner, some 99, none, 2, MealStatus.planned, false, none, "h"⟩

/-- A store mixing a cook event, a custom meal, and a dangling dish reference. -/
def sparseDB : DB := ⟨[soupDish], [soupCook, customMeal, dangleMeal]⟩

/-- A skipped meal of `soupDish`. -/
def skippedMeal : MealPlan :=
  ⟨5, "2026-03-02", MealType.dinner, some 10, none, 4, MealStatus.skipped, false, none, "h"⟩

/- ===== Helper lemmas ===== -/

/-- A dish found by id carries that id. -/
theorem findDish_id (db : DB) (i : Nat) (dd : Dish) (h : findDish db i = some dd) :
    dd._id = i := by
  have := List.find?_some h
  simpa using this

/-- Looking a dish id up in the constructed dish map is the same as resolving
it in the store, provided the id was requested. -/
theorem dishMapGet_dishMapOf (db : DB) (ids : List Nat) (i : Nat) :
    dishMapGet (dishMapOf db ids) i = if i ∈ ids then findDish db i else none := by
  induction ids with
  | nil => simp [dishMapOf, dishMapGet]
  | cons j rest ih =>
    have hrest : List.filterMap (fun k => (findDish db k).map (fun dd => (dd._id, dd))) rest
        = dishMapOf db rest := rfl
    simp only [dishMapOf, List.filterMap_cons]
    cases hfd : findDish db j with
    | none =>
      simp only [Option.map_none, hrest, ih, List.mem_cons]
      by_cases hmem : i ∈ rest
      · simp [ih, hmem]
      · by_cases hji : i = j
        · subst hji
          simp [ih, hmem, hfd]
        · simp [ih, hmem, hji]
    | some dd =>
      have hid := findDish_id db j dd hfd
      simp only [Option.map_some, dishMapGet, hid, hrest, ih, List.mem_cons]
      by_cases hji : j = i
      · subst hji
        simp [hfd]
      · have hij : ¬i = j := fun h => hji h.symm
        rw [if_neg hji]
        by_cases hmem : i ∈ rest
        · simp [ih, hmem]
        · simp [ih, hmem, hij]

/-- Two members of a ledger with `Nodup` ids and the same id are equal. -/
theorem eq_of_mem_of_id_eq (l : List MealPlan) (h : (l.map MealPlan._id).Nodup)
    (a b : MealPlan) (ha : a ∈ l) (hb : b ∈ l) (hid : a._id = b._id) : a = b := by
  induction l with
  | nil => cases ha
  | cons x t ih =>
    rw [List.map_cons, List.nodup_cons] at h
    rcases List.mem_cons.mp ha with rfl | ha' <;> rcases List.mem_cons.mp hb with rfl | hb'
    · rfl
    · exact absurd (hid ▸ List.mem_map_of_mem MealPlan._id hb') h.1
    · exact absurd (hid ▸ List.mem_map_of_mem MealPlan._id ha') h.1
    · exact ih h.2 ha' hb'

/- ===== C9 ===== -/

/-- C9 — Silent degradation on missing relations: `getAvailableLeftovers`
returns `0` (rather than failing) when the source meal entry is missing, has
no dish reference, or its dish is missing; and `getWeek` joins `dish := none`
(rather than failing) for custom-named entries and for entries whose dish
was deleted. -/
theorem c9_silent_degradation (tz : Timezone) (db : DB) (i : Nat) (hh : String)
    (y m d : Int) :
    (findMeal db i = none → getAvailableLeftovers db i = 0) ∧
    (∀ sm, findMeal db i = some sm → sm.dishId = none → getAvailableLeftovers db i = 0) ∧
    (∀ sm did, findMeal db i = some sm → sm.dishId = some did → findDish db did = none →
      getAvailableLeftovers db i = 0) ∧
    (∀ jm, jm ∈ getWeek tz db hh y m d →
      (jm.meal.dishId = none → jm.dish = none) ∧
      (∀ did, jm.meal.dishId = some did → findDish db did = none → jm.dish = none)) := by
  refine ⟨fun h => by simp [getAvailableLeftovers, h],
    fun sm h hd => by simp [getAvailableLeftovers, h, hd],
    fun sm did h hd hdd => by simp [getAvailableLeftovers, h, hd, hdd],
    fun jm hjm => ?_⟩
  simp only [getWeek, List.mem_map] at hjm
  obtain ⟨mm, hmm, rfl⟩ := hjm
  constructor
  · intro hnone
    simp only at hnone
    simp [hnone]
  · intro did hdid hmiss
    simp only at hdid
    simp only [hdid]
    rw [dishMapGet_dishMapOf]
    simp [hmiss]

/-- Witness for C9 at a concrete store: a missing entry id, a custom-named
entry, and a dangling dish reference all degrade silently. -/
theorem c9_silent_degradation_witness :
    getAvailableLeftovers sparseDB 77 = 0 ∧
    (⟨customMeal, none⟩ : JoinedMeal) ∈ getWeek (fixedTz 0) sparseDB "h" 2026 3 2 ∧
    (⟨dangleMeal, none⟩ : JoinedMeal) ∈ getWeek (fixedTz 0) sparseDB "h" 2026 3 2 := by
  refine ⟨(c9_silent_degradation (fixedTz 0) sparseDB 77 "h" 2026 3 2).1 (by decide),
    ?_, ?_⟩ <;> with_unfolding_all decide

/- ===== C10 ===== -/

/-- C10 — No source-qualification precondition on the leftover operations:
for any ledger entry with a resolvable dish — with no hypothesis at all on
the entry's `status` or `isLeftover` flag — `getAvailableLeftovers` computes
`max 0 (defaultServings − eaten-sum)` and, whenever that difference is
positive, `voidLeftovers` inserts its voiding entry.  Neither operation
checks that the entry is an eaten, non-leftover cook event. -/
theorem c10_no_source_qualification (db : DB) (today : String) (nid i : Nat)
    (sm : MealPlan) (did : Nat) (dish : Dish)
    (hm : findMeal db i = some sm) (hd : sm.dishId = some did)
    (hdd : findDish db did = some dish) :
    getAvailableLeftovers db i = max 0 (dish.defaultServings - relatedEatenSum db did i) ∧
    (0 < dish.defaultServings - relatedEatenSum db did i →
      voidLeftovers db today nid i =
        (some nid,
          ⟨db.dishes, db.mealPlans ++
            [⟨nid, today, MealType.dinner, some did, some (dish.name ++ " (voided)"),
              dish.defaultServings - relatedEatenSum db did i, MealStatus.eaten, true,
              some i, sm.householdId⟩]⟩)) := by
  constructor
  · simp [getAvailableLeftovers, hm, hd, hdd]
  · intro hpos
    simp only [voidLeftovers, hm, hd, hdd]
    rw [if_neg (by linarith)]

/-- Witness for C10: a *planned*, `isLeftover = true` entry still gets its
availability computed and voided. -/
theorem c10_no_source_qualification_witness :
    getAvailableLeftovers plannedDB 1 = 6 ∧
    voidLeftovers plannedDB "2026-03-09" 2 1 =
      (some 2,
        ⟨plannedDB.dishes, plannedDB.mealPlans ++
          [⟨2, "2026-03-09", MealType.dinner, some 10, some ("Soup" ++ " (voided)"),
            6, MealStatus.eaten, true, some 1, "h"⟩]⟩) := by
  have h := c10_no_source_qualification plannedDB "2026-03-09" 2 1 plannedMeal 10 soupDish
    (by decide) (by decide) (by decide)
  refine ⟨?_, ?_⟩
  · rw [h.1]
    with_unfolding_all decide
  · rw [h.2 (by with_unfolding_all decide)]
    with_unfolding_all decide

/- ===== C1 ===== -/

/-- C1 counterexample: an eaten entry that points at the source via
`sourceMealId` but carries no `dishId` is invisible to the `by_dishId`
index, so it is not subtracted.  Here `defaultServings = 6` and the eaten
entries that are the source or point at it sum to `4` (the source's `2`
plus the pointing entry's `2`), so the claim demands `6 − 4 = 2`, but
`getAvailableLeftovers` returns `4`. -/
theorem c1_counterexample :
    (findDish mixedRefDB 10).map Dish.defaultServings = some 6 ∧
    ((mixedRefDB.mealPlans.filter (fun mm => decide (mm.status = MealStatus.eaten) &&
        (decide (mm._id = 1) || decide (mm.sourceMealId = some 1)))).map
      (fun mm => mm.servingsUsed)).sum = 4 ∧
    getAvailableLeftovers mixedRefDB 1 = 4 ∧
    getAvailableLeftovers mixedRefDB 1 ≠ 6 - 4 := by
  refine ⟨?_, ?_, ?_, ?_⟩ <;> with_unfolding_all decide

/-- C1 (amended) — Leftover conservation over the `by_dishId` index: for a
source meal whose dish resolves and has `defaultServings = S`, with `U` the
`servingsUsed`-sum of the eaten entries *sharing the source's `dishId`* that
are the source itself or point at it via `sourceMealId`,
`getAvailableLeftovers` returns exactly `S − U` when `U ≤ S`, returns `0`
whenever `U ≥ S`, and is never negative.  (The claim's unrestricted sum over
all pointing entries is refuted by `c1_counterexample`: entries with a
different or absent `dishId` are not counted.) -/
theorem c1_leftover_conservation (db : DB) (i : Nat) (sm : MealPlan) (did : Nat)
    (dish : Dish) (S U : Rat)
    (hm : findMeal db i = some sm) (hd : sm.dishId = some did)
    (hdd : findDish db did = some dish)
    (hS : dish.defaultServings = S) (hU : relatedEatenSum db did i = U) :
    (U ≤ S → getAvailableLeftovers db i = S - U) ∧
    (S ≤ U → getAvailableLeftovers db i = 0) ∧
    0 ≤ getAvailableLeftovers db i := by
  have hav : getAvailableLeftovers db i = max 0 (S - U) := by
    simp [getAvailableLeftovers, hm, hd, hdd, hS, hU]
  refine ⟨fun hle => ?_, fun hge => ?_, ?_⟩
  · rw [hav, max_eq_right (by linarith)]
  · rw [hav, max_eq_left (by linarith)]
  · rw [hav]
    exact le_max_left 0 (S - U)

/-- Witness for C1 at the soup scenario: `S = 6`, `U = 2`, so the available
servings are exactly `4`. -/
theorem c1_leftover_conservation_witness :
    (2 : Rat) ≤ 6 ∧ getAvailableLeftovers soupDB 1 = 6 - 2 := by
  refine ⟨by norm_num, ?_⟩
  exact (c1_leftover_conservation soupDB 1 soupCook 10 soupDish 6 2
    (by decide) (by decide) (by decide) (by with_unfolding_all decide)
    (by with_unfolding_all decide)).1 (by norm_num)

/- ===== C7 ===== -/

/-- C7 — Void no-op on exhaustion: whenever `getAvailableLeftovers` reports
`0` (including the missing-source, missing-dish-reference and missing-dish
cases), `voidLeftovers` returns `none`, inserts nothing, leaves the store
unchanged, and availability stays `0`. -/
theorem c7_void_noop (db : DB) (today : String) (nid i : Nat)
    (h : getAvailableLeftovers db i = 0) :
    voidLeftovers db today nid i = (none, db) ∧
    getAvailableLeftovers (voidLeftovers db today nid i).2 i = 0 := by
  have hv : voidLeftovers db today nid i = (none, db) := by
    cases hm : findMeal db i with
    | none => simp [voidLeftovers, hm]
    | some sm =>
      cases hd : sm.dishId with
      | none => simp [voidLeftovers, hm, hd]
      | some did =>
        cases hdd : findDish db did with
        | none => simp [voidLeftovers, hm, hd, hdd]
        | some dish =>
          simp only [getAvailableLeftovers, hm, hd, hdd] at h
          have hle : dish.defaultServings - relatedEatenSum db did i ≤ 0 :=
            max_eq_left_iff.mp h
          simp only [voidLeftovers, hm, hd, hdd]
          rw [if_pos hle]
  exact ⟨hv, by rw [hv]; exact h⟩

/-- Witness for C7: voiding against an empty store (missing source) is a
no-op with availability `0`. -/
theorem c7_void_noop_witness :
    voidLeftovers ⟨[], []⟩ "2026-03-09" 1 5 = (none, ⟨[], []⟩) ∧
    getAvailableLeftovers (voidLeftovers ⟨[], []⟩ "2026-03-09" 1 5).2 5 = 0 :=
  c7_void_noop ⟨[], []⟩ "2026-03-09" 1 5 (by decide)

/- ===== C4 ===== -/

/-- C4 — Voiding leaves zero availability: if `getAvailableLeftovers` reports
`R > 0`, then `voidLeftovers` inserts exactly one new entry — `eaten`,
`isLeftover = true`, `servingsUsed = R`, linked via `sourceMealId`, dated
today, named `"<dish name> (voided)"` — and availability afterwards is `0`. -/
theorem c4_void_zeroes (db : DB) (today : String) (nid i : Nat) (R : Rat)
    (hR : getAvailableLeftovers db i = R) (hpos : 0 < R) :
    ∃ sm did dish, findMeal db i = some sm ∧ sm.dishId = some did ∧
      findDish db did = some dish ∧
      voidLeftovers db today nid i =
        (some nid,
          ⟨db.dishes, db.mealPlans ++
            [⟨nid, today, MealType.dinner, some did, some (dish.name ++ " (voided)"), R,
              MealStatus.eaten, true, some i, sm.householdId⟩]⟩) ∧
      getAvailableLeftovers (voidLeftovers db today nid i).2 i = 0 := by
  cases hm : findMeal db i with
  | none =>
    simp only [getAvailableLeftovers, hm] at hR
    exact absurd (hR ▸ hpos) (lt_irrefl R)
  | some sm =>
  cases hd : sm.dishId with
  | none =>
    simp only [getAvailableLeftovers, hm, hd] at hR
    exact absurd (hR ▸ hpos) (lt_irrefl R)
  | some did =>
  cases hdd : findDish db did with
  | none =>
    simp only [getAvailableLeftovers, hm, hd, hdd] at hR
    exact absurd (hR ▸ hpos) (lt_irrefl R)
  | some dish =>
    have hav : max 0 (dish.defaultServings - relatedEatenSum db did i) = R := by
      simpa only [getAvailableLeftovers, hm, hd, hdd] using hR
    have hrem : dish.defaultServings - relatedEatenSum db did i = R := by
      rcases max_cases 0 (dish.defaultServings - relatedEatenSum db did i) with ⟨h1, h2⟩ | ⟨h1, h2⟩
      · exfalso; rw [hav] at h1; linarith
      · rw [← hav, h1]
    refine ⟨sm, did, dish, rfl, hd, hdd, ?hgoal1, ?hgoal2⟩
    · simp only [voidLeftovers, hm, hd, hdd, hrem]
      rw [if_neg (by linarith)]
    · have hv : voidLeftovers db today nid i =
          (some nid,
            ⟨db.dishes, db.mealPlans ++
              [⟨nid, today, MealType.dinner, some did, some (dish.name ++ " (voided)"), R,
                MealStatus.eaten, true, some i, sm.householdId⟩]⟩) := by
        simp only [voidLeftovers, hm, hd, hdd, hrem]
        rw [if_neg (by linarith)]
      rw [hv]
      have hm' : findMeal ⟨db.dishes, db.mealPlans ++
          [⟨nid, today, MealType.dinner, some did, some (dish.name ++ " (voided)"), R,
            MealStatus.eaten, true, some i, sm.householdId⟩]⟩ i = some sm := by
        unfold findMeal at hm ⊢
        simp only [List.find?_append, hm]
        rfl
      have hdd' : findDish ⟨db.dishes, db.mealPlans ++
          [⟨nid, today, MealType.dinner, some did, some (dish.name ++ " (voided)"), R,
            MealStatus.eaten, true, some i, sm.householdId⟩]⟩ did = some dish := hdd
      simp only [getAvailableLeftovers, hm', hd, hdd']
      have hsum : relatedEatenSum ⟨db.dishes, db.mealPlans ++
          [⟨nid, today, MealType.dinner, some did, some (dish.name ++ " (voided)"), R,
            MealStatus.eaten, true, some i, sm.householdId⟩]⟩ did i
          = relatedEatenSum db did i + R := by
        unfold relatedEatenSum mealsByDishId
        simp [List.filter_append]
      rw [hsum]
      have : dish.defaultServings - (relatedEatenSum db did i + R) = 0 := by linarith
      rw [this]
      simp

/-- Witness for C4 at the soup scenario (`availableServings = 4`; voiding
creates an eaten leftover entry with `servingsUsed = 4`; availability then
`0`). -/
theorem c4_void_zeroes_witness :
    ∃ sm did dish, findMeal soupDB 1 = some sm ∧ sm.dishId = some did ∧
      findDish soupDB did = some dish ∧
      voidLeftovers soupDB "2026-03-09" 2 1 =
        (some 2,
          ⟨soupDB.dishes, soupDB.mealPlans ++
            [⟨2, "2026-03-09", MealType.dinner, some did, some (dish.name ++ " (voided)"), 4,
              MealStatus.eaten, true, some 1, sm.householdId⟩]⟩) ∧
      getAvailableLeftovers (voidLeftovers soupDB "2026-03-09" 2 1).2 1 = 0 :=
  c4_void_zeroes soupDB "2026-03-09" 2 1 4 (by with_unfolding_all decide) (by norm_num)

/- ===== C8 ===== -/

/-- C8 counterexample: `skipMeal` is an unconditional status patch, so it
moves an `eaten` entry to `skipped` — a transition out of a terminal status
through an exposed mutation. -/
theorem c8_counterexample :
    soupDB.mealPlans.map MealPlan.status = [MealStatus.eaten] ∧
    (skipMeal soupDB 1).mealPlans.map MealPlan.status = [MealStatus.skipped] := by
  with_unfolding_all decide

/-- C8 (amended) — Status-change surface of the exposed mutations:
`planMeal` and `voidLeftovers` only append entries (`planned`, resp.
`eaten`) and never touch an existing entry's status; `update` never changes
any status; but `eatMeal` and `skipMeal` patch the target's status
*unconditionally*, so `eaten ↔ skipped` transitions are exposed (refuting
the claim as stated); deletion via `remove` is the only other exit. -/
theorem c8_status_transitions (db : DB) (nid i : Nat) (day today : String)
    (mt : MealType) (dishId : Option Nat) (customName : Option String) (sv : Rat)
    (lo : Bool) (smid : Option Nat) (hh : String) :
    ((planMeal db nid day mt dishId customName sv lo smid hh).2.mealPlans.map MealPlan.status
        = db.mealPlans.map MealPlan.status ++ [MealStatus.planned]) ∧
    ((update db i dishId customName sv lo smid).mealPlans.map MealPlan.status
        = db.mealPlans.map MealPlan.status) ∧
    ((voidLeftovers db today nid i).2.mealPlans.map MealPlan.status
        = db.mealPlans.map MealPlan.status ∨
      (voidLeftovers db today nid i).2.mealPlans.map MealPlan.status
        = db.mealPlans.map MealPlan.status ++ [MealStatus.eaten]) ∧
    ((eatMeal db i).mealPlans.map MealPlan.status
        = db.mealPlans.map (fun mm => if mm._id = i then MealStatus.eaten else mm.status)) ∧
    ((skipMeal db i).mealPlans.map MealPlan.status
        = db.mealPlans.map (fun mm => if mm._id = i then MealStatus.skipped else mm.status)) := by
  refine ⟨?_, ?_, ?_, ?_, ?_⟩
  · simp [planMeal]
  · simp only [update, List.map_map]
    apply List.map_congr_left
    intro mm _
    by_cases hmi : mm._id = i <;> simp [hmi]
  · cases hm : findMeal db i with
    | none => exact Or.inl (by simp [voidLeftovers, hm])
    | some sm =>
      cases hd : sm.dishId with
      | none => exact Or.inl (by simp [voidLeftovers, hm, hd])
      | some did =>
        cases hdd : findDish db did with
        | none => exact Or.inl (by simp [voidLeftovers, hm, hd, hdd])
        | some dish =>
          by_cases hrem : dish.defaultServings - relatedEatenSum db did i ≤ 0
          · refine Or.inl ?_
            simp only [voidLeftovers, hm, hd, hdd]
            rw [if_pos hrem]
          · refine Or.inr ?_
            simp only [voidLeftovers, hm, hd, hdd]
            rw [if_neg hrem]
            simp
  · simp only [eatMeal, List.map_map]
    apply List.map_congr_left
    intro mm _
    by_cases hmi : mm._id = i <;> simp [hmi]
  · simp only [skipMeal, List.map_map]
    apply List.map_congr_left
    intro mm _
    by_cases hmi : mm._id = i <;> simp [hmi]

/- ===== C6 ===== -/

/-- The loop body of `getLeftoverSources` appends its per-meal result. -/
theorem leftoverSourcesStep_eq (db : DB) (meals : List MealPlan)
    (acc : List LeftoverSource) (meal : MealPlan) :
    leftoverSourcesStep db meals acc meal = acc ++ (leftoverSourceOf db meals meal).toList := by
  cases hd : meal.dishId with
  | none => simp [leftoverSourcesStep, leftoverSourceOf, hd]
  | some did =>
    cases hdd : findDish db did with
    | none => simp [leftoverSourcesStep, leftoverSourceOf, hd, hdd]
    | some dish =>
      simp only [leftoverSourcesStep, leftoverSourceOf, hd, hdd]
      unfold pointingEatenSum
      by_cases hpos : 0 < dish.defaultServings -
          (((meals.filter (fun mm =>
              decide (mm._id = meal._id) || decide (mm.sourceMealId = some meal._id))).filter
                (fun mm => decide (mm.status = MealStatus.eaten))).map
            (fun mm => mm.servingsUsed)).sum
      · rw [if_pos hpos, if_pos hpos]
        simp
      · rw [if_neg hpos, if_neg hpos]
        simp

/-- The `getLeftoverSources` accumulation is a `filterMap` over the filtered
source meals. -/
theorem getLeftoverSources_eq (db : DB) (hh : String) :
    getLeftoverSources db hh =
      ((mealsByHousehold db hh).filter (fun mm =>
          decide (mm.status = MealStatus.eaten) && !mm.isLeftover && mm.dishId.isSome)).filterMap
        (leftoverSourceOf db (mealsByHousehold db hh)) := by
  have h : ∀ (l : List MealPlan) (acc : List LeftoverSource),
      l.foldl (leftoverSourcesStep db (mealsByHousehold db hh)) acc =
        acc ++ l.filterMap (leftoverSourceOf db (mealsByHousehold db hh)) := by
    intro l
    induction l with
    | nil => simp
    | cons x t ih =>
      intro acc
      rw [List.foldl_cons, ih, leftoverSourcesStep_eq, List.filterMap_cons]
      cases leftoverSourceOf db (mealsByHousehold db hh) x <;> simp
  simp only [getLeftoverSources]
  rw [h]
  simp

/-- A member of a list with `Nodup` ids is found by its own id. -/
theorem find?_of_mem_nodup (l : List MealPlan) (hids : (l.map MealPlan._id).Nodup)
    (m : MealPlan) (hm : m ∈ l) :
    l.find? (fun mm => decide (mm._id = m._id)) = some m := by
  induction l with
  | nil => cases hm
  | cons x t ih =>
    rw [List.map_cons, List.nodup_cons] at hids
    rcases List.mem_cons.mp hm with rfl | hm'
    · simp
    · rw [List.find?_cons]
      by_cases hxi : x._id = m._id
      · exact absurd (hxi ▸ List.mem_map_of_mem MealPlan._id hm') hids.1
      · simp only [decide_eq_true_eq, hxi, if_neg]
        exact ih hids.2 hm'

/-- A ledger member is found by its own id when ids are `Nodup`. -/
theorem findMeal_of_mem (db : DB) (m : MealPlan)
    (hids : (db.mealPlans.map MealPlan._id).Nodup) (hm : m ∈ db.mealPlans) :
    findMeal db m._id = some m :=
  find?_of_mem_nodup db.mealPlans hids m hm

/-- Under the one-level-provenance discipline (every pointing entry shares
the source's `dishId` and `householdId`) and `Nodup` ids, the
household-scoped eaten sum of `getLeftoverSources` agrees with the
`by_dishId`-scoped eaten sum of `getAvailableLeftovers`. -/
theorem householdSum_eq_relatedSum (db : DB) (hh : String) (m : MealPlan) (did : Nat)
    (hids : (db.mealPlans.map MealPlan._id).Nodup)
    (hcompat : ∀ mm ∈ db.mealPlans, ∀ src ∈ db.mealPlans, mm.sourceMealId = some src._id →
      mm.dishId = src.dishId ∧ mm.householdId = src.householdId)
    (hm : m ∈ db.mealPlans) (hhh : m.householdId = hh) (hdid : m.dishId = some did) :
    pointingEatenSum (mealsByHousehold db hh) m._id = relatedEatenSum db did m._id := by
  unfold pointingEatenSum relatedEatenSum mealsByDishId mealsByHousehold
  rw [List.filter_filter, List.filter_filter, List.filter_filter, List.filter_filter]
  congr 1
  congr 1
  apply List.filter_congr
  intro mm hmm
  by_cases hrel : mm._id = m._id ∨ mm.sourceMealId = some m._id
  · have hboth : mm.householdId = hh ∧ mm.dishId = some did := by
      rcases hrel with hid | hsrc
      · have heq : mm = m := eq_of_mem_of_id_eq db.mealPlans hids mm m hmm hm hid
        exact heq ▸ ⟨hhh, hdid⟩
      · obtain ⟨h1, h2⟩ := hcompat mm hmm m hm hsrc
        exact ⟨h2.trans hhh, h1.trans hdid⟩
    simp [hboth.1, hboth.2]
  · push_neg at hrel
    simp [hrel.1, hrel.2]

/-- Characterization of a successful per-meal leftover-source computation. -/
theorem leftoverSourceOf_eq_some (db : DB) (meals : List MealPlan) (meal : MealPlan)
    (e : LeftoverSource) :
    leftoverSourceOf db meals meal = some e ↔
      ∃ did dish, meal.dishId = some did ∧ findDish db did = some dish ∧
        0 < dish.defaultServings - pointingEatenSum meals meal._id ∧
        e = ⟨meal, dish, dish.defaultServings - pointingEatenSum meals meal._id⟩ := by
  cases hd : meal.dishId with
  | none => simp [leftoverSourceOf, hd]
  | some did =>
    cases hdd : findDish db did with
    | none => simp [leftoverSourceOf, hd, hdd]
    | some dish =>
      simp only [leftoverSourceOf, hd, hdd]
      by_cases hp : 0 < dish.defaultServings - pointingEatenSum meals meal._id
      · rw [if_pos hp]
        constructor
        · intro h
          exact ⟨did, dish, rfl, hdd, hp, (Option.some.inj h).symm⟩
        · rintro ⟨did2, dish2, hdid2, hdd2, _, rfl⟩
          obtain rfl : did2 = did := Option.some.inj hdid2.symm
          obtain rfl : dish2 = dish := Option.some.inj (hdd2.symm.trans hdd)
          rfl
      · rw [if_neg hp]
        constructor
        · intro h
          cases h
        · rintro ⟨did2, dish2, hdid2, hdd2, hp2, rfl⟩
          obtain rfl : did2 = did := Option.some.inj hdid2.symm
          obtain rfl : dish2 = dish := Option.some.inj (hdd2.symm.trans hdd)
          exact absurd hp2 hp

/-- C6 (amended) — `getLeftoverSources` versus `getAvailableLeftovers`: with
unique ids and every pointing entry sharing its source's `dishId` and
`householdId` (the intended one-level provenance discipline — refuted
without it by `c6_counterexample`, since the loop sums over the household
index while `getAvailableLeftovers` sums over the `by_dishId` index), the
query returns exactly the household's eaten, non-leftover, dish-resolvable
entries with positive availability, each paired with its dish and with
`available = getAvailableLeftovers(meal._id) > 0`. -/
theorem c6_leftover_sources (db : DB) (hh : String)
    (hids : (db.mealPlans.map MealPlan._id).Nodup)
    (hcompat : ∀ mm ∈ db.mealPlans, ∀ src ∈ db.mealPlans, mm.sourceMealId = some src._id →
      mm.dishId = src.dishId ∧ mm.householdId = src.householdId) :
    (∀ e ∈ getLeftoverSources db hh,
      e.meal ∈ db.mealPlans ∧ e.meal.householdId = hh ∧
      e.meal.status = MealStatus.eaten ∧ e.meal.isLeftover = false ∧
      e.meal.dishId = some e.dish._id ∧ findDish db e.dish._id = some e.dish ∧
      e.available = getAvailableLeftovers db e.meal._id ∧ 0 < e.available) ∧
    (∀ m ∈ db.mealPlans, m.householdId = hh → m.status = MealStatus.eaten →
      m.isLeftover = false → ∀ did dish, m.dishId = some did → findDish db did = some dish →
      0 < getAvailableLeftovers db m._id →
      ∃ e ∈ getLeftoverSources db hh, e.meal = m ∧ e.dish = dish ∧
        e.available = getAvailableLeftovers db m._id) := by
  constructor
  · intro e he
    rw [getLeftoverSources_eq] at he
    obtain ⟨m, hmfilter, hsome⟩ := List.mem_filterMap.mp he
    have hmem := List.mem_filter.mp hmfilter
    have hmdb : m ∈ db.mealPlans := (List.mem_filter.mp hmem.1).1
    have hmhh : m.householdId = hh := by
      have := (List.mem_filter.mp hmem.1).2
      simpa using this
    obtain ⟨hst, hlo⟩ : m.status = MealStatus.eaten ∧ m.isLeftover = false := by
      have := hmem.2
      simp only [Bool.and_eq_true, decide_eq_true_eq, Bool.not_eq_true'] at this
      exact ⟨this.1.1, this.1.2⟩
    obtain ⟨did, dish, hdid, hdd, hp, rfl⟩ := (leftoverSourceOf_eq_some _ _ _ _).mp hsome
    have hsum := householdSum_eq_relatedSum db hh m did hids hcompat hmdb hmhh hdid
    have hfm : findMeal db m._id = some m := findMeal_of_mem db m hids hmdb
    have hav : getAvailableLeftovers db m._id =
        max 0 (dish.defaultServings - relatedEatenSum db did m._id) := by
      simp [getAvailableLeftovers, hfm, hdid, hdd]
    have hid := findDish_id db did dish hdd
    refine ⟨hmdb, hmhh, hst, hlo, ?_, ?_, ?_, hp⟩
    · simpa [hid] using hdid
    · simpa [hid] using hdd
    · simp only [hav, hsum]
      rw [hsum] at hp
      rw [max_eq_right (le_of_lt hp)]
  · intro m hm hmhh hst hlo did dish hdid hdd hpos
    have hsum := householdSum_eq_relatedSum db hh m did hids hcompat hm hmhh hdid
    have hfm : findMeal db m._id = some m := findMeal_of_mem db m hids hm
    have hav : getAvailableLeftovers db m._id =
        max 0 (dish.defaultServings - relatedEatenSum db did m._id) := by
      simp [getAvailableLeftovers, hfm, hdid, hdd]
    have hp : 0 < dish.defaultServings - relatedEatenSum db did m._id := by
      by_contra hc
      push_neg at hc
      rw [hav, max_eq_left hc] at hpos
      exact lt_irrefl 0 hpos
    refine ⟨⟨m, dish, dish.defaultServings - pointingEatenSum (mealsByHousehold db hh) m._id⟩,
      ?_, rfl, rfl, ?_⟩
    · rw [getLeftoverSources_eq]
      refine List.mem_filterMap.mpr ⟨m, ?_, ?_⟩
      · refine List.mem_filter.mpr ⟨List.mem_filter.mpr ⟨hm, by simp [hmhh]⟩, ?_⟩
        simp [hst, hlo, hdid]
      · exact (leftoverSourceOf_eq_some _ _ _ _).mpr
          ⟨did, dish, hdid, hdd, by rw [hsum]; exact hp, rfl⟩
    · simp only [hav, hsum]
      rw [max_eq_right (le_of_lt hp)]

/-- C6 counterexample: in `mixedRefDB` the entry pointing at source 1
carries no `dishId`, so `getAvailableLeftovers 1 = 4 > 0` (the `by_dishId`
index misses it) while `getLeftoverSources` — which sums over the household
list — reports `available = 2`; no returned element carries the
`getAvailableLeftovers` value, refuting the claimed agreement. -/
theorem c6_counterexample :
    getAvailableLeftovers mixedRefDB 1 = 4 ∧
    (getLeftoverSources mixedRefDB "h").map (fun e => (e.meal._id, e.available)) = [(1, 2)] ∧
    ¬ ∃ e ∈ getLeftoverSources mixedRefDB "h",
        e.meal._id = 1 ∧ e.available = getAvailableLeftovers mixedRefDB 1 := by
  refine ⟨?_, ?_, ?_⟩ <;> with_unfolding_all decide

/-- Witness for C6 at `soupDB` (ids unique, no pointing entries): the cook
event is returned with its dish and `available = getAvailableLeftovers`. -/
theorem c6_leftover_sources_witness :
    ∃ e ∈ getLeftoverSources soupDB "h", e.meal = soupCook ∧ e.dish = soupDish ∧
      e.available = getAvailableLeftovers soupDB soupCook._id :=
  (c6_leftover_sources soupDB "h" (by decide) (by with_unfolding_all decide)).2
    soupCook (by decide) (by decide) (by decide) (by decide) 10 soupDish (by decide)
    (by decide) (by with_unfolding_all decide)

/- ===== C3 ===== -/

/-- C3 counterexample: a `planned` entry *does* contribute to the shopping
list — `plannedDB`'s only entry is planned (never eaten), and the week's
list still contains its scaled ingredient line (`2 × 3/6 = 1`), refuting
"only entries with status eaten contribute". -/
theorem c3_counterexample :
    plannedDB.mealPlans.map MealPlan.status = [MealStatus.planned] ∧
    getWeekShoppingList (fixedTz 0) (fun a b => decide (a ≤ b)) plannedDB "h" 2026 3 2 =
      [("Pantry", [⟨"beans", 1, "cans", "Pantry"⟩])] := by
  refine ⟨?_, ?_⟩ <;> with_unfolding_all decide

/-- C3 (amended) — Skipped exclusion: an entry with `status = skipped`
contributes nothing to `getWeekShoppingList` — removing it from the ledger
leaves the output unchanged — even if it has a valid dish reference and
positive servings.  (The claim's further exclusion of `planned` entries is
refuted by `c3_counterexample`: the selection filter is
`status !== "skipped"`, so planned entries do contribute.) -/
theorem c3_skipped_excluded (tz : Timezone) (lc : String → String → Bool)
    (dishes : List Dish) (l1 l2 : List MealPlan) (e : MealPlan) (hh : String)
    (y m d : Int) (he : e.status = MealStatus.skipped) :
    getWeekShoppingList tz lc ⟨dishes, l1 ++ e :: l2⟩ hh y m d =
      getWeekShoppingList tz lc ⟨dishes, l1 ++ l2⟩ hh y m d := by
  have hwm : shoppingWeekMeals tz ⟨dishes, l1 ++ e :: l2⟩ hh y m d =
      shoppingWeekMeals tz ⟨dishes, l1 ++ l2⟩ hh y m d := by
    unfold shoppingWeekMeals mealsByHousehold
    by_cases hhh : e.householdId = hh
    · simp [List.filter_append, List.filter_cons, hhh, he]
    · simp [List.filter_append, List.filter_cons, hhh]
  have hdm : dishMapOf ⟨dishes, l1 ++ e :: l2⟩ = dishMapOf ⟨dishes, l1 ++ l2⟩ := rfl
  simp only [getWeekShoppingList, ingredientMapOf]
  rw [hwm, hdm]

/-- Witness for C3: dropping a concrete skipped meal leaves the concrete
week's shopping list unchanged. -/
theorem c3_skipped_excluded_witness :
    getWeekShoppingList (fixedTz 0) (fun a b => decide (a ≤ b))
        ⟨[soupDish], [soupCook] ++ skippedMeal :: []⟩ "h" 2026 3 2 =
      getWeekShoppingList (fixedTz 0) (fun a b => decide (a ≤ b))
        ⟨[soupDish], [soupCook] ++ []⟩ "h" 2026 3 2 :=
  c3_skipped_excluded (fixedTz 0) (fun a b => decide (a ≤ b)) [soupDish] [soupCook] []
    skippedMeal "h" 2026 3 2 (by decide)

/- ===== C5 ===== -/

/-- The `Map.set` then `get` at the same key. -/
theorem mapGet_mapSet_same (l : List (String × ShoppingItem)) (k : String)
    (v : ShoppingItem) : mapGet (mapSet l k v) k = some v := by
  induction l with
  | nil => simp [mapSet, mapGet]
  | cons kv rest ih =>
    by_cases h : kv.1 = k
    · simp [mapSet, mapGet, h]
    · simpa [mapSet, mapGet, h] using ih

/-- The `Map.set` then `get` at a different key. -/
theorem mapGet_mapSet_ne (l : List (String × ShoppingItem)) (k k' : String)
    (v : ShoppingItem) (h : k ≠ k') : mapGet (mapSet l k v) k' = mapGet l k' := by
  induction l with
  | nil => simp [mapSet, mapGet, h]
  | cons kv rest ih =>
    by_cases h1 : kv.1 = k
    · simp [mapSet, mapGet, h1, h]
    · simp only [mapSet, if_neg h1, mapGet]
      by_cases h2 : kv.1 = k'
      · simp [h2]
      · simpa [h2] using ih

/-- The `Map.get` misses exactly the keys not in the map. -/
theorem mapGet_eq_none_iff (l : List (String × ShoppingItem)) (k : String) :
    mapGet l k = none ↔ k ∉ l.map Prod.fst := by
  induction l with
  | nil => simp [mapGet]
  | cons kv rest ih =>
    by_cases h : kv.1 = k
    · simp [mapGet, h]
    · simp only [mapGet, if_neg h, List.map_cons, List.mem_cons, ih]
      constructor
      · intro hnone hc
        rcases hc with hc | hc
        · exact h hc.symm
        · exact hnone hc
      · intro hni
        exact fun hc => hni (Or.inr hc)

/-- The `Map.set` on a present key keeps the key sequence. -/
theorem mapSet_fst_of_get_some (l : List (String × ShoppingItem)) (k : String)
    (v : ShoppingItem) (h : (mapGet l k).isSome) :
    (mapSet l k v).map Prod.fst = l.map Prod.fst := by
  induction l with
  | nil => simp [mapGet] at h
  | cons kv rest ih =>
    by_cases h1 : kv.1 = k
    · simp [mapSet, h1]
    · simp only [mapGet, if_neg h1] at h
      simp [mapSet, if_neg h1, ih h]

/-- The `Map.set` on an absent key appends it. -/
theorem mapSet_fst_of_get_none (l : List (String × ShoppingItem)) (k : String)
    (v : ShoppingItem) (h : mapGet l k = none) :
    (mapSet l k v).map Prod.fst = l.map Prod.fst ++ [k] := by
  induction l with
  | nil => simp [mapSet]
  | cons kv rest ih =>
    by_cases h1 : kv.1 = k
    · simp [mapGet, h1] at h
    · simp only [mapGet, if_neg h1] at h
      simp [mapSet, if_neg h1, ih h]

/-- Effect of the inner-loop body at the touched key. -/
theorem mapGet_addIngredient_same (r : Rat) (acc : List (String × ShoppingItem))
    (ing : Ingredient) :
    mapGet (addIngredient r acc ing) (ingredientKey ing) =
      some (match mapGet acc (ingredientKey ing) with
            | some ex => { ex with quantity := ex.quantity + ing.quantity * r }
            | none => ⟨ing.name, ing.quantity * r, ing.unit, ing.category⟩) := by
  unfold addIngredient
  cases h : mapGet acc (ingredientKey ing) <;> simp [mapGet_mapSet_same, h]

/-- Effect of the inner-loop body away from the touched key. -/
theorem mapGet_addIngredient_ne (r : Rat) (acc : List (String × ShoppingItem))
    (ing : Ingredient) (k : String) (h : ingredientKey ing ≠ k) :
    mapGet (addIngredient r acc ing) k = mapGet acc k := by
  unfold addIngredient
  cases h2 : mapGet acc (ingredientKey ing) <;>
    simp [mapGet_mapSet_ne _ _ _ _ h, h2]

/-- The inner-loop body preserves key uniqueness. -/
theorem addIngredient_keys_nodup (r : Rat) (acc : List (String × ShoppingItem))
    (ing : Ingredient) (h : (acc.map Prod.fst).Nodup) :
    ((addIngredient r acc ing).map Prod.fst).Nodup := by
  unfold addIngredient
  cases hg : mapGet acc (ingredientKey ing) with
  | some ex =>
    simp only
    rw [mapSet_fst_of_get_some acc _ _ (by simp [hg])]
    exact h
  | none =>
    simp only
    rw [mapSet_fst_of_get_none acc _ _ hg]
    have hnotin : ingredientKey ing ∉ acc.map Prod.fst :=
      (mapGet_eq_none_iff acc (ingredientKey ing)).mp hg
    simp [List.nodup_append, h, hnotin]

/-- The `keyTotal` of the empty contribution list. -/
theorem keyTotal_nil (k : String) : keyTotal [] k = 0 := rfl

/-- The `keyTotal` over a cons, matching head. -/
theorem keyTotal_cons_pos (ri : Rat × Ingredient) (t : List (Rat × Ingredient))
    (k : String) (h : ingredientKey ri.2 = k) :
    keyTotal (ri :: t) k = ri.2.quantity * ri.1 + keyTotal t k := by
  simp [keyTotal, h]

/-- The `keyTotal` over a cons, non-matching head. -/
theorem keyTotal_cons_neg (ri : Rat × Ingredient) (t : List (Rat × Ingredient))
    (k : String) (h : ¬ingredientKey ri.2 = k) :
    keyTotal (ri :: t) k = keyTotal t k := by
  simp [keyTotal, h]

/-- Running the inner-loop body over a flat contribution list: each key's
entry carries the fields of the key's first occurrence and the accumulated
serving-ratio-weighted quantity. -/
theorem mapGet_addList (l : List (Rat × Ingredient))
    (acc : List (String × ShoppingItem)) (k : String) :
    mapGet (l.foldl (fun a ri => addIngredient ri.1 a ri.2) acc) k =
      match mapGet acc k, l.find? (fun ri => decide (ingredientKey ri.2 = k)) with
      | some ex, _ => some { ex with quantity := ex.quantity + keyTotal l k }
      | none, some ri => some ⟨ri.2.name, keyTotal l k, ri.2.unit, ri.2.category⟩
      | none, none => none := by
  induction l generalizing acc with
  | nil =>
    cases hacc : mapGet acc k with
    | none => simp [hacc]
    | some ex => simp [keyTotal_nil, hacc]
  | cons ri t ih =>
    rw [List.foldl_cons, ih (addIngredient ri.1 acc ri.2)]
    by_cases hk : ingredientKey ri.2 = k
    · rw [keyTotal_cons_pos ri t k hk, List.find?_cons_of_pos _ (by simpa using hk)]
      subst hk
      rw [mapGet_addIngredient_same ri.1 acc ri.2]
      cases hacc : mapGet acc (ingredientKey ri.2) with
      | none => simp [hacc]
      | some ex => simp [hacc, add_assoc]
    · rw [keyTotal_cons_neg ri t k hk, List.find?_cons_of_neg _ (by simpa using hk),
        mapGet_addIngredient_ne ri.1 acc ri.2 k hk]

/-- Key uniqueness of the accumulated ingredient map. -/
theorem addList_keys_nodup (l : List (Rat × Ingredient))
    (acc : List (String × ShoppingItem)) (h : (acc.map Prod.fst).Nodup) :
    ((l.foldl (fun a ri => addIngredient ri.1 a ri.2) acc).map Prod.fst).Nodup := by
  induction l generalizing acc with
  | nil => exact h
  | cons ri t ih =>
    rw [List.foldl_cons]
    exact ih (addIngredient ri.1 acc ri.2) (addIngredient_keys_nodup ri.1 acc ri.2 h)

/-- The outer meal loop is the inner loop run over that meal's contributions. -/
theorem addMealIngredients_eq (dishMap : List (Nat × Dish))
    (acc : List (String × ShoppingItem)) (mm : MealPlan) :
    addMealIngredients dishMap acc mm =
      (mealContribs dishMap mm).foldl (fun a ri => addIngredient ri.1 a ri.2) acc := by
  cases hd : mm.dishId with
  | none => simp [addMealIngredients, mealContribs, hd]
  | some did =>
    cases hdd : dishMapGet dishMap did with
    | none => simp [addMealIngredients, mealContribs, hd, hdd]
    | some dish =>
      simp only [addMealIngredients, mealContribs, hd, hdd]
      rw [List.foldl_map]

/-- Folding over a `flatMap` is the nested fold. -/
theorem foldl_flatMap_eq {α β γ : Type} (g : α → List β) (f : γ → β → γ)
    (l : List α) (init : γ) :
    (l.flatMap g).foldl f init = l.foldl (fun acc x => (g x).foldl f acc) init := by
  induction l generalizing init with
  | nil => rfl
  | cons x t ih => simp [List.flatMap_cons, List.foldl_append, ih]

/-- The accumulated ingredient map is the flat fold over the week's
contributions. -/
theorem ingredientMapOf_eq_flat (tz : Timezone) (db : DB) (hh : String)
    (y m d : Int) :
    ingredientMapOf tz db hh y m d =
      (weekContributions tz db hh y m d).foldl
        (fun a ri => addIngredient ri.1 a ri.2) [] := by
  unfold ingredientMapOf weekContributions
  rw [foldl_flatMap_eq]
  have h : ∀ (l : List MealPlan) (acc : List (String × ShoppingItem)) dm,
      l.foldl (addMealIngredients dm) acc =
        l.foldl (fun acc x => (mealContribs dm x).foldl
          (fun a ri => addIngredient ri.1 a ri.2) acc) acc := by
    intro l
    induction l with
    | nil => intro acc dm; rfl
    | cons x t ih =>
      intro acc dm
      rw [List.foldl_cons, List.foldl_cons, addMealIngredients_eq, ih]
  exact h _ _ _

/-- The `groupPush` then `groupGet` at the pushed category. -/
theorem groupGet_groupPush_same (g : List (String × List ShoppingItem))
    (cat : String) (it : ShoppingItem) :
    groupGet (groupPush g cat it) cat =
      some ((match groupGet g cat with
             | none => []
             | some b => b) ++ [it]) := by
  induction g with
  | nil => simp [groupPush, groupGet]
  | cons cl rest ih =>
    by_cases h : cl.1 = cat
    · simp [groupPush, groupGet, h]
    · simpa [groupPush, groupGet, h] using ih

/-- The `groupPush` then `groupGet` at a different category. -/
theorem groupGet_groupPush_ne (g : List (String × List ShoppingItem))
    (cat cat' : String) (it : ShoppingItem) (h : cat ≠ cat') :
    groupGet (groupPush g cat it) cat' = groupGet g cat' := by
  induction g with
  | nil => simp [groupPush, groupGet, h]
  | cons cl rest ih =>
    by_cases h1 : cl.1 = cat
    · simp [groupPush, groupGet, h1, h]
    · simp only [groupPush, if_neg h1, groupGet]
      by_cases h2 : cl.1 = cat'
      · simp [h2]
      · simpa [h2] using ih

/-- Pushing a run of items buckets them by category in iteration order. -/
theorem groupGet_pushAll (items : List ShoppingItem)
    (g : List (String × List ShoppingItem)) (cat : String) :
    groupGet (items.foldl (fun g it => groupPush g it.category it) g) cat =
      match groupGet g cat, items.filter (fun it => decide (it.category = cat)) with
      | none, [] => none
      | none, l => some l
      | some b, l => some (b ++ l) := by
  induction items generalizing g with
  | nil =>
    cases hg : groupGet g cat with
    | none => simp [hg]
    | some b => simp [hg]
  | cons it t ih =>
    rw [List.foldl_cons, ih (groupPush g it.category it)]
    by_cases hc : it.category = cat
    · rw [List.filter_cons_of_pos (by simpa using hc)]
      rw [hc, groupGet_groupPush_same]
      cases hg : groupGet g cat with
      | none => simp
      | some b =>
        cases hf : t.filter (fun it => decide (it.category = cat)) <;> simp [hf]
    · rw [List.filter_cons_of_neg (by simpa using hc),
        groupGet_groupPush_ne g it.category cat it hc]

/-- The `groupGet` through the final per-category transformation. -/
theorem groupGet_map_snd (gl : List (String × List ShoppingItem))
    (f : List ShoppingItem → List ShoppingItem) (cat : String) :
    groupGet (gl.map (fun cl => (cl.1, f cl.2))) cat = (groupGet gl cat).map f := by
  induction gl with
  | nil => simp [groupGet]
  | cons cl rest ih =>
    by_cases h : cl.1 = cat
    · simp [groupGet, h]
    · simpa [groupGet, h] using ih

/-- The grouping fold consumes the rounded items of the map in order. -/
theorem grouped_fold_eq (M : List (String × ShoppingItem))
    (g0 : List (String × List ShoppingItem)) :
    M.foldl (fun g kv => groupPush g kv.2.category
        { kv.2 with quantity := round2 kv.2.quantity }) g0 =
      (M.map (fun kv => { kv.2 with quantity := round2 kv.2.quantity })).foldl
        (fun g it => groupPush g it.category it) g0 := by
  induction M generalizing g0 with
  | nil => rfl
  | cons kv t ih =>
    simp only [List.foldl_cons, List.map_cons]
    rw [ih]

/-- C5 (amended) — Shopping aggregation merge, keyed by the joined string
`name ++ "|" ++ unit ++ "|" ++ category`: the ingredient map holds exactly
one entry per occurring key (so occurrences with the same key merge into a
single line and occurrences with distinct keys stay separate), that entry
carries the fields of the key's first occurrence and a quantity equal to
the sum over contributing occurrences of `quantity × (servingsUsed /
defaultServings)`, and each output category bucket lists the map's items of
that category with quantities rounded to 2 decimals, sorted by the locale
comparison.  (Matching is by the *joined* key, not the exact triple: when a
field contains the separator `"|"`, occurrences with different
`(name, unit, category)` can collide and merge — see `c5_counterexample` —
which is the single correction to the claim; for separator-free fields the
key equality coincides with triple equality.) -/
theorem c5_aggregation_merge (tz : Timezone) (lc : String → String → Bool) (db : DB)
    (hh : String) (y m d : Int) (k cat : String) :
    ((ingredientMapOf tz db hh y m d).map Prod.fst).Nodup ∧
    mapGet (ingredientMapOf tz db hh y m d) k =
      (match (weekContributions tz db hh y m d).find?
          (fun ri => decide (ingredientKey ri.2 = k)) with
       | none => none
       | some ri => some ⟨ri.2.name, keyTotal (weekContributions tz db hh y m d) k,
           ri.2.unit, ri.2.category⟩) ∧
    groupGet (getWeekShoppingList tz lc db hh y m d) cat =
      (match ((ingredientMapOf tz db hh y m d).map
          (fun kv => { kv.2 with quantity := round2 kv.2.quantity })).filter
          (fun it => decide (it.category = cat)) with
       | [] => none
       | items => some (items.mergeSort (fun a b => lc a.name b.name))) := by
  refine ⟨?_, ?_, ?_⟩
  · rw [ingredientMapOf_eq_flat]
    exact addList_keys_nodup _ [] (by simp)
  · rw [ingredientMapOf_eq_flat, mapGet_addList]
    cases hf : (weekContributions tz db hh y m d).find?
        (fun ri => decide (ingredientKey ri.2 = k)) <;> simp [mapGet, hf]
  · have hout : getWeekShoppingList tz lc db hh y m d =
        (((ingredientMapOf tz db hh y m d).map
            (fun kv => { kv.2 with quantity := round2 kv.2.quantity })).foldl
          (fun g it => groupPush g it.category it) []).map
          (fun cl => (cl.1, cl.2.mergeSort (fun a b => lc a.name b.name))) := by
      simp only [getWeekShoppingList]
      rw [grouped_fold_eq]
    rw [hout, groupGet_map_snd _ (fun its => its.mergeSort (fun a b => lc a.name b.name)) cat,
      groupGet_pushAll]
    cases hf : ((ingredientMapOf tz db hh y m d).map
        (fun kv => { kv.2 with quantity := round2 kv.2.quantity })).filter
        (fun it => decide (it.category = cat)) <;> simp [groupGet, hf]

/-- C5 counterexample: two ingredient occurrences with *different*
`(name, unit, category)` triples — `("a|x", "", "")` and `("a", "x|", "")` —
produce the same joined key `"a|x||"`, so they merge into a single line of
quantity `2` instead of two separate lines. -/
theorem c5_counterexample :
    pipeDish.ingredients = [⟨"a|x", 1, "", ""⟩, ⟨"a", 1, "x|", ""⟩] ∧
    ingredientKey ⟨"a|x", 1, "", ""⟩ = ingredientKey ⟨"a", 1, "x|", ""⟩ ∧
    (⟨"a|x", 1, "", ""⟩ : Ingredient).name ≠ (⟨"a", 1, "x|", ""⟩ : Ingredient).name ∧
    getWeekShoppingList (fixedTz 0) (fun a b => decide (a ≤ b)) pipeDB "h" 2026 3 2 =
      [("", [⟨"a|x", 2, "", ""⟩])] := by
  refine ⟨?_, ?_, ?_, ?_⟩ <;> with_unfolding_all decide

/- ===== C2 ===== -/

/-- Auxiliary window lemma for the year-of-era formula (proved by a pinned
interval split, one leaf per maximal interval on which every quotient in the
formula is constant). -/
theorem yoe_window (doe K F G Y : Int)
    (hK : doe / 1460 = K) (hF : doe / 36524 = F) (hG : doe / 146096 = G)
    (hY : (doe - K + F - G) / 365 = Y)
    (h1 : 0 <= Y) (h2 : Y <= 399)
    (h3 : 365 * Y + Y / 4 - Y / 100 <= doe) (h4 : doe <= 365 * Y + Y / 4 - Y / 100 + 365) :
    0 <= (doe - doe / 1460 + doe / 36524 - doe / 146096) / 365 /\
    (doe - doe / 1460 + doe / 36524 - doe / 146096) / 365 <= 399 /\
    365 * ((doe - doe / 1460 + doe / 36524 - doe / 146096) / 365) +
      ((doe - doe / 1460 + doe / 36524 - doe / 146096) / 365) / 4 -
      ((doe - doe / 1460 + doe / 36524 - doe / 146096) / 365) / 100 <= doe /\
    doe - (365 * ((doe - doe / 1460 + doe / 36524 - doe / 146096) / 365) +
      ((doe - doe / 1460 + doe / 36524 - doe / 146096) / 365) / 4 -
      ((doe - doe / 1460 + doe / 36524 - doe / 146096) / 365) / 100) <= 365 := by
  rw [hK, hF, hG, hY]
  omega

set_option maxHeartbeats 16000000 in
theorem yoe_core (doe : Int) (h0 : 0 <= doe) (hN : doe <= 146096) :
    0 <= yoeOfDoe doe /\ yoeOfDoe doe <= 399 /\
    yearStartDoe (yoeOfDoe doe) <= doe /\ doe - yearStartDoe (yoeOfDoe doe) <= 365 := by
  unfold yoeOfDoe yearStartDoe
  rcases lt_or_le doe 73413 with hq0 | hq0
  · --
    rcases lt_or_le doe 36889 with hq1 | hq1
    · --
      rcases lt_or_le doe 18627 with hq2 | hq2
      · --
        rcases lt_or_le doe 9496 with hq3 | hq3
        · --
          rcases lt_or_le doe 4748 with hq4 | hq4
          · --
            rcases lt_or_le doe 2556 with hq5 | hq5
            · --
              rcases lt_or_le doe 1460 with hq6 | hq6
              · --
                rcases lt_or_le doe 730 with hq7 | hq7
                · --
                  rcases lt_or_le doe 365 with hq8 | hq8
                  · --
                    exact yoe_window doe 0 0 0 0 (by omega) (by omega) (by omega) (by omega) (by omega) (by omega) (by omega) (by omega)
                  · --
                    exact yoe_window doe 0 0 0 1 (by omega) (by omega) (by omega) (by omega) (by omega) (by omega) (by omega) (by omega)
                · --
                  rcases lt_or_le doe 1095 with hq8 | hq8
                  · --
                    exact yoe_window doe 0 0 0 2 (by omega) (by omega) (by omega) (by omega) (by omega) (by omega) (by omega) (by omega)
                  · --
                    exact yoe_window doe 0 0 0 3 (by omega) (by omega) (by omega) (by omega) (by omega) (by omega) (by omega) (by omega)
              · --
                rcases lt_or_le doe 1826 with hq7 | hq7
                · --
                  rcases lt_or_le doe 1461 with hq8 | hq8
                  · --
                    exact yoe_window doe 1 0 0 3 (by omega) (by omega) (by omega) (by omega) (by omega) (by omega) (by omega) (by omega)
                  · --
                    exact yoe_window doe 1 0 0 4 (by omega) (by omega) (by omega) (by omega) (by omega) (by omega) (by omega) (by omega)
                · --
                  rcases lt_or_le doe 2191 with hq8 | hq8
                  · --
                    exact yoe_window doe 1 0 0 5 (by omega) (by omega) (by omega) (by omega) (by omega) (by omega) (by omega) (by omega)
                  · --
                    exact yoe_window doe 1 0 0 6 (by omega) (by omega) (by omega) (by omega) (by omega) (by omega) (by omega) (by omega)
            · --
              rcases lt_or_le doe 3652 with hq6 | hq6
              · --
                rcases lt_or_le doe 2922 with hq7 | hq7
                · --
                  rcases lt_or_le doe 2920 with hq8 | hq8
                  · --
                    exact yoe_window doe 1 0 0 7 (by omega) (by omega) (by omega) (by omega) (by omega) (by omega) (by omega) (by omega)
                  · --
                    exact yoe_window doe 2 0 0 7 (by omega) (by omega) (by omega) (by omega) (by omega) (by omega) (by omega) (by omega)
                · --
                  rcases lt_or_le doe 3287 with hq8 | hq8
                  · --
                    exact yoe_window doe 2 0 0 8 (by omega) (by omega) (by omega) (by omega) (by omega) (by omega) (by omega) (by omega)
                  · --
                    exact yoe_window doe 2 0 0 9 (by omega) (by omega) (by omega) (by omega) (by omega) (by omega) (by omega) (by omega)
              · --
                rcases lt_or_le doe 4380 with hq7 | hq7
                · --
                  rcases lt_or_le doe 4017 with hq8 | hq8
                  · --
                    exact yoe_window doe 2 0 0 10 (by omega) (by omega) (by omega) (by omega) (by omega) (by omega) (by omega) (by omega)
                  · --
                    exact yoe_window doe 2 0 0 11 (by omega) (by omega) (by omega) (by omega) (by omega) (by omega) (by omega) (by omega)
                · --
                  rcases lt_or_le doe 4383 with hq8 | hq8
                  · --
                    exact yoe_window doe 3 0 0 11 (by omega) (by omega) (by omega) (by omega) (by omega) (by omega) (by omega) (by omega)
                  · --
                    exact yoe_window doe 3 0 0 12 (by omega) (by omega) (by omega) (by omega) (by omega) (by omega) (by omega) (by omega)
          · --
            rcases lt_or_le doe 7300 with hq5 | hq5
            · --
              rcases lt_or_le doe 5844 with hq6 | hq6
              · --
                rcases lt_or_le doe 5478 with hq7 | hq7
                · --
                  rcases lt_or_le doe 5113 with hq8 | hq8
                  · --
                    exact yoe_window doe 3 0 0 13 (by omega) (by omega) (by omega) (by omega) (by omega) (by omega) (by omega) (by omega)
                  · --
                    exact yoe_window doe 3 0 0 14 (by omega) (by omega) (by omega) (by omega) (by omega) (by omega) (by omega) (by omega)
                · --
                  rcases lt_or_le doe 5840 with hq8 | hq8
                  · --
                    exact yoe_window doe 3 0 0 15 (by omega) (by omega) (by omega) (by omega) (by omega) (by omega) (by omega) (by omega)
                  · --
                    exact yoe_window doe 4 0 0 15 (by omega) (by omega) (by omega) (by omega) (by omega) (by omega) (by omega) (by omega)
              · --
                rcases lt_or_le doe 6574 with hq7 | hq7
                · --
                  rcases lt_or_le doe 6209 with hq8 | hq8
                  · --
                    exact yoe_window doe 4 0 0 16 (by omega) (by omega) (by omega) (by omega) (by omega) (by omega) (by omega) (by omega)
                  · --
                    exact yoe_window doe 4 0 0 17 (by omega) (by omega) (by omega) (by omega) (by omega) (by omega) (by omega) (by omega)
                · --
                  rcases lt_or_le doe 6939 with hq8 | hq8
                  · --
                    exact yoe_window doe 4 0 0 18 (by omega) (by omega) (by omega) (by omega) (by omega) (by omega) (by omega) (by omega)
                  · --
                    exact yoe_window doe 4 0 0 19 (by omega) (by omega) (by omega) (by omega) (by omega) (by omega) (by omega) (by omega)
            · --
              rcases lt_or_le doe 8400 with hq6 | hq6
              · --
                rcases lt_or_le doe 7670 with hq7 | hq7
                · --
                  rcases lt_or_le doe 7305 with hq8 | hq8
                  · --
                    exact yoe_window doe 5 0 0 19 (by omega) (by omega) (by omega) (by omega) (by omega) (by omega) (by omega) (by omega)
                  · --
                    exact yoe_window doe 5 0 0 20 (by omega) (by omega) (by omega) (by omega) (by omega) (by omega) (by omega) (by omega)
                · --
                  rcases lt_or_le doe 8035 with hq8 | hq8
                  · --
                    exact yoe_window doe 5 0 0 21 (by omega) (by omega) (by omega) (by omega) (by omega) (by omega) (by omega) (by omega)
                  · --
                    exact yoe_window doe 5 0 0 22 (by omega) (by omega) (by omega) (by omega) (by omega) (by omega) (by omega) (by omega)
              · --
                rcases lt_or_le doe 8766 with hq7 | hq7
                · --
                  rcases lt_or_le doe 8760 with hq8 | hq8
                  · --
                    exact yoe_window doe 5 0 0 23 (by omega) (by omega) (by omega) (by omega) (by omega) (by omega) (by omega) (by omega)
                  · --
                    exact yoe_window doe 6 0 0 23 (by omega) (by omega) (by omega) (by omega) (by omega) (by omega) (by omega) (by omega)
                · --
                  rcases lt_or_le doe 9131 with hq8 | hq8
                  · --
                    exact yoe_window doe 6 0 0 24 (by omega) (by omega) (by omega) (by omega) (by omega) (by omega) (by omega) (by omega)
                  · --
                    exact yoe_window doe 6 0 0 25 (by omega) (by omega) (by omega) (by omega) (by omega) (by omega) (by omega) (by omega)
        · --
          rcases lt_or_le doe 14244 with hq4 | hq4
          · --
            rcases lt_or_le doe 11688 with hq5 | hq5
            · --
              rcases lt_or_le doe 10592 with hq6 | hq6
              · --
                rcases lt_or_le doe 10220 with hq7 | hq7
                · --
                  rcases lt_or_le doe 9861 with hq8 | hq8
                  · --
                    exact yoe_window doe 6 0 0 26 (by omega) (by omega) (by omega) (by omega) (by omega) (by omega) (by omega) (by omega)
                  · --
                    exact yoe_window doe 6 0 0 27 (by omega) (by omega) (by omega) (by omega) (by omega) (by omega) (by omega) (by omega)
                · --
                  rcases lt_or_le doe 10227 with hq8 | hq8
                  · --
                    exact yoe_window doe 7 0 0 27 (by omega) (by omega) (by omega) (by omega) (by omega) (by omega) (by omega) (by omega)
                  · --
                    exact yoe_window doe 7 0 0 28 (by omega) (by omega) (by omega) (by omega) (by omega) (by omega) (by omega) (by omega)
              · --
                rcases lt_or_le doe 11322 with hq7 | hq7
                · --
                  rcases lt_or_le doe 10957 with hq8 | hq8
                  · --
                    exact yoe_window doe 7 0 0 29 (by omega) (by omega) (by omega) (by omega) (by omega) (by omega) (by omega) (by omega)
                  · --
                    exact yoe_window doe 7 0 0 30 (by omega) (by omega) (by omega) (by omega) (by omega) (by omega) (by omega) (by omega)
                · --
                  rcases lt_or_le doe 11680 with hq8 | hq8
                  · --
                    exact yoe_window doe 7 0 0 31 (by omega) (by omega) (by omega) (by omega) (by omega) (by omega) (by omega) (by omega)
                  · --
                    exact yoe_window doe 8 0 0 31 (by omega) (by omega) (by omega) (by omega) (by omega) (by omega) (by omega) (by omega)
            · --
              rcases lt_or_le doe 13140 with hq6 | hq6
              · --
                rcases lt_or_le doe 12418 with hq7 | hq7
                · --
                  rcases lt_or_le doe 12053 with hq8 | hq8
                  · --
                    exact yoe_window doe 8 0 0 32 (by omega) (by omega) (by omega) (by omega) (by omega) (by omega) (by omega) (by omega)
                  · --
                    exact yoe_window doe 8 0 0 33 (by omega) (by omega) (by omega) (by omega) (by omega) (by omega) (by omega) (by omega)
                · --
                  rcases lt_or_le doe 12783 with hq8 | hq8
                  · --
                    exact yoe_window doe 8 0 0 34 (by omega) (by omega) (by omega) (by omega) (by omega) (by omega) (by omega) (by omega)
                  · --
                    exact yoe_window doe 8 0 0 35 (by omega) (by omega) (by omega) (by omega) (by omega) (by omega) (by omega) (by omega)
              · --
                rcases lt_or_le doe 13514 with hq7 | hq7
                · --
                  rcases lt_or_le doe 13149 with hq8 | hq8
                  · --
                    exact yoe_window doe 9 0 0 35 (by omega) (by omega) (by omega) (by omega) (by omega) (by omega) (by omega) (by omega)
                  · --
                    exact yoe_window doe 9 0 0 36 (by omega) (by omega) (by omega) (by omega) (by omega) (by omega) (by omega) (by omega)
                · --
                  rcases lt_or_le doe 13879 with hq8 | hq8
                  · --
                    exact yoe_window doe 9 0 0 37 (by omega) (by omega) (by omega) (by omega) (by omega) (by omega) (by omega) (by omega)
                  · --
                    exact yoe_window doe 9 0 0 38 (by omega) (by omega) (by omega) (by omega) (by omega) (by omega) (by omega) (by omega)
          · --
            rcases lt_or_le doe 16436 with hq5 | hq5
            · --
              rcases lt_or_le doe 15340 with hq6 | hq6
              · --
                rcases lt_or_le doe 14610 with hq7 | hq7
                · --
                  rcases lt_or_le doe 14600 with hq8 | hq8
                  · --
                    exact yoe_window doe 9 0 0 39 (by omega) (by omega) (by omega) (by omega) (by omega) (by omega) (by omega) (by omega)
                  · --
                    exact yoe_window doe 10 0 0 39 (by omega) (by omega) (by omega) (by omega) (by omega) (by omega) (by omega) (by omega)
                · --
                  rcases lt_or_le doe 14975 with hq8 | hq8
                  · --
                    exact yoe_window doe 10 0 0 40 (by omega) (by omega) (by omega) (by omega) (by omega) (by omega) (by omega) (by omega)
                  · --
                    exact yoe_window doe 10 0 0 41 (by omega) (by omega) (by omega) (by omega) (by omega) (by omega) (by omega) (by omega)
              · --
                rcases lt_or_le doe 16060 with hq7 | hq7
                · --
                  rcases lt_or_le doe 15705 with hq8 | hq8
                  · --
                    exact yoe_window doe 10 0 0 42 (by omega) (by omega) (by omega) (by omega) (by omega) (by omega) (by omega) (by omega)
                  · --
                    exact yoe_window doe 10 0 0 43 (by omega) (by omega) (by omega) (by omega) (by omega) (by omega) (by omega) (by omega)
                · --
                  rcases lt_or_le doe 16071 with hq8 | hq8
                  · --
                    exact yoe_window doe 11 0 0 43 (by omega) (by omega) (by omega) (by omega) (by omega) (by omega) (by omega) (by omega)
                  · --
                    exact yoe_window doe 11 0 0 44 (by omega) (by omega) (by omega) (by omega) (by omega) (by omega) (by omega) (by omega)
            · --
              rcases lt_or_le doe 17532 with hq6 | hq6
              · --
                rcases lt_or_le doe 17166 with hq7 | hq7
                · --
                  rcases lt_or_le doe 16801 with hq8 | hq8
                  · --
                    exact yoe_window doe 11 0 0 45 (by omega) (by omega) (by omega) (by omega) (by omega) (by omega) (by omega) (by omega)
                  · --
                    exact yoe_window doe 11 0 0 46 (by omega) (by omega) (by omega) (by omega) (by omega) (by omega) (by omega) (by omega)
                · --
                  rcases lt_or_le doe 17520 with hq8 | hq8
                  · --
                    exact yoe_window doe 11 0 0 47 (by omega) (by omega) (by omega) (by omega) (by omega) (by omega) (by omega) (by omega)
                  · --
                    exact yoe_window doe 12 0 0 47 (by omega) (by omega) (by omega) (by omega) (by omega) (by omega) (by omega) (by omega)
              · --
                rcases lt_or_le doe 18262 with hq7 | hq7
                · --
                  rcases lt_or_le doe 17897 with hq8 | hq8
                  · --
                    exact yoe_window doe 12 0 0 48 (by omega) (by omega) (by omega) (by omega) (by omega) (by omega) (by omega) (by omega)
                  · --
                    exact yoe_window doe 12 0 0 49 (by omega) (by omega) (by omega) (by omega) (by omega) (by omega) (by omega) (by omega)
                · --
                  exact yoe_window doe 12 0 0 50 (by omega) (by omega) (by omega) (by omega) (by omega) (by omega) (by omega) (by omega)
      · --
        rcases lt_or_le doe 27759 with hq3 | hq3
        · --
          rcases lt_or_le doe 23360 with hq4 | hq4
          · --
            rcases lt_or_le doe 20819 with hq5 | hq5
            · --
              rcases lt_or_le doe 19723 with hq6 | hq6
              · --
                rcases lt_or_le doe 18993 with hq7 | hq7
                · --
                  rcases lt_or_le doe 18980 with hq8 | hq8
                  · --
                    exact yoe_window doe 12 0 0 51 (by omega) (by omega) (by omega) (by omega) (by omega) (by omega) (by omega) (by omega)
                  · --
                    exact yoe_window doe 13 0 0 51 (by omega) (by omega) (by omega) (by omega) (by omega) (by omega) (by omega) (by omega)
                · --
                  rcases lt_or_le doe 19358 with hq8 | hq8
                  · --
                    exact yoe_window doe 13 0 0 52 (by omega) (by omega) (by omega) (by omega) (by omega) (by omega) (by omega) (by omega)
                  · --
                    exact yoe_window doe 13 0 0 53 (by omega) (by omega) (by omega) (by omega) (by omega) (by omega) (by omega) (by omega)
              · --
                rcases lt_or_le doe 20440 with hq7 | hq7
                · --
                  rcases lt_or_le doe 20088 with hq8 | hq8
                  · --
                    exact yoe_window doe 13 0 0 54 (by omega) (by omega) (by omega) (by omega) (by omega) (by omega) (by omega) (by omega)
                  · --
                    exact yoe_window doe 13 0 0 55 (by omega) (by omega) (by omega) (by omega) (by omega) (by omega) (by omega) (by omega)
                · --
                  rcases lt_or_le doe 20454 with hq8 | hq8
                  · --
                    exact yoe_window doe 14 0 0 55 (by omega) (by omega) (by omega) (by omega) (by omega) (by omega) (by omega) (by omega)
                  · --
                    exact yoe_window doe 14 0 0 56 (by omega) (by omega) (by omega) (by omega) (by omega) (by omega) (by omega) (by omega)
            · --
              rcases lt_or_le doe 21915 with hq6 | hq6
              · --
                rcases lt_or_le doe 21549 with hq7 | hq7
                · --
                  rcases lt_or_le doe 21184 with hq8 | hq8
                  · --
                    exact yoe_window doe 14 0 0 57 (by omega) (by omega) (by omega) (by omega) (by omega) (by omega) (by omega) (by omega)
                  · --
                    exact yoe_window doe 14 0 0 58 (by omega) (by omega) (by omega) (by omega) (by omega) (by omega) (by omega) (by omega)
                · --
                  rcases lt_or_le doe 21900 with hq8 | hq8
                  · --
                    exact yoe_window doe 14 0 0 59 (by omega) (by omega) (by omega) (by omega) (by omega) (by omega) (by omega) (by omega)
                  · --
                    exact yoe_window doe 15 0 0 59 (by omega) (by omega) (by omega) (by omega) (by omega) (by omega) (by omega) (by omega)
              · --
                rcases lt_or_le doe 22645 with hq7 | hq7
                · --
                  rcases lt_or_le doe 22280 with hq8 | hq8
                  · --
                    exact yoe_window doe 15 0 0 60 (by omega) (by omega) (by omega) (by omega) (by omega) (by omega) (by omega) (by omega)
                  · --
                    exact yoe_window doe 15 0 0 61 (by omega) (by omega) (by omega) (by omega) (by omega) (by omega) (by omega) (by omega)
                · --
                  rcases lt_or_le doe 23010 with hq8 | hq8
                  · --
                    exact yoe_window doe 15 0 0 62 (by omega) (by omega) (by omega) (by omega) (by omega) (by omega) (by omega) (by omega)
                  · --
                    exact yoe_window doe 15 0 0 63 (by omega) (by omega) (by omega) (by omega) (by omega) (by omega) (by omega) (by omega)
          · --
            rcases lt_or_le doe 25567 with hq5 | hq5
            · --
              rcases lt_or_le doe 24471 with hq6 | hq6
              · --
                rcases lt_or_le doe 23741 with hq7 | hq7
                · --
                  rcases lt_or_le doe 23376 with hq8 | hq8
                  · --
                    exact yoe_window doe 16 0 0 63 (by omega) (by omega) (by omega) (by omega) (by omega) (by omega) (by omega) (by omega)
                  · --
                    exact yoe_window doe 16 0 0 64 (by omega) (by omega) (by omega) (by omega) (by omega) (by omega) (by omega) (by omega)
                · --
                  rcases lt_or_le doe 24106 with hq8 | hq8
                  · --
                    exact yoe_window doe 16 0 0 65 (by omega) (by omega) (by omega) (by omega) (by omega) (by omega) (by omega) (by omega)
                  · --
                    exact yoe_window doe 16 0 0 66 (by omega) (by omega) (by omega) (by omega) (by omega) (by omega) (by omega) (by omega)
              · --
                rcases lt_or_le doe 24837 with hq7 | hq7
                · --
                  rcases lt_or_le doe 24820 with hq8 | hq8
                  · --
                    exact yoe_window doe 16 0 0 67 (by omega) (by omega) (by omega) (by omega) (by omega) (by omega) (by omega) (by omega)
                  · --
                    exact yoe_window doe 17 0 0 67 (by omega) (by omega) (by omega) (by omega) (by omega) (by omega) (by omega) (by omega)
                · --
                  rcases lt_or_le doe 25202 with hq8 | hq8
                  · --
                    exact yoe_window doe 17 0 0 68 (by omega) (by omega) (by omega) (by omega) (by omega) (by omega) (by omega) (by omega)
                  · --
                    exact yoe_window doe 17 0 0 69 (by omega) (by omega) (by omega) (by omega) (by omega) (by omega) (by omega) (by omega)
            · --
              rcases lt_or_le doe 26663 with hq6 | hq6
              · --
                rcases lt_or_le doe 26280 with hq7 | hq7
                · --
                  rcases lt_or_le doe 25932 with hq8 | hq8
                  · --
                    exact yoe_window doe 17 0 0 70 (by omega) (by omega) (by omega) (by omega) (by omega) (by omega) (by omega) (by omega)
                  · --
                    exact yoe_window doe 17 0 0 71 (by omega) (by omega) (by omega) (by omega) (by omega) (by omega) (by omega) (by omega)
                · --
                  rcases lt_or_le doe 26298 with hq8 | hq8
                  · --
                    exact yoe_window doe 18 0 0 71 (by omega) (by omega) (by omega) (by omega) (by omega) (by omega) (by omega) (by omega)
                  · --
                    exact yoe_window doe 18 0 0 72 (by omega) (by omega) (by omega) (by omega) (by omega) (by omega) (by omega) (by omega)
              · --
                rcases lt_or_le doe 27393 with hq7 | hq7
                · --
                  rcases lt_or_le doe 27028 with hq8 | hq8
                  · --
                    exact yoe_window doe 18 0 0 73 (by omega) (by omega) (by omega) (by omega) (by omega) (by omega) (by omega) (by omega)
                  · --
                    exact yoe_window doe 18 0 0 74 (by omega) (by omega) (by omega) (by omega) (by omega) (by omega) (by omega) (by omega)
                · --
                  rcases lt_or_le doe 27740 with hq8 | hq8
                  · --
                    exact yoe_window doe 18 0 0 75 (by omega) (by omega) (by omega) (by omega) (by omega) (by omega) (by omega) (by omega)
                  · --
                    exact yoe_window doe 19 0 0 75 (by omega) (by omega) (by omega) (by omega) (by omega) (by omega) (by omega) (by omega)
        · --
          rcases lt_or_le doe 32507 with hq4 | hq4
          · --
            rcases lt_or_le doe 30315 with hq5 | hq5
            · --
              rcases lt_or_le doe 29200 with hq6 | hq6
              · --
                rcases lt_or_le doe 28489 with hq7 | hq7
                · --
                  rcases lt_or_le doe 28124 with hq8 | hq8
                  · --
                    exact yoe_window doe 19 0 0 76 (by omega) (by omega) (by omega) (by omega) (by omega) (by omega) (by omega) (by omega)
                  · --
                    exact yoe_window doe 19 0 0 77 (by omega) (by omega) (by omega) (by omega) (by omega) (by omega) (by omega) (by omega)
                · --
                  rcases lt_or_le doe 28854 with hq8 | hq8
                  · --
                    exact yoe_window doe 19 0 0 78 (by omega) (by omega) (by omega) (by omega) (by omega) (by omega) (by omega) (by omega)
                  · --
                    exact yoe_window doe 19 0 0 79 (by omega) (by omega) (by omega) (by omega) (by omega) (by omega) (by omega) (by omega)
              · --
                rcases lt_or_le doe 29585 with hq7 | hq7
                · --
                  rcases lt_or_le doe 29220 with hq8 | hq8
                  · --
                    exact yoe_window doe 20 0 0 79 (by omega) (by omega) (by omega) (by omega) (by omega) (by omega) (by omega) (by omega)
                  · --
                    exact yoe_window doe 20 0 0 80 (by omega) (by omega) (by omega) (by omega) (by omega) (by omega) (by omega) (by omega)
                · --
                  rcases lt_or_le doe 29950 with hq8 | hq8
                  · --
                    exact yoe_window doe 20 0 0 81 (by omega) (by omega) (by omega) (by omega) (by omega) (by omega) (by omega) (by omega)
                  · --
                    exact yoe_window doe 20 0 0 82 (by omega) (by omega) (by omega) (by omega) (by omega) (by omega) (by omega) (by omega)
            · --
              rcases lt_or_le doe 31411 with hq6 | hq6
              · --
                rcases lt_or_le doe 30681 with hq7 | hq7
                · --
                  rcases lt_or_le doe 30660 with hq8 | hq8
                  · --
                    exact yoe_window doe 20 0 0 83 (by omega) (by omega) (by omega) (by omega) (by omega) (by omega) (by omega) (by omega)
                  · --
                    exact yoe_window doe 21 0 0 83 (by omega) (by omega) (by omega) (by omega) (by omega) (by omega) (by omega) (by omega)
                · --
                  rcases lt_or_le doe 31046 with hq8 | hq8
                  · --
                    exact yoe_window doe 21 0 0 84 (by omega) (by omega) (by omega) (by omega) (by omega) (by omega) (by omega) (by omega)
                  · --
                    exact yoe_window doe 21 0 0 85 (by omega) (by omega) (by omega) (by omega) (by omega) (by omega) (by omega) (by omega)
              · --
                rcases lt_or_le doe 32120 with hq7 | hq7
                · --
                  rcases lt_or_le doe 31776 with hq8 | hq8
                  · --
                    exact yoe_window doe 21 0 0 86 (by omega) (by omega) (by omega) (by omega) (by omega) (by omega) (by omega) (by omega)
                  · --
                    exact yoe_window doe 21 0 0 87 (by omega) (by omega) (by omega) (by omega) (by omega) (by omega) (by omega) (by omega)
                · --
                  rcases lt_or_le doe 32142 with hq8 | hq8
                  · --
                    exact yoe_window doe 22 0 0 87 (by omega) (by omega) (by omega) (by omega) (by omega) (by omega) (by omega) (by omega)
                  · --
                    exact yoe_window doe 22 0 0 88 (by omega) (by omega) (by omega) (by omega) (by omega) (by omega) (by omega) (by omega)
          · --
            rcases lt_or_le doe 35040 with hq5 | hq5
            · --
              rcases lt_or_le doe 33603 with hq6 | hq6
              · --
                rcases lt_or_le doe 33237 with hq7 | hq7
                · --
                  rcases lt_or_le doe 32872 with hq8 | hq8
                  · --
                    exact yoe_window doe 22 0 0 89 (by omega) (by omega) (by omega) (by omega) (by omega) (by omega) (by omega) (by omega)
                  · --
                    exact yoe_window doe 22 0 0 90 (by omega) (by omega) (by omega) (by omega) (by omega) (by omega) (by omega) (by omega)
                · --
                  rcases lt_or_le doe 33580 with hq8 | hq8
                  · --
                    exact yoe_window doe 22 0 0 91 (by omega) (by omega) (by omega) (by omega) (by omega) (by omega) (by omega) (by omega)
                  · --
                    exact yoe_window doe 23 0 0 91 (by omega) (by omega) (by omega) (by omega) (by omega) (by omega) (by omega) (by omega)
              · --
                rcases lt_or_le doe 34333 with hq7 | hq7
                · --
                  rcases lt_or_le doe 33968 with hq8 | hq8
                  · --
                    exact yoe_window doe 23 0 0 92 (by omega) (by omega) (by omega) (by omega) (by omega) (by omega) (by omega) (by omega)
                  · --
                    exact yoe_window doe 23 0 0 93 (by omega) (by omega) (by omega) (by omega) (by omega) (by omega) (by omega) (by omega)
                · --
                  rcases lt_or_le doe 34698 with hq8 | hq8
                  · --
                    exact yoe_window doe 23 0 0 94 (by omega) (by omega) (by omega) (by omega) (by omega) (by omega) (by omega) (by omega)
                  · --
                    exact yoe_window doe 23 0 0 95 (by omega) (by omega) (by omega) (by omega) (by omega) (by omega) (by omega) (by omega)
            · --
              rcases lt_or_le doe 36159 with hq6 | hq6
              · --
                rcases lt_or_le doe 35429 with hq7 | hq7
                · --
                  rcases lt_or_le doe 35064 with hq8 | hq8
                  · --
                    exact yoe_window doe 24 0 0 95 (by omega) (by omega) (by omega) (by omega) (by omega) (by omega) (by omega) (by omega)
                  · --
                    exact yoe_window doe 24 0 0 96 (by omega) (by omega) (by omega) (by omega) (by omega) (by omega) (by omega) (by omega)
                · --
                  rcases lt_or_le doe 35794 with hq8 | hq8
                  · --
                    exact yoe_window doe 24 0 0 97 (by omega) (by omega) (by omega) (by omega) (by omega) (by omega) (by omega) (by omega)
                  · --
                    exact yoe_window doe 24 0 0 98 (by omega) (by omega) (by omega) (by omega) (by omega) (by omega) (by omega) (by omega)
              · --
                rcases lt_or_le doe 36524 with hq7 | hq7
                · --
                  rcases lt_or_le doe 36500 with hq8 | hq8
                  · --
                    exact yoe_window doe 24 0 0 99 (by omega) (by omega) (by omega) (by omega) (by omega) (by omega) (by omega) (by omega)
                  · --
                    exact yoe_window doe 25 0 0 99 (by omega) (by omega) (by omega) (by omega) (by omega) (by omega) (by omega) (by omega)
                · --
                  exact yoe_window doe 25 1 0 100 (by omega) (by omega) (by omega) (by omega) (by omega) (by omega) (by omega) (by omega)
    · --
      rcases lt_or_le doe 55480 with hq2 | hq2
      · --
        rcases lt_or_le doe 46385 with hq3 | hq3
        · --
          rcases lt_or_le doe 41637 with hq4 | hq4
          · --
            rcases lt_or_le doe 39420 with hq5 | hq5
            · --
              rcases lt_or_le doe 37985 with hq6 | hq6
              · --
                rcases lt_or_le doe 37619 with hq7 | hq7
                · --
                  rcases lt_or_le doe 37254 with hq8 | hq8
                  · --
                    exact yoe_window doe 25 1 0 101 (by omega) (by omega) (by omega) (by omega) (by omega) (by omega) (by omega) (by omega)
                  · --
                    exact yoe_window doe 25 1 0 102 (by omega) (by omega) (by omega) (by omega) (by omega) (by omega) (by omega) (by omega)
                · --
                  rcases lt_or_le doe 37960 with hq8 | hq8
                  · --
                    exact yoe_window doe 25 1 0 103 (by omega) (by omega) (by omega) (by omega) (by omega) (by omega) (by omega) (by omega)
                  · --
                    exact yoe_window doe 26 1 0 103 (by omega) (by omega) (by omega) (by omega) (by omega) (by omega) (by omega) (by omega)
              · --
                rcases lt_or_le doe 38715 with hq7 | hq7
                · --
                  rcases lt_or_le doe 38350 with hq8 | hq8
                  · --
                    exact yoe_window doe 26 1 0 104 (by omega) (by omega) (by omega) (by omega) (by omega) (by omega) (by omega) (by omega)
                  · --
                    exact yoe_window doe 26 1 0 105 (by omega) (by omega) (by omega) (by omega) (by omega) (by omega) (by omega) (by omega)
                · --
                  rcases lt_or_le doe 39080 with hq8 | hq8
                  · --
                    exact yoe_window doe 26 1 0 106 (by omega) (by omega) (by omega) (by omega) (by omega) (by omega) (by omega) (by omega)
                  · --
                    exact yoe_window doe 26 1 0 107 (by omega) (by omega) (by omega) (by omega) (by omega) (by omega) (by omega) (by omega)
            · --
              rcases lt_or_le doe 40541 with hq6 | hq6
              · --
                rcases lt_or_le doe 39811 with hq7 | hq7
                · --
                  rcases lt_or_le doe 39446 with hq8 | hq8
                  · --
                    exact yoe_window doe 27 1 0 107 (by omega) (by omega) (by omega) (by omega) (by omega) (by omega) (by omega) (by omega)
                  · --
                    exact yoe_window doe 27 1 0 108 (by omega) (by omega) (by omega) (by omega) (by omega) (by omega) (by omega) (by omega)
                · --
                  rcases lt_or_le doe 40176 with hq8 | hq8
                  · --
                    exact yoe_window doe 27 1 0 109 (by omega) (by omega) (by omega) (by omega) (by omega) (by omega) (by omega) (by omega)
                  · --
                    exact yoe_window doe 27 1 0 110 (by omega) (by omega) (by omega) (by omega) (by omega) (by omega) (by omega) (by omega)
              · --
                rcases lt_or_le doe 40907 with hq7 | hq7
                · --
                  rcases lt_or_le doe 40880 with hq8 | hq8
                  · --
                    exact yoe_window doe 27 1 0 111 (by omega) (by omega) (by omega) (by omega) (by omega) (by omega) (by omega) (by omega)
                  · --
                    exact yoe_window doe 28 1 0 111 (by omega) (by omega) (by omega) (by omega) (by omega) (by omega) (by omega) (by omega)
                · --
                  rcases lt_or_le doe 41272 with hq8 | hq8
                  · --
                    exact yoe_window doe 28 1 0 112 (by omega) (by omega) (by omega) (by omega) (by omega) (by omega) (by omega) (by omega)
                  · --
                    exact yoe_window doe 28 1 0 113 (by omega) (by omega) (by omega) (by omega) (by omega) (by omega) (by omega) (by omega)
          · --
            rcases lt_or_le doe 43829 with hq5 | hq5
            · --
              rcases lt_or_le doe 42733 with hq6 | hq6
              · --
                rcases lt_or_le doe 42340 with hq7 | hq7
                · --
                  rcases lt_or_le doe 42002 with hq8 | hq8
                  · --
                    exact yoe_window doe 28 1 0 114 (by omega) (by omega) (by omega) (by omega) (by omega) (by omega) (by omega) (by omega)
                  · --
                    exact yoe_window doe 28 1 0 115 (by omega) (by omega) (by omega) (by omega) (by omega) (by omega) (by omega) (by omega)
                · --
                  rcases lt_or_le doe 42368 with hq8 | hq8
                  · --
                    exact yoe_window doe 29 1 0 115 (by omega) (by omega) (by omega) (by omega) (by omega) (by omega) (by omega) (by omega)
                  · --
                    exact yoe_window doe 29 1 0 116 (by omega) (by omega) (by omega) (by omega) (by omega) (by omega) (by omega) (by omega)
              · --
                rcases lt_or_le doe 43463 with hq7 | hq7
                · --
                  rcases lt_or_le doe 43098 with hq8 | hq8
                  · --
                    exact yoe_window doe 29 1 0 117 (by omega) (by omega) (by omega) (by omega) (by omega) (by omega) (by omega) (by omega)
                  · --
                    exact yoe_window doe 29 1 0 118 (by omega) (by omega) (by omega) (by omega) (by omega) (by omega) (by omega) (by omega)
                · --
                  rcases lt_or_le doe 43800 with hq8 | hq8
                  · --
                    exact yoe_window doe 29 1 0 119 (by omega) (by omega) (by omega) (by omega) (by omega) (by omega) (by omega) (by omega)
                  · --
                    exact yoe_window doe 30 1 0 119 (by omega) (by omega) (by omega) (by omega) (by omega) (by omega) (by omega) (by omega)
            · --
              rcases lt_or_le doe 45260 with hq6 | hq6
              · --
                rcases lt_or_le doe 44559 with hq7 | hq7
                · --
                  rcases lt_or_le doe 44194 with hq8 | hq8
                  · --
                    exact yoe_window doe 30 1 0 120 (by omega) (by omega) (by omega) (by omega) (by omega) (by omega) (by omega) (by omega)
                  · --
                    exact yoe_window doe 30 1 0 121 (by omega) (by omega) (by omega) (by omega) (by omega) (by omega) (by omega) (by omega)
                · --
                  rcases lt_or_le doe 44924 with hq8 | hq8
                  · --
                    exact yoe_window doe 30 1 0 122 (by omega) (by omega) (by omega) (by omega) (by omega) (by omega) (by omega) (by omega)
                  · --
                    exact yoe_window doe 30 1 0 123 (by omega) (by omega) (by omega) (by omega) (by omega) (by omega) (by omega) (by omega)
              · --
                rcases lt_or_le doe 45655 with hq7 | hq7
                · --
                  rcases lt_or_le doe 45290 with hq8 | hq8
                  · --
                    exact yoe_window doe 31 1 0 123 (by omega) (by omega) (by omega) (by omega) (by omega) (by omega) (by omega) (by omega)
                  · --
                    exact yoe_window doe 31 1 0 124 (by omega) (by omega) (by omega) (by omega) (by omega) (by omega) (by omega) (by omega)
                · --
                  rcases lt_or_le doe 46020 with hq8 | hq8
                  · --
                    exact yoe_window doe 31 1 0 125 (by omega) (by omega) (by omega) (by omega) (by omega) (by omega) (by omega) (by omega)
                  · --
                    exact yoe_window doe 31 1 0 126 (by omega) (by omega) (by omega) (by omega) (by omega) (by omega) (by omega) (by omega)
        · --
          rcases lt_or_le doe 51100 with hq4 | hq4
          · --
            rcases lt_or_le doe 48577 with hq5 | hq5
            · --
              rcases lt_or_le doe 47481 with hq6 | hq6
              · --
                rcases lt_or_le doe 46751 with hq7 | hq7
                · --
                  rcases lt_or_le doe 46720 with hq8 | hq8
                  · --
                    exact yoe_window doe 31 1 0 127 (by omega) (by omega) (by omega) (by omega) (by omega) (by omega) (by omega) (by omega)
                  · --
                    exact yoe_window doe 32 1 0 127 (by omega) (by omega) (by omega) (by omega) (by omega) (by omega) (by omega) (by omega)
                · --
                  rcases lt_or_le doe 47116 with hq8 | hq8
                  · --
                    exact yoe_window doe 32 1 0 128 (by omega) (by omega) (by omega) (by omega) (by omega) (by omega) (by omega) (by omega)
                  · --
                    exact yoe_window doe 32 1 0 129 (by omega) (by omega) (by omega) (by omega) (by omega) (by omega) (by omega) (by omega)
              · --
                rcases lt_or_le doe 48180 with hq7 | hq7
                · --
                  rcases lt_or_le doe 47846 with hq8 | hq8
                  · --
                    exact yoe_window doe 32 1 0 130 (by omega) (by omega) (by omega) (by omega) (by omega) (by omega) (by omega) (by omega)
                  · --
                    exact yoe_window doe 32 1 0 131 (by omega) (by omega) (by omega) (by omega) (by omega) (by omega) (by omega) (by omega)
                · --
                  rcases lt_or_le doe 48212 with hq8 | hq8
                  · --
                    exact yoe_window doe 33 1 0 131 (by omega) (by omega) (by omega) (by omega) (by omega) (by omega) (by omega) (by omega)
                  · --
                    exact yoe_window doe 33 1 0 132 (by omega) (by omega) (by omega) (by omega) (by omega) (by omega) (by omega) (by omega)
            · --
              rcases lt_or_le doe 49673 with hq6 | hq6
              · --
                rcases lt_or_le doe 49307 with hq7 | hq7
                · --
                  rcases lt_or_le doe 48942 with hq8 | hq8
                  · --
                    exact yoe_window doe 33 1 0 133 (by omega) (by omega) (by omega) (by omega) (by omega) (by omega) (by omega) (by omega)
                  · --
                    exact yoe_window doe 33 1 0 134 (by omega) (by omega) (by omega) (by omega) (by omega) (by omega) (by omega) (by omega)
                · --
                  rcases lt_or_le doe 49640 with hq8 | hq8
                  · --
                    exact yoe_window doe 33 1 0 135 (by omega) (by omega) (by omega) (by omega) (by omega) (by omega) (by omega) (by omega)
                  · --
                    exact yoe_window doe 34 1 0 135 (by omega) (by omega) (by omega) (by omega) (by omega) (by omega) (by omega) (by omega)
              · --
                rcases lt_or_le doe 50403 with hq7 | hq7
                · --
                  rcases lt_or_le doe 50038 with hq8 | hq8
                  · --
                    exact yoe_window doe 34 1 0 136 (by omega) (by omega) (by omega) (by omega) (by omega) (by omega) (by omega) (by omega)
                  · --
                    exact yoe_window doe 34 1 0 137 (by omega) (by omega) (by omega) (by omega) (by omega) (by omega) (by omega) (by omega)
                · --
                  rcases lt_or_le doe 50768 with hq8 | hq8
                  · --
                    exact yoe_window doe 34 1 0 138 (by omega) (by omega) (by omega) (by omega) (by omega) (by omega) (by omega) (by omega)
                  · --
                    exact yoe_window doe 34 1 0 139 (by omega) (by omega) (by omega) (by omega) (by omega) (by omega) (by omega) (by omega)
          · --
            rcases lt_or_le doe 53325 with hq5 | hq5
            · --
              rcases lt_or_le doe 52229 with hq6 | hq6
              · --
                rcases lt_or_le doe 51499 with hq7 | hq7
                · --
                  rcases lt_or_le doe 51134 with hq8 | hq8
                  · --
                    exact yoe_window doe 35 1 0 139 (by omega) (by omega) (by omega) (by omega) (by omega) (by omega) (by omega) (by omega)
                  · --
                    exact yoe_window doe 35 1 0 140 (by omega) (by omega) (by omega) (by omega) (by omega) (by omega) (by omega) (by omega)
                · --
                  rcases lt_or_le doe 51864 with hq8 | hq8
                  · --
                    exact yoe_window doe 35 1 0 141 (by omega) (by omega) (by omega) (by omega) (by omega) (by omega) (by omega) (by omega)
                  · --
                    exact yoe_window doe 35 1 0 142 (by omega) (by omega) (by omega) (by omega) (by omega) (by omega) (by omega) (by omega)
              · --
                rcases lt_or_le doe 52595 with hq7 | hq7
                · --
                  rcases lt_or_le doe 52560 with hq8 | hq8
                  · --
                    exact yoe_window doe 35 1 0 143 (by omega) (by omega) (by omega) (by omega) (by omega) (by omega) (by omega) (by omega)
                  · --
                    exact yoe_window doe 36 1 0 143 (by omega) (by omega) (by omega) (by omega) (by omega) (by omega) (by omega) (by omega)
                · --
                  rcases lt_or_le doe 52960 with hq8 | hq8
                  · --
                    exact yoe_window doe 36 1 0 144 (by omega) (by omega) (by omega) (by omega) (by omega) (by omega) (by omega) (by omega)
                  · --
                    exact yoe_window doe 36 1 0 145 (by omega) (by omega) (by omega) (by omega) (by omega) (by omega) (by omega) (by omega)
            · --
              rcases lt_or_le doe 54421 with hq6 | hq6
              · --
                rcases lt_or_le doe 54020 with hq7 | hq7
                · --
                  rcases lt_or_le doe 53690 with hq8 | hq8
                  · --
                    exact yoe_window doe 36 1 0 146 (by omega) (by omega) (by omega) (by omega) (by omega) (by omega) (by omega) (by omega)
                  · --
                    exact yoe_window doe 36 1 0 147 (by omega) (by omega) (by omega) (by omega) (by omega) (by omega) (by omega) (by omega)
                · --
                  rcases lt_or_le doe 54056 with hq8 | hq8
                  · --
                    exact yoe_window doe 37 1 0 147 (by omega) (by omega) (by omega) (by omega) (by omega) (by omega) (by omega) (by omega)
                  · --
                    exact yoe_window doe 37 1 0 148 (by omega) (by omega) (by omega) (by omega) (by omega) (by omega) (by omega) (by omega)
              · --
                rcases lt_or_le doe 55151 with hq7 | hq7
                · --
                  rcases lt_or_le doe 54786 with hq8 | hq8
                  · --
                    exact yoe_window doe 37 1 0 149 (by omega) (by omega) (by omega) (by omega) (by omega) (by omega) (by omega) (by omega)
                  · --
                    exact yoe_window doe 37 1 0 150 (by omega) (by omega) (by omega) (by omega) (by omega) (by omega) (by omega) (by omega)
                · --
                  exact yoe_window doe 37 1 0 151 (by omega) (by omega) (by omega) (by omega) (by omega) (by omega) (by omega) (by omega)
      · --
        rcases lt_or_le doe 64283 with hq3 | hq3
        · --
          rcases lt_or_le doe 59900 with hq4 | hq4
          · --
            rcases lt_or_le doe 57708 with hq5 | hq5
            · --
              rcases lt_or_le doe 56612 with hq6 | hq6
              · --
                rcases lt_or_le doe 55882 with hq7 | hq7
                · --
                  rcases lt_or_le doe 55517 with hq8 | hq8
                  · --
                    exact yoe_window doe 38 1 0 151 (by omega) (by omega) (by omega) (by omega) (by omega) (by omega) (by omega) (by omega)
                  · --
                    exact yoe_window doe 38 1 0 152 (by omega) (by omega) (by omega) (by omega) (by omega) (by omega) (by omega) (by omega)
                · --
                  rcases lt_or_le doe 56247 with hq8 | hq8
                  · --
                    exact yoe_window doe 38 1 0 153 (by omega) (by omega) (by omega) (by omega) (by omega) (by omega) (by omega) (by omega)
                  · --
                    exact yoe_window doe 38 1 0 154 (by omega) (by omega) (by omega) (by omega) (by omega) (by omega) (by omega) (by omega)
              · --
                rcases lt_or_le doe 56978 with hq7 | hq7
                · --
                  rcases lt_or_le doe 56940 with hq8 | hq8
                  · --
                    exact yoe_window doe 38 1 0 155 (by omega) (by omega) (by omega) (by omega) (by omega) (by omega) (by omega) (by omega)
                  · --
                    exact yoe_window doe 39 1 0 155 (by omega) (by omega) (by omega) (by omega) (by omega) (by omega) (by omega) (by omega)
                · --
                  rcases lt_or_le doe 57343 with hq8 | hq8
                  · --
                    exact yoe_window doe 39 1 0 156 (by omega) (by omega) (by omega) (by omega) (by omega) (by omega) (by omega) (by omega)
                  · --
                    exact yoe_window doe 39 1 0 157 (by omega) (by omega) (by omega) (by omega) (by omega) (by omega) (by omega) (by omega)
            · --
              rcases lt_or_le doe 58804 with hq6 | hq6
              · --
                rcases lt_or_le doe 58400 with hq7 | hq7
                · --
                  rcases lt_or_le doe 58073 with hq8 | hq8
                  · --
                    exact yoe_window doe 39 1 0 158 (by omega) (by omega) (by omega) (by omega) (by omega) (by omega) (by omega) (by omega)
                  · --
                    exact yoe_window doe 39 1 0 159 (by omega) (by omega) (by omega) (by omega) (by omega) (by omega) (by omega) (by omega)
                · --
                  rcases lt_or_le doe 58439 with hq8 | hq8
                  · --
                    exact yoe_window doe 40 1 0 159 (by omega) (by omega) (by omega) (by omega) (by omega) (by omega) (by omega) (by omega)
                  · --
                    exact yoe_window doe 40 1 0 160 (by omega) (by omega) (by omega) (by omega) (by omega) (by omega) (by omega) (by omega)
              · --
                rcases lt_or_le doe 59534 with hq7 | hq7
                · --
                  rcases lt_or_le doe 59169 with hq8 | hq8
                  · --
                    exact yoe_window doe 40 1 0 161 (by omega) (by omega) (by omega) (by omega) (by omega) (by omega) (by omega) (by omega)
                  · --
                    exact yoe_window doe 40 1 0 162 (by omega) (by omega) (by omega) (by omega) (by omega) (by omega) (by omega) (by omega)
                · --
                  rcases lt_or_le doe 59860 with hq8 | hq8
                  · --
                    exact yoe_window doe 40 1 0 163 (by omega) (by omega) (by omega) (by omega) (by omega) (by omega) (by omega) (by omega)
                  · --
                    exact yoe_window doe 41 1 0 163 (by omega) (by omega) (by omega) (by omega) (by omega) (by omega) (by omega) (by omega)
          · --
            rcases lt_or_le doe 62456 with hq5 | hq5
            · --
              rcases lt_or_le doe 61320 with hq6 | hq6
              · --
                rcases lt_or_le doe 60630 with hq7 | hq7
                · --
                  rcases lt_or_le doe 60265 with hq8 | hq8
                  · --
                    exact yoe_window doe 41 1 0 164 (by omega) (by omega) (by omega) (by omega) (by omega) (by omega) (by omega) (by omega)
                  · --
                    exact yoe_window doe 41 1 0 165 (by omega) (by omega) (by omega) (by omega) (by omega) (by omega) (by omega) (by omega)
                · --
                  rcases lt_or_le doe 60995 with hq8 | hq8
                  · --
                    exact yoe_window doe 41 1 0 166 (by omega) (by omega) (by omega) (by omega) (by omega) (by omega) (by omega) (by omega)
                  · --
                    exact yoe_window doe 41 1 0 167 (by omega) (by omega) (by omega) (by omega) (by omega) (by omega) (by omega) (by omega)
              · --
                rcases lt_or_le doe 61726 with hq7 | hq7
                · --
                  rcases lt_or_le doe 61361 with hq8 | hq8
                  · --
                    exact yoe_window doe 42 1 0 167 (by omega) (by omega) (by omega) (by omega) (by omega) (by omega) (by omega) (by omega)
                  · --
                    exact yoe_window doe 42 1 0 168 (by omega) (by omega) (by omega) (by omega) (by omega) (by omega) (by omega) (by omega)
                · --
                  rcases lt_or_le doe 62091 with hq8 | hq8
                  · --
                    exact yoe_window doe 42 1 0 169 (by omega) (by omega) (by omega) (by omega) (by omega) (by omega) (by omega) (by omega)
                  · --
                    exact yoe_window doe 42 1 0 170 (by omega) (by omega) (by omega) (by omega) (by omega) (by omega) (by omega) (by omega)
            · --
              rcases lt_or_le doe 63552 with hq6 | hq6
              · --
                rcases lt_or_le doe 62822 with hq7 | hq7
                · --
                  rcases lt_or_le doe 62780 with hq8 | hq8
                  · --
                    exact yoe_window doe 42 1 0 171 (by omega) (by omega) (by omega) (by omega) (by omega) (by omega) (by omega) (by omega)
                  · --
                    exact yoe_window doe 43 1 0 171 (by omega) (by omega) (by omega) (by omega) (by omega) (by omega) (by omega) (by omega)
                · --
                  rcases lt_or_le doe 63187 with hq8 | hq8
                  · --
                    exact yoe_window doe 43 1 0 172 (by omega) (by omega) (by omega) (by omega) (by omega) (by omega) (by omega) (by omega)
                  · --
                    exact yoe_window doe 43 1 0 173 (by omega) (by omega) (by omega) (by omega) (by omega) (by omega) (by omega) (by omega)
              · --
                rcases lt_or_le doe 64240 with hq7 | hq7
                · --
                  rcases lt_or_le doe 63917 with hq8 | hq8
                  · --
                    exact yoe_window doe 43 1 0 174 (by omega) (by omega) (by omega) (by omega) (by omega) (by omega) (by omega) (by omega)
                  · --
                    exact yoe_window doe 43 1 0 175 (by omega) (by omega) (by omega) (by omega) (by omega) (by omega) (by omega) (by omega)
                · --
                  exact yoe_window doe 44 1 0 175 (by omega) (by omega) (by omega) (by omega) (by omega) (by omega) (by omega) (by omega)
        · --
          rcases lt_or_le doe 69031 with hq4 | hq4
          · --
            rcases lt_or_le doe 66839 with hq5 | hq5
            · --
              rcases lt_or_le doe 65700 with hq6 | hq6
              · --
                rcases lt_or_le doe 65013 with hq7 | hq7
                · --
                  rcases lt_or_le doe 64648 with hq8 | hq8
                  · --
                    exact yoe_window doe 44 1 0 176 (by omega) (by omega) (by omega) (by omega) (by omega) (by omega) (by omega) (by omega)
                  · --
                    exact yoe_window doe 44 1 0 177 (by omega) (by omega) (by omega) (by omega) (by omega) (by omega) (by omega) (by omega)
                · --
                  rcases lt_or_le doe 65378 with hq8 | hq8
                  · --
                    exact yoe_window doe 44 1 0 178 (by omega) (by omega) (by omega) (by omega) (by omega) (by omega) (by omega) (by omega)
                  · --
                    exact yoe_window doe 44 1 0 179 (by omega) (by omega) (by omega) (by omega) (by omega) (by omega) (by omega) (by omega)
              · --
                rcases lt_or_le doe 66109 with hq7 | hq7
                · --
                  rcases lt_or_le doe 65744 with hq8 | hq8
                  · --
                    exact yoe_window doe 45 1 0 179 (by omega) (by omega) (by omega) (by omega) (by omega) (by omega) (by omega) (by omega)
                  · --
                    exact yoe_window doe 45 1 0 180 (by omega) (by omega) (by omega) (by omega) (by omega) (by omega) (by omega) (by omega)
                · --
                  rcases lt_or_le doe 66474 with hq8 | hq8
                  · --
                    exact yoe_window doe 45 1 0 181 (by omega) (by omega) (by omega) (by omega) (by omega) (by omega) (by omega) (by omega)
                  · --
                    exact yoe_window doe 45 1 0 182 (by omega) (by omega) (by omega) (by omega) (by omega) (by omega) (by omega) (by omega)
            · --
              rcases lt_or_le doe 67935 with hq6 | hq6
              · --
                rcases lt_or_le doe 67205 with hq7 | hq7
                · --
                  rcases lt_or_le doe 67160 with hq8 | hq8
                  · --
                    exact yoe_window doe 45 1 0 183 (by omega) (by omega) (by omega) (by omega) (by omega) (by omega) (by omega) (by omega)
                  · --
                    exact yoe_window doe 46 1 0 183 (by omega) (by omega) (by omega) (by omega) (by omega) (by omega) (by omega) (by omega)
                · --
                  rcases lt_or_le doe 67570 with hq8 | hq8
                  · --
                    exact yoe_window doe 46 1 0 184 (by omega) (by omega) (by omega) (by omega) (by omega) (by omega) (by omega) (by omega)
                  · --
                    exact yoe_window doe 46 1 0 185 (by omega) (by omega) (by omega) (by omega) (by omega) (by omega) (by omega) (by omega)
              · --
                rcases lt_or_le doe 68620 with hq7 | hq7
                · --
                  rcases lt_or_le doe 68300 with hq8 | hq8
                  · --
                    exact yoe_window doe 46 1 0 186 (by omega) (by omega) (by omega) (by omega) (by omega) (by omega) (by omega) (by omega)
                  · --
                    exact yoe_window doe 46 1 0 187 (by omega) (by omega) (by omega) (by omega) (by omega) (by omega) (by omega) (by omega)
                · --
                  rcases lt_or_le doe 68666 with hq8 | hq8
                  · --
                    exact yoe_window doe 47 1 0 187 (by omega) (by omega) (by omega) (by omega) (by omega) (by omega) (by omega) (by omega)
                  · --
                    exact yoe_window doe 47 1 0 188 (by omega) (by omega) (by omega) (by omega) (by omega) (by omega) (by omega) (by omega)
          · --
            rcases lt_or_le doe 71540 with hq5 | hq5
            · --
              rcases lt_or_le doe 70127 with hq6 | hq6
              · --
                rcases lt_or_le doe 69761 with hq7 | hq7
                · --
                  rcases lt_or_le doe 69396 with hq8 | hq8
                  · --
                    exact yoe_window doe 47 1 0 189 (by omega) (by omega) (by omega) (by omega) (by omega) (by omega) (by omega) (by omega)
                  · --
                    exact yoe_window doe 47 1 0 190 (by omega) (by omega) (by omega) (by omega) (by omega) (by omega) (by omega) (by omega)
                · --
                  rcases lt_or_le doe 70080 with hq8 | hq8
                  · --
                    exact yoe_window doe 47 1 0 191 (by omega) (by omega) (by omega) (by omega) (by omega) (by omega) (by omega) (by omega)
                  · --
                    exact yoe_window doe 48 1 0 191 (by omega) (by omega) (by omega) (by omega) (by omega) (by omega) (by omega) (by omega)
              · --
                rcases lt_or_le doe 70857 with hq7 | hq7
                · --
                  rcases lt_or_le doe 70492 with hq8 | hq8
                  · --
                    exact yoe_window doe 48 1 0 192 (by omega) (by omega) (by omega) (by omega) (by omega) (by omega) (by omega) (by omega)
                  · --
                    exact yoe_window doe 48 1 0 193 (by omega) (by omega) (by omega) (by omega) (by omega) (by omega) (by omega) (by omega)
                · --
                  rcases lt_or_le doe 71222 with hq8 | hq8
                  · --
                    exact yoe_window doe 48 1 0 194 (by omega) (by omega) (by omega) (by omega) (by omega) (by omega) (by omega) (by omega)
                  · --
                    exact yoe_window doe 48 1 0 195 (by omega) (by omega) (by omega) (by omega) (by omega) (by omega) (by omega) (by omega)
            · --
              rcases lt_or_le doe 72683 with hq6 | hq6
              · --
                rcases lt_or_le doe 71953 with hq7 | hq7
                · --
                  rcases lt_or_le doe 71588 with hq8 | hq8
                  · --
                    exact yoe_window doe 49 1 0 195 (by omega) (by omega) (by omega) (by omega) (by omega) (by omega) (by omega) (by omega)
                  · --
                    exact yoe_window doe 49 1 0 196 (by omega) (by omega) (by omega) (by omega) (by omega) (by omega) (by omega) (by omega)
                · --
                  rcases lt_or_le doe 72318 with hq8 | hq8
                  · --
                    exact yoe_window doe 49 1 0 197 (by omega) (by omega) (by omega) (by omega) (by omega) (by omega) (by omega) (by omega)
                  · --
                    exact yoe_window doe 49 1 0 198 (by omega) (by omega) (by omega) (by omega) (by omega) (by omega) (by omega) (by omega)
              · --
                rcases lt_or_le doe 73048 with hq7 | hq7
                · --
                  rcases lt_or_le doe 73000 with hq8 | hq8
                  · --
                    exact yoe_window doe 49 1 0 199 (by omega) (by omega) (by omega) (by omega) (by omega) (by omega) (by omega) (by omega)
                  · --
                    exact yoe_window doe 50 1 0 199 (by omega) (by omega) (by omega) (by omega) (by omega) (by omega) (by omega) (by omega)
                · --
                  exact yoe_window doe 50 2 0 200 (by omega) (by omega) (by omega) (by omega) (by omega) (by omega) (by omega) (by omega)
  · --
    rcases lt_or_le doe 109937 with hq1 | hq1
    · --
      rcases lt_or_le doe 91980 with hq2 | hq2
      · --
        rcases lt_or_le doe 82909 with hq3 | hq3
        · --
          rcases lt_or_le doe 78161 with hq4 | hq4
          · --
            rcases lt_or_le doe 75920 with hq5 | hq5
            · --
              rcases lt_or_le doe 74509 with hq6 | hq6
              · --
                rcases lt_or_le doe 74143 with hq7 | hq7
                · --
                  rcases lt_or_le doe 73778 with hq8 | hq8
                  · --
                    exact yoe_window doe 50 2 0 201 (by omega) (by omega) (by omega) (by omega) (by omega) (by omega) (by omega) (by omega)
                  · --
                    exact yoe_window doe 50 2 0 202 (by omega) (by omega) (by omega) (by omega) (by omega) (by omega) (by omega) (by omega)
                · --
                  rcases lt_or_le doe 74460 with hq8 | hq8
                  · --
                    exact yoe_window doe 50 2 0 203 (by omega) (by omega) (by omega) (by omega) (by omega) (by omega) (by omega) (by omega)
                  · --
                    exact yoe_window doe 51 2 0 203 (by omega) (by omega) (by omega) (by omega) (by omega) (by omega) (by omega) (by omega)
              · --
                rcases lt_or_le doe 75239 with hq7 | hq7
                · --
                  rcases lt_or_le doe 74874 with hq8 | hq8
                  · --
                    exact yoe_window doe 51 2 0 204 (by omega) (by omega) (by omega) (by omega) (by omega) (by omega) (by omega) (by omega)
                  · --
                    exact yoe_window doe 51 2 0 205 (by omega) (by omega) (by omega) (by omega) (by omega) (by omega) (by omega) (by omega)
                · --
                  rcases lt_or_le doe 75604 with hq8 | hq8
                  · --
                    exact yoe_window doe 51 2 0 206 (by omega) (by omega) (by omega) (by omega) (by omega) (by omega) (by omega) (by omega)
                  · --
                    exact yoe_window doe 51 2 0 207 (by omega) (by omega) (by omega) (by omega) (by omega) (by omega) (by omega) (by omega)
            · --
              rcases lt_or_le doe 77065 with hq6 | hq6
              · --
                rcases lt_or_le doe 76335 with hq7 | hq7
                · --
                  rcases lt_or_le doe 75970 with hq8 | hq8
                  · --
                    exact yoe_window doe 52 2 0 207 (by omega) (by omega) (by omega) (by omega) (by omega) (by omega) (by omega) (by omega)
                  · --
                    exact yoe_window doe 52 2 0 208 (by omega) (by omega) (by omega) (by omega) (by omega) (by omega) (by omega) (by omega)
                · --
                  rcases lt_or_le doe 76700 with hq8 | hq8
                  · --
                    exact yoe_window doe 52 2 0 209 (by omega) (by omega) (by omega) (by omega) (by omega) (by omega) (by omega) (by omega)
                  · --
                    exact yoe_window doe 52 2 0 210 (by omega) (by omega) (by omega) (by omega) (by omega) (by omega) (by omega) (by omega)
              · --
                rcases lt_or_le doe 77431 with hq7 | hq7
                · --
                  rcases lt_or_le doe 77380 with hq8 | hq8
                  · --
                    exact yoe_window doe 52 2 0 211 (by omega) (by omega) (by omega) (by omega) (by omega) (by omega) (by omega) (by omega)
                  · --
                    exact yoe_window doe 53 2 0 211 (by omega) (by omega) (by omega) (by omega) (by omega) (by omega) (by omega) (by omega)
                · --
                  rcases lt_or_le doe 77796 with hq8 | hq8
                  · --
                    exact yoe_window doe 53 2 0 212 (by omega) (by omega) (by omega) (by omega) (by omega) (by omega) (by omega) (by omega)
                  · --
                    exact yoe_window doe 53 2 0 213 (by omega) (by omega) (by omega) (by omega) (by omega) (by omega) (by omega) (by omega)
          · --
            rcases lt_or_le doe 80353 with hq5 | hq5
            · --
              rcases lt_or_le doe 79257 with hq6 | hq6
              · --
                rcases lt_or_le doe 78840 with hq7 | hq7
                · --
                  rcases lt_or_le doe 78526 with hq8 | hq8
                  · --
                    exact yoe_window doe 53 2 0 214 (by omega) (by omega) (by omega) (by omega) (by omega) (by omega) (by omega) (by omega)
                  · --
                    exact yoe_window doe 53 2 0 215 (by omega) (by omega) (by omega) (by omega) (by omega) (by omega) (by omega) (by omega)
                · --
                  rcases lt_or_le doe 78892 with hq8 | hq8
                  · --
                    exact yoe_window doe 54 2 0 215 (by omega) (by omega) (by omega) (by omega) (by omega) (by omega) (by omega) (by omega)
                  · --
                    exact yoe_window doe 54 2 0 216 (by omega) (by omega) (by omega) (by omega) (by omega) (by omega) (by omega) (by omega)
              · --
                rcases lt_or_le doe 79987 with hq7 | hq7
                · --
                  rcases lt_or_le doe 79622 with hq8 | hq8
                  · --
                    exact yoe_window doe 54 2 0 217 (by omega) (by omega) (by omega) (by omega) (by omega) (by omega) (by omega) (by omega)
                  · --
                    exact yoe_window doe 54 2 0 218 (by omega) (by omega) (by omega) (by omega) (by omega) (by omega) (by omega) (by omega)
                · --
                  rcases lt_or_le doe 80300 with hq8 | hq8
                  · --
                    exact yoe_window doe 54 2 0 219 (by omega) (by omega) (by omega) (by omega) (by omega) (by omega) (by omega) (by omega)
                  · --
                    exact yoe_window doe 55 2 0 219 (by omega) (by omega) (by omega) (by omega) (by omega) (by omega) (by omega) (by omega)
            · --
              rcases lt_or_le doe 81760 with hq6 | hq6
              · --
                rcases lt_or_le doe 81083 with hq7 | hq7
                · --
                  rcases lt_or_le doe 80718 with hq8 | hq8
                  · --
                    exact yoe_window doe 55 2 0 220 (by omega) (by omega) (by omega) (by omega) (by omega) (by omega) (by omega) (by omega)
                  · --
                    exact yoe_window doe 55 2 0 221 (by omega) (by omega) (by omega) (by omega) (by omega) (by omega) (by omega) (by omega)
                · --
                  rcases lt_or_le doe 81448 with hq8 | hq8
                  · --
                    exact yoe_window doe 55 2 0 222 (by omega) (by omega) (by omega) (by omega) (by omega) (by omega) (by omega) (by omega)
                  · --
                    exact yoe_window doe 55 2 0 223 (by omega) (by omega) (by omega) (by omega) (by omega) (by omega) (by omega) (by omega)
              · --
                rcases lt_or_le doe 82179 with hq7 | hq7
                · --
                  rcases lt_or_le doe 81814 with hq8 | hq8
                  · --
                    exact yoe_window doe 56 2 0 223 (by omega) (by omega) (by omega) (by omega) (by omega) (by omega) (by omega) (by omega)
                  · --
                    exact yoe_window doe 56 2 0 224 (by omega) (by omega) (by omega) (by omega) (by omega) (by omega) (by omega) (by omega)
                · --
                  rcases lt_or_le doe 82544 with hq8 | hq8
                  · --
                    exact yoe_window doe 56 2 0 225 (by omega) (by omega) (by omega) (by omega) (by omega) (by omega) (by omega) (by omega)
                  · --
                    exact yoe_window doe 56 2 0 226 (by omega) (by omega) (by omega) (by omega) (by omega) (by omega) (by omega) (by omega)
        · --
          rcases lt_or_le doe 87600 with hq4 | hq4
          · --
            rcases lt_or_le doe 85101 with hq5 | hq5
            · --
              rcases lt_or_le doe 84005 with hq6 | hq6
              · --
                rcases lt_or_le doe 83275 with hq7 | hq7
                · --
                  rcases lt_or_le doe 83220 with hq8 | hq8
                  · --
                    exact yoe_window doe 56 2 0 227 (by omega) (by omega) (by omega) (by omega) (by omega) (by omega) (by omega) (by omega)
                  · --
                    exact yoe_window doe 57 2 0 227 (by omega) (by omega) (by omega) (by omega) (by omega) (by omega) (by omega) (by omega)
                · --
                  rcases lt_or_le doe 83640 with hq8 | hq8
                  · --
                    exact yoe_window doe 57 2 0 228 (by omega) (by omega) (by omega) (by omega) (by omega) (by omega) (by omega) (by omega)
                  · --
                    exact yoe_window doe 57 2 0 229 (by omega) (by omega) (by omega) (by omega) (by omega) (by omega) (by omega) (by omega)
              · --
                rcases lt_or_le doe 84680 with hq7 | hq7
                · --
                  rcases lt_or_le doe 84370 with hq8 | hq8
                  · --
                    exact yoe_window doe 57 2 0 230 (by omega) (by omega) (by omega) (by omega) (by omega) (by omega) (by omega) (by omega)
                  · --
                    exact yoe_window doe 57 2 0 231 (by omega) (by omega) (by omega) (by omega) (by omega) (by omega) (by omega) (by omega)
                · --
                  rcases lt_or_le doe 84736 with hq8 | hq8
                  · --
                    exact yoe_window doe 58 2 0 231 (by omega) (by omega) (by omega) (by omega) (by omega) (by omega) (by omega) (by omega)
                  · --
                    exact yoe_window doe 58 2 0 232 (by omega) (by omega) (by omega) (by omega) (by omega) (by omega) (by omega) (by omega)
            · --
              rcases lt_or_le doe 86197 with hq6 | hq6
              · --
                rcases lt_or_le doe 85831 with hq7 | hq7
                · --
                  rcases lt_or_le doe 85466 with hq8 | hq8
                  · --
                    exact yoe_window doe 58 2 0 233 (by omega) (by omega) (by omega) (by omega) (by omega) (by omega) (by omega) (by omega)
                  · --
                    exact yoe_window doe 58 2 0 234 (by omega) (by omega) (by omega) (by omega) (by omega) (by omega) (by omega) (by omega)
                · --
                  rcases lt_or_le doe 86140 with hq8 | hq8
                  · --
                    exact yoe_window doe 58 2 0 235 (by omega) (by omega) (by omega) (by omega) (by omega) (by omega) (by omega) (by omega)
                  · --
                    exact yoe_window doe 59 2 0 235 (by omega) (by omega) (by omega) (by omega) (by omega) (by omega) (by omega) (by omega)
              · --
                rcases lt_or_le doe 86927 with hq7 | hq7
                · --
                  rcases lt_or_le doe 86562 with hq8 | hq8
                  · --
                    exact yoe_window doe 59 2 0 236 (by omega) (by omega) (by omega) (by omega) (by omega) (by omega) (by omega) (by omega)
                  · --
                    exact yoe_window doe 59 2 0 237 (by omega) (by omega) (by omega) (by omega) (by omega) (by omega) (by omega) (by omega)
                · --
                  rcases lt_or_le doe 87292 with hq8 | hq8
                  · --
                    exact yoe_window doe 59 2 0 238 (by omega) (by omega) (by omega) (by omega) (by omega) (by omega) (by omega) (by omega)
                  · --
                    exact yoe_window doe 59 2 0 239 (by omega) (by omega) (by omega) (by omega) (by omega) (by omega) (by omega) (by omega)
          · --
            rcases lt_or_le doe 89849 with hq5 | hq5
            · --
              rcases lt_or_le doe 88753 with hq6 | hq6
              · --
                rcases lt_or_le doe 88023 with hq7 | hq7
                · --
                  rcases lt_or_le doe 87658 with hq8 | hq8
                  · --
                    exact yoe_window doe 60 2 0 239 (by omega) (by omega) (by omega) (by omega) (by omega) (by omega) (by omega) (by omega)
                  · --
                    exact yoe_window doe 60 2 0 240 (by omega) (by omega) (by omega) (by omega) (by omega) (by omega) (by omega) (by omega)
                · --
                  rcases lt_or_le doe 88388 with hq8 | hq8
                  · --
                    exact yoe_window doe 60 2 0 241 (by omega) (by omega) (by omega) (by omega) (by omega) (by omega) (by omega) (by omega)
                  · --
                    exact yoe_window doe 60 2 0 242 (by omega) (by omega) (by omega) (by omega) (by omega) (by omega) (by omega) (by omega)
              · --
                rcases lt_or_le doe 89119 with hq7 | hq7
                · --
                  rcases lt_or_le doe 89060 with hq8 | hq8
                  · --
                    exact yoe_window doe 60 2 0 243 (by omega) (by omega) (by omega) (by omega) (by omega) (by omega) (by omega) (by omega)
                  · --
                    exact yoe_window doe 61 2 0 243 (by omega) (by omega) (by omega) (by omega) (by omega) (by omega) (by omega) (by omega)
                · --
                  rcases lt_or_le doe 89484 with hq8 | hq8
                  · --
                    exact yoe_window doe 61 2 0 244 (by omega) (by omega) (by omega) (by omega) (by omega) (by omega) (by omega) (by omega)
                  · --
                    exact yoe_window doe 61 2 0 245 (by omega) (by omega) (by omega) (by omega) (by omega) (by omega) (by omega) (by omega)
            · --
              rcases lt_or_le doe 90945 with hq6 | hq6
              · --
                rcases lt_or_le doe 90520 with hq7 | hq7
                · --
                  rcases lt_or_le doe 90214 with hq8 | hq8
                  · --
                    exact yoe_window doe 61 2 0 246 (by omega) (by omega) (by omega) (by omega) (by omega) (by omega) (by omega) (by omega)
                  · --
                    exact yoe_window doe 61 2 0 247 (by omega) (by omega) (by omega) (by omega) (by omega) (by omega) (by omega) (by omega)
                · --
                  rcases lt_or_le doe 90580 with hq8 | hq8
                  · --
                    exact yoe_window doe 62 2 0 247 (by omega) (by omega) (by omega) (by omega) (by omega) (by omega) (by omega) (by omega)
                  · --
                    exact yoe_window doe 62 2 0 248 (by omega) (by omega) (by omega) (by omega) (by omega) (by omega) (by omega) (by omega)
              · --
                rcases lt_or_le doe 91675 with hq7 | hq7
                · --
                  rcases lt_or_le doe 91310 with hq8 | hq8
                  · --
                    exact yoe_window doe 62 2 0 249 (by omega) (by omega) (by omega) (by omega) (by omega) (by omega) (by omega) (by omega)
                  · --
                    exact yoe_window doe 62 2 0 250 (by omega) (by omega) (by omega) (by omega) (by omega) (by omega) (by omega) (by omega)
                · --
                  exact yoe_window doe 62 2 0 251 (by omega) (by omega) (by omega) (by omega) (by omega) (by omega) (by omega) (by omega)
      · --
        rcases lt_or_le doe 100807 with hq3 | hq3
        · --
          rcases lt_or_le doe 96424 with hq4 | hq4
          · --
            rcases lt_or_le doe 94232 with hq5 | hq5
            · --
              rcases lt_or_le doe 93136 with hq6 | hq6
              · --
                rcases lt_or_le doe 92406 with hq7 | hq7
                · --
                  rcases lt_or_le doe 92041 with hq8 | hq8
                  · --
                    exact yoe_window doe 63 2 0 251 (by omega) (by omega) (by omega) (by omega) (by omega) (by omega) (by omega) (by omega)
                  · --
                    exact yoe_window doe 63 2 0 252 (by omega) (by omega) (by omega) (by omega) (by omega) (by omega) (by omega) (by omega)
                · --
                  rcases lt_or_le doe 92771 with hq8 | hq8
                  · --
                    exact yoe_window doe 63 2 0 253 (by omega) (by omega) (by omega) (by omega) (by omega) (by omega) (by omega) (by omega)
                  · --
                    exact yoe_window doe 63 2 0 254 (by omega) (by omega) (by omega) (by omega) (by omega) (by omega) (by omega) (by omega)
              · --
                rcases lt_or_le doe 93502 with hq7 | hq7
                · --
                  rcases lt_or_le doe 93440 with hq8 | hq8
                  · --
                    exact yoe_window doe 63 2 0 255 (by omega) (by omega) (by omega) (by omega) (by omega) (by omega) (by omega) (by omega)
                  · --
                    exact yoe_window doe 64 2 0 255 (by omega) (by omega) (by omega) (by omega) (by omega) (by omega) (by omega) (by omega)
                · --
                  rcases lt_or_le doe 93867 with hq8 | hq8
                  · --
                    exact yoe_window doe 64 2 0 256 (by omega) (by omega) (by omega) (by omega) (by omega) (by omega) (by omega) (by omega)
                  · --
                    exact yoe_window doe 64 2 0 257 (by omega) (by omega) (by omega) (by omega) (by omega) (by omega) (by omega) (by omega)
            · --
              rcases lt_or_le doe 95328 with hq6 | hq6
              · --
                rcases lt_or_le doe 94900 with hq7 | hq7
                · --
                  rcases lt_or_le doe 94597 with hq8 | hq8
                  · --
                    exact yoe_window doe 64 2 0 258 (by omega) (by omega) (by omega) (by omega) (by omega) (by omega) (by omega) (by omega)
                  · --
                    exact yoe_window doe 64 2 0 259 (by omega) (by omega) (by omega) (by omega) (by omega) (by omega) (by omega) (by omega)
                · --
                  rcases lt_or_le doe 94963 with hq8 | hq8
                  · --
                    exact yoe_window doe 65 2 0 259 (by omega) (by omega) (by omega) (by omega) (by omega) (by omega) (by omega) (by omega)
                  · --
                    exact yoe_window doe 65 2 0 260 (by omega) (by omega) (by omega) (by omega) (by omega) (by omega) (by omega) (by omega)
              · --
                rcases lt_or_le doe 96058 with hq7 | hq7
                · --
                  rcases lt_or_le doe 95693 with hq8 | hq8
                  · --
                    exact yoe_window doe 65 2 0 261 (by omega) (by omega) (by omega) (by omega) (by omega) (by omega) (by omega) (by omega)
                  · --
                    exact yoe_window doe 65 2 0 262 (by omega) (by omega) (by omega) (by omega) (by omega) (by omega) (by omega) (by omega)
                · --
                  rcases lt_or_le doe 96360 with hq8 | hq8
                  · --
                    exact yoe_window doe 65 2 0 263 (by omega) (by omega) (by omega) (by omega) (by omega) (by omega) (by omega) (by omega)
                  · --
                    exact yoe_window doe 66 2 0 263 (by omega) (by omega) (by omega) (by omega) (by omega) (by omega) (by omega) (by omega)
          · --
            rcases lt_or_le doe 98980 with hq5 | hq5
            · --
              rcases lt_or_le doe 97820 with hq6 | hq6
              · --
                rcases lt_or_le doe 97154 with hq7 | hq7
                · --
                  rcases lt_or_le doe 96789 with hq8 | hq8
                  · --
                    exact yoe_window doe 66 2 0 264 (by omega) (by omega) (by omega) (by omega) (by omega) (by omega) (by omega) (by omega)
                  · --
                    exact yoe_window doe 66 2 0 265 (by omega) (by omega) (by omega) (by omega) (by omega) (by omega) (by omega) (by omega)
                · --
                  rcases lt_or_le doe 97519 with hq8 | hq8
                  · --
                    exact yoe_window doe 66 2 0 266 (by omega) (by omega) (by omega) (by omega) (by omega) (by omega) (by omega) (by omega)
                  · --
                    exact yoe_window doe 66 2 0 267 (by omega) (by omega) (by omega) (by omega) (by omega) (by omega) (by omega) (by omega)
              · --
                rcases lt_or_le doe 98250 with hq7 | hq7
                · --
                  rcases lt_or_le doe 97885 with hq8 | hq8
                  · --
                    exact yoe_window doe 67 2 0 267 (by omega) (by omega) (by omega) (by omega) (by omega) (by omega) (by omega) (by omega)
                  · --
                    exact yoe_window doe 67 2 0 268 (by omega) (by omega) (by omega) (by omega) (by omega) (by omega) (by omega) (by omega)
                · --
                  rcases lt_or_le doe 98615 with hq8 | hq8
                  · --
                    exact yoe_window doe 67 2 0 269 (by omega) (by omega) (by omega) (by omega) (by omega) (by omega) (by omega) (by omega)
                  · --
                    exact yoe_window doe 67 2 0 270 (by omega) (by omega) (by omega) (by omega) (by omega) (by omega) (by omega) (by omega)
            · --
              rcases lt_or_le doe 100076 with hq6 | hq6
              · --
                rcases lt_or_le doe 99346 with hq7 | hq7
                · --
                  rcases lt_or_le doe 99280 with hq8 | hq8
                  · --
                    exact yoe_window doe 67 2 0 271 (by omega) (by omega) (by omega) (by omega) (by omega) (by omega) (by omega) (by omega)
                  · --
                    exact yoe_window doe 68 2 0 271 (by omega) (by omega) (by omega) (by omega) (by omega) (by omega) (by omega) (by omega)
                · --
                  rcases lt_or_le doe 99711 with hq8 | hq8
                  · --
                    exact yoe_window doe 68 2 0 272 (by omega) (by omega) (by omega) (by omega) (by omega) (by omega) (by omega) (by omega)
                  · --
                    exact yoe_window doe 68 2 0 273 (by omega) (by omega) (by omega) (by omega) (by omega) (by omega) (by omega) (by omega)
              · --
                rcases lt_or_le doe 100740 with hq7 | hq7
                · --
                  rcases lt_or_le doe 100441 with hq8 | hq8
                  · --
                    exact yoe_window doe 68 2 0 274 (by omega) (by omega) (by omega) (by omega) (by omega) (by omega) (by omega) (by omega)
                  · --
                    exact yoe_window doe 68 2 0 275 (by omega) (by omega) (by omega) (by omega) (by omega) (by omega) (by omega) (by omega)
                · --
                  exact yoe_window doe 69 2 0 275 (by omega) (by omega) (by omega) (by omega) (by omega) (by omega) (by omega) (by omega)
        · --
          rcases lt_or_le doe 105555 with hq4 | hq4
          · --
            rcases lt_or_le doe 103363 with hq5 | hq5
            · --
              rcases lt_or_le doe 102200 with hq6 | hq6
              · --
                rcases lt_or_le doe 101537 with hq7 | hq7
                · --
                  rcases lt_or_le doe 101172 with hq8 | hq8
                  · --
                    exact yoe_window doe 69 2 0 276 (by omega) (by omega) (by omega) (by omega) (by omega) (by omega) (by omega) (by omega)
                  · --
                    exact yoe_window doe 69 2 0 277 (by omega) (by omega) (by omega) (by omega) (by omega) (by omega) (by omega) (by omega)
                · --
                  rcases lt_or_le doe 101902 with hq8 | hq8
                  · --
                    exact yoe_window doe 69 2 0 278 (by omega) (by omega) (by omega) (by omega) (by omega) (by omega) (by omega) (by omega)
                  · --
                    exact yoe_window doe 69 2 0 279 (by omega) (by omega) (by omega) (by omega) (by omega) (by omega) (by omega) (by omega)
              · --
                rcases lt_or_le doe 102633 with hq7 | hq7
                · --
                  rcases lt_or_le doe 102268 with hq8 | hq8
                  · --
                    exact yoe_window doe 70 2 0 279 (by omega) (by omega) (by omega) (by omega) (by omega) (by omega) (by omega) (by omega)
                  · --
                    exact yoe_window doe 70 2 0 280 (by omega) (by omega) (by omega) (by omega) (by omega) (by omega) (by omega) (by omega)
                · --
                  rcases lt_or_le doe 102998 with hq8 | hq8
                  · --
                    exact yoe_window doe 70 2 0 281 (by omega) (by omega) (by omega) (by omega) (by omega) (by omega) (by omega) (by omega)
                  · --
                    exact yoe_window doe 70 2 0 282 (by omega) (by omega) (by omega) (by omega) (by omega) (by omega) (by omega) (by omega)
            · --
              rcases lt_or_le doe 104459 with hq6 | hq6
              · --
                rcases lt_or_le doe 103729 with hq7 | hq7
                · --
                  rcases lt_or_le doe 103660 with hq8 | hq8
                  · --
                    exact yoe_window doe 70 2 0 283 (by omega) (by omega) (by omega) (by omega) (by omega) (by omega) (by omega) (by omega)
                  · --
                    exact yoe_window doe 71 2 0 283 (by omega) (by omega) (by omega) (by omega) (by omega) (by omega) (by omega) (by omega)
                · --
                  rcases lt_or_le doe 104094 with hq8 | hq8
                  · --
                    exact yoe_window doe 71 2 0 284 (by omega) (by omega) (by omega) (by omega) (by omega) (by omega) (by omega) (by omega)
                  · --
                    exact yoe_window doe 71 2 0 285 (by omega) (by omega) (by omega) (by omega) (by omega) (by omega) (by omega) (by omega)
              · --
                rcases lt_or_le doe 105120 with hq7 | hq7
                · --
                  rcases lt_or_le doe 104824 with hq8 | hq8
                  · --
                    exact yoe_window doe 71 2 0 286 (by omega) (by omega) (by omega) (by omega) (by omega) (by omega) (by omega) (by omega)
                  · --
                    exact yoe_window doe 71 2 0 287 (by omega) (by omega) (by omega) (by omega) (by omega) (by omega) (by omega) (by omega)
                · --
                  rcases lt_or_le doe 105190 with hq8 | hq8
                  · --
                    exact yoe_window doe 72 2 0 287 (by omega) (by omega) (by omega) (by omega) (by omega) (by omega) (by omega) (by omega)
                  · --
                    exact yoe_window doe 72 2 0 288 (by omega) (by omega) (by omega) (by omega) (by omega) (by omega) (by omega) (by omega)
          · --
            rcases lt_or_le doe 108040 with hq5 | hq5
            · --
              rcases lt_or_le doe 106651 with hq6 | hq6
              · --
                rcases lt_or_le doe 106285 with hq7 | hq7
                · --
                  rcases lt_or_le doe 105920 with hq8 | hq8
                  · --
                    exact yoe_window doe 72 2 0 289 (by omega) (by omega) (by omega) (by omega) (by omega) (by omega) (by omega) (by omega)
                  · --
                    exact yoe_window doe 72 2 0 290 (by omega) (by omega) (by omega) (by omega) (by omega) (by omega) (by omega) (by omega)
                · --
                  rcases lt_or_le doe 106580 with hq8 | hq8
                  · --
                    exact yoe_window doe 72 2 0 291 (by omega) (by omega) (by omega) (by omega) (by omega) (by omega) (by omega) (by omega)
                  · --
                    exact yoe_window doe 73 2 0 291 (by omega) (by omega) (by omega) (by omega) (by omega) (by omega) (by omega) (by omega)
              · --
                rcases lt_or_le doe 107381 with hq7 | hq7
                · --
                  rcases lt_or_le doe 107016 with hq8 | hq8
                  · --
                    exact yoe_window doe 73 2 0 292 (by omega) (by omega) (by omega) (by omega) (by omega) (by omega) (by omega) (by omega)
                  · --
                    exact yoe_window doe 73 2 0 293 (by omega) (by omega) (by omega) (by omega) (by omega) (by omega) (by omega) (by omega)
                · --
                  rcases lt_or_le doe 107746 with hq8 | hq8
                  · --
                    exact yoe_window doe 73 2 0 294 (by omega) (by omega) (by omega) (by omega) (by omega) (by omega) (by omega) (by omega)
                  · --
                    exact yoe_window doe 73 2 0 295 (by omega) (by omega) (by omega) (by omega) (by omega) (by omega) (by omega) (by omega)
            · --
              rcases lt_or_le doe 109207 with hq6 | hq6
              · --
                rcases lt_or_le doe 108477 with hq7 | hq7
                · --
                  rcases lt_or_le doe 108112 with hq8 | hq8
                  · --
                    exact yoe_window doe 74 2 0 295 (by omega) (by omega) (by omega) (by omega) (by omega) (by omega) (by omega) (by omega)
                  · --
                    exact yoe_window doe 74 2 0 296 (by omega) (by omega) (by omega) (by omega) (by omega) (by omega) (by omega) (by omega)
                · --
                  rcases lt_or_le doe 108842 with hq8 | hq8
                  · --
                    exact yoe_window doe 74 2 0 297 (by omega) (by omega) (by omega) (by omega) (by omega) (by omega) (by omega) (by omega)
                  · --
                    exact yoe_window doe 74 2 0 298 (by omega) (by omega) (by omega) (by omega) (by omega) (by omega) (by omega) (by omega)
              · --
                rcases lt_or_le doe 109572 with hq7 | hq7
                · --
                  rcases lt_or_le doe 109500 with hq8 | hq8
                  · --
                    exact yoe_window doe 74 2 0 299 (by omega) (by omega) (by omega) (by omega) (by omega) (by omega) (by omega) (by omega)
                  · --
                    exact yoe_window doe 75 2 0 299 (by omega) (by omega) (by omega) (by omega) (by omega) (by omega) (by omega) (by omega)
                · --
                  exact yoe_window doe 75 3 0 300 (by omega) (by omega) (by omega) (by omega) (by omega) (by omega) (by omega) (by omega)
    · --
      rcases lt_or_le doe 128480 with hq2 | hq2
      · --
        rcases lt_or_le doe 119433 with hq3 | hq3
        · --
          rcases lt_or_le doe 114685 with hq4 | hq4
          · --
            rcases lt_or_le doe 112420 with hq5 | hq5
            · --
              rcases lt_or_le doe 111033 with hq6 | hq6
              · --
                rcases lt_or_le doe 110667 with hq7 | hq7
                · --
                  rcases lt_or_le doe 110302 with hq8 | hq8
                  · --
                    exact yoe_window doe 75 3 0 301 (by omega) (by omega) (by omega) (by omega) (by omega) (by omega) (by omega) (by omega)
                  · --
                    exact yoe_window doe 75 3 0 302 (by omega) (by omega) (by omega) (by omega) (by omega) (by omega) (by omega) (by omega)
                · --
                  rcases lt_or_le doe 110960 with hq8 | hq8
                  · --
                    exact yoe_window doe 75 3 0 303 (by omega) (by omega) (by omega) (by omega) (by omega) (by omega) (by omega) (by omega)
                  · --
                    exact yoe_window doe 76 3 0 303 (by omega) (by omega) (by omega) (by omega) (by omega) (by omega) (by omega) (by omega)
              · --
                rcases lt_or_le doe 111763 with hq7 | hq7
                · --
                  rcases lt_or_le doe 111398 with hq8 | hq8
                  · --
                    exact yoe_window doe 76 3 0 304 (by omega) (by omega) (by omega) (by omega) (by omega) (by omega) (by omega) (by omega)
                  · --
                    exact yoe_window doe 76 3 0 305 (by omega) (by omega) (by omega) (by omega) (by omega) (by omega) (by omega) (by omega)
                · --
                  rcases lt_or_le doe 112128 with hq8 | hq8
                  · --
                    exact yoe_window doe 76 3 0 306 (by omega) (by omega) (by omega) (by omega) (by omega) (by omega) (by omega) (by omega)
                  · --
                    exact yoe_window doe 76 3 0 307 (by omega) (by omega) (by omega) (by omega) (by omega) (by omega) (by omega) (by omega)
            · --
              rcases lt_or_le doe 113589 with hq6 | hq6
              · --
                rcases lt_or_le doe 112859 with hq7 | hq7
                · --
                  rcases lt_or_le doe 112494 with hq8 | hq8
                  · --
                    exact yoe_window doe 77 3 0 307 (by omega) (by omega) (by omega) (by omega) (by omega) (by omega) (by omega) (by omega)
                  · --
                    exact yoe_window doe 77 3 0 308 (by omega) (by omega) (by omega) (by omega) (by omega) (by omega) (by omega) (by omega)
                · --
                  rcases lt_or_le doe 113224 with hq8 | hq8
                  · --
                    exact yoe_window doe 77 3 0 309 (by omega) (by omega) (by omega) (by omega) (by omega) (by omega) (by omega) (by omega)
                  · --
                    exact yoe_window doe 77 3 0 310 (by omega) (by omega) (by omega) (by omega) (by omega) (by omega) (by omega) (by omega)
              · --
                rcases lt_or_le doe 113955 with hq7 | hq7
                · --
                  rcases lt_or_le doe 113880 with hq8 | hq8
                  · --
                    exact yoe_window doe 77 3 0 311 (by omega) (by omega) (by omega) (by omega) (by omega) (by omega) (by omega) (by omega)
                  · --
                    exact yoe_window doe 78 3 0 311 (by omega) (by omega) (by omega) (by omega) (by omega) (by omega) (by omega) (by omega)
                · --
                  rcases lt_or_le doe 114320 with hq8 | hq8
                  · --
                    exact yoe_window doe 78 3 0 312 (by omega) (by omega) (by omega) (by omega) (by omega) (by omega) (by omega) (by omega)
                  · --
                    exact yoe_window doe 78 3 0 313 (by omega) (by omega) (by omega) (by omega) (by omega) (by omega) (by omega) (by omega)
          · --
            rcases lt_or_le doe 116877 with hq5 | hq5
            · --
              rcases lt_or_le doe 115781 with hq6 | hq6
              · --
                rcases lt_or_le doe 115340 with hq7 | hq7
                · --
                  rcases lt_or_le doe 115050 with hq8 | hq8
                  · --
                    exact yoe_window doe 78 3 0 314 (by omega) (by omega) (by omega) (by omega) (by omega) (by omega) (by omega) (by omega)
                  · --
                    exact yoe_window doe 78 3 0 315 (by omega) (by omega) (by omega) (by omega) (by omega) (by omega) (by omega) (by omega)
                · --
                  rcases lt_or_le doe 115416 with hq8 | hq8
                  · --
                    exact yoe_window doe 79 3 0 315 (by omega) (by omega) (by omega) (by omega) (by omega) (by omega) (by omega) (by omega)
                  · --
                    exact yoe_window doe 79 3 0 316 (by omega) (by omega) (by omega) (by omega) (by omega) (by omega) (by omega) (by omega)
              · --
                rcases lt_or_le doe 116511 with hq7 | hq7
                · --
                  rcases lt_or_le doe 116146 with hq8 | hq8
                  · --
                    exact yoe_window doe 79 3 0 317 (by omega) (by omega) (by omega) (by omega) (by omega) (by omega) (by omega) (by omega)
                  · --
                    exact yoe_window doe 79 3 0 318 (by omega) (by omega) (by omega) (by omega) (by omega) (by omega) (by omega) (by omega)
                · --
                  rcases lt_or_le doe 116800 with hq8 | hq8
                  · --
                    exact yoe_window doe 79 3 0 319 (by omega) (by omega) (by omega) (by omega) (by omega) (by omega) (by omega) (by omega)
                  · --
                    exact yoe_window doe 80 3 0 319 (by omega) (by omega) (by omega) (by omega) (by omega) (by omega) (by omega) (by omega)
            · --
              rcases lt_or_le doe 118260 with hq6 | hq6
              · --
                rcases lt_or_le doe 117607 with hq7 | hq7
                · --
                  rcases lt_or_le doe 117242 with hq8 | hq8
                  · --
                    exact yoe_window doe 80 3 0 320 (by omega) (by omega) (by omega) (by omega) (by omega) (by omega) (by omega) (by omega)
                  · --
                    exact yoe_window doe 80 3 0 321 (by omega) (by omega) (by omega) (by omega) (by omega) (by omega) (by omega) (by omega)
                · --
                  rcases lt_or_le doe 117972 with hq8 | hq8
                  · --
                    exact yoe_window doe 80 3 0 322 (by omega) (by omega) (by omega) (by omega) (by omega) (by omega) (by omega) (by omega)
                  · --
                    exact yoe_window doe 80 3 0 323 (by omega) (by omega) (by omega) (by omega) (by omega) (by omega) (by omega) (by omega)
              · --
                rcases lt_or_le doe 118703 with hq7 | hq7
                · --
                  rcases lt_or_le doe 118338 with hq8 | hq8
                  · --
                    exact yoe_window doe 81 3 0 323 (by omega) (by omega) (by omega) (by omega) (by omega) (by omega) (by omega) (by omega)
                  · --
                    exact yoe_window doe 81 3 0 324 (by omega) (by omega) (by omega) (by omega) (by omega) (by omega) (by omega) (by omega)
                · --
                  rcases lt_or_le doe 119068 with hq8 | hq8
                  · --
                    exact yoe_window doe 81 3 0 325 (by omega) (by omega) (by omega) (by omega) (by omega) (by omega) (by omega) (by omega)
                  · --
                    exact yoe_window doe 81 3 0 326 (by omega) (by omega) (by omega) (by omega) (by omega) (by omega) (by omega) (by omega)
        · --
          rcases lt_or_le doe 124100 with hq4 | hq4
          · --
            rcases lt_or_le doe 121625 with hq5 | hq5
            · --
              rcases lt_or_le doe 120529 with hq6 | hq6
              · --
                rcases lt_or_le doe 119799 with hq7 | hq7
                · --
                  rcases lt_or_le doe 119720 with hq8 | hq8
                  · --
                    exact yoe_window doe 81 3 0 327 (by omega) (by omega) (by omega) (by omega) (by omega) (by omega) (by omega) (by omega)
                  · --
                    exact yoe_window doe 82 3 0 327 (by omega) (by omega) (by omega) (by omega) (by omega) (by omega) (by omega) (by omega)
                · --
                  rcases lt_or_le doe 120164 with hq8 | hq8
                  · --
                    exact yoe_window doe 82 3 0 328 (by omega) (by omega) (by omega) (by omega) (by omega) (by omega) (by omega) (by omega)
                  · --
                    exact yoe_window doe 82 3 0 329 (by omega) (by omega) (by omega) (by omega) (by omega) (by omega) (by omega) (by omega)
              · --
                rcases lt_or_le doe 121180 with hq7 | hq7
                · --
                  rcases lt_or_le doe 120894 with hq8 | hq8
                  · --
                    exact yoe_window doe 82 3 0 330 (by omega) (by omega) (by omega) (by omega) (by omega) (by omega) (by omega) (by omega)
                  · --
                    exact yoe_window doe 82 3 0 331 (by omega) (by omega) (by omega) (by omega) (by omega) (by omega) (by omega) (by omega)
                · --
                  rcases lt_or_le doe 121260 with hq8 | hq8
                  · --
                    exact yoe_window doe 83 3 0 331 (by omega) (by omega) (by omega) (by omega) (by omega) (by omega) (by omega) (by omega)
                  · --
                    exact yoe_window doe 83 3 0 332 (by omega) (by omega) (by omega) (by omega) (by omega) (by omega) (by omega) (by omega)
            · --
              rcases lt_or_le doe 122721 with hq6 | hq6
              · --
                rcases lt_or_le doe 122355 with hq7 | hq7
                · --
                  rcases lt_or_le doe 121990 with hq8 | hq8
                  · --
                    exact yoe_window doe 83 3 0 333 (by omega) (by omega) (by omega) (by omega) (by omega) (by omega) (by omega) (by omega)
                  · --
                    exact yoe_window doe 83 3 0 334 (by omega) (by omega) (by omega) (by omega) (by omega) (by omega) (by omega) (by omega)
                · --
                  rcases lt_or_le doe 122640 with hq8 | hq8
                  · --
                    exact yoe_window doe 83 3 0 335 (by omega) (by omega) (by omega) (by omega) (by omega) (by omega) (by omega) (by omega)
                  · --
                    exact yoe_window doe 84 3 0 335 (by omega) (by omega) (by omega) (by omega) (by omega) (by omega) (by omega) (by omega)
              · --
                rcases lt_or_le doe 123451 with hq7 | hq7
                · --
                  rcases lt_or_le doe 123086 with hq8 | hq8
                  · --
                    exact yoe_window doe 84 3 0 336 (by omega) (by omega) (by omega) (by omega) (by omega) (by omega) (by omega) (by omega)
                  · --
                    exact yoe_window doe 84 3 0 337 (by omega) (by omega) (by omega) (by omega) (by omega) (by omega) (by omega) (by omega)
                · --
                  rcases lt_or_le doe 123816 with hq8 | hq8
                  · --
                    exact yoe_window doe 84 3 0 338 (by omega) (by omega) (by omega) (by omega) (by omega) (by omega) (by omega) (by omega)
                  · --
                    exact yoe_window doe 84 3 0 339 (by omega) (by omega) (by omega) (by omega) (by omega) (by omega) (by omega) (by omega)
          · --
            rcases lt_or_le doe 126373 with hq5 | hq5
            · --
              rcases lt_or_le doe 125277 with hq6 | hq6
              · --
                rcases lt_or_le doe 124547 with hq7 | hq7
                · --
                  rcases lt_or_le doe 124182 with hq8 | hq8
                  · --
                    exact yoe_window doe 85 3 0 339 (by omega) (by omega) (by omega) (by omega) (by omega) (by omega) (by omega) (by omega)
                  · --
                    exact yoe_window doe 85 3 0 340 (by omega) (by omega) (by omega) (by omega) (by omega) (by omega) (by omega) (by omega)
                · --
                  rcases lt_or_le doe 124912 with hq8 | hq8
                  · --
                    exact yoe_window doe 85 3 0 341 (by omega) (by omega) (by omega) (by omega) (by omega) (by omega) (by omega) (by omega)
                  · --
                    exact yoe_window doe 85 3 0 342 (by omega) (by omega) (by omega) (by omega) (by omega) (by omega) (by omega) (by omega)
              · --
                rcases lt_or_le doe 125643 with hq7 | hq7
                · --
                  rcases lt_or_le doe 125560 with hq8 | hq8
                  · --
                    exact yoe_window doe 85 3 0 343 (by omega) (by omega) (by omega) (by omega) (by omega) (by omega) (by omega) (by omega)
                  · --
                    exact yoe_window doe 86 3 0 343 (by omega) (by omega) (by omega) (by omega) (by omega) (by omega) (by omega) (by omega)
                · --
                  rcases lt_or_le doe 126008 with hq8 | hq8
                  · --
                    exact yoe_window doe 86 3 0 344 (by omega) (by omega) (by omega) (by omega) (by omega) (by omega) (by omega) (by omega)
                  · --
                    exact yoe_window doe 86 3 0 345 (by omega) (by omega) (by omega) (by omega) (by omega) (by omega) (by omega) (by omega)
            · --
              rcases lt_or_le doe 127469 with hq6 | hq6
              · --
                rcases lt_or_le doe 127020 with hq7 | hq7
                · --
                  rcases lt_or_le doe 126738 with hq8 | hq8
                  · --
                    exact yoe_window doe 86 3 0 346 (by omega) (by omega) (by omega) (by omega) (by omega) (by omega) (by omega) (by omega)
                  · --
                    exact yoe_window doe 86 3 0 347 (by omega) (by omega) (by omega) (by omega) (by omega) (by omega) (by omega) (by omega)
                · --
                  rcases lt_or_le doe 127104 with hq8 | hq8
                  · --
                    exact yoe_window doe 87 3 0 347 (by omega) (by omega) (by omega) (by omega) (by omega) (by omega) (by omega) (by omega)
                  · --
                    exact yoe_window doe 87 3 0 348 (by omega) (by omega) (by omega) (by omega) (by omega) (by omega) (by omega) (by omega)
              · --
                rcases lt_or_le doe 128199 with hq7 | hq7
                · --
                  rcases lt_or_le doe 127834 with hq8 | hq8
                  · --
                    exact yoe_window doe 87 3 0 349 (by omega) (by omega) (by omega) (by omega) (by omega) (by omega) (by omega) (by omega)
                  · --
                    exact yoe_window doe 87 3 0 350 (by omega) (by omega) (by omega) (by omega) (by omega) (by omega) (by omega) (by omega)
                · --
                  exact yoe_window doe 87 3 0 351 (by omega) (by omega) (by omega) (by omega) (by omega) (by omega) (by omega) (by omega)
      · --
        rcases lt_or_le doe 137331 with hq3 | hq3
        · --
          rcases lt_or_le doe 132948 with hq4 | hq4
          · --
            rcases lt_or_le doe 130756 with hq5 | hq5
            · --
              rcases lt_or_le doe 129660 with hq6 | hq6
              · --
                rcases lt_or_le doe 128930 with hq7 | hq7
                · --
                  rcases lt_or_le doe 128565 with hq8 | hq8
                  · --
                    exact yoe_window doe 88 3 0 351 (by omega) (by omega) (by omega) (by omega) (by omega) (by omega) (by omega) (by omega)
                  · --
                    exact yoe_window doe 88 3 0 352 (by omega) (by omega) (by omega) (by omega) (by omega) (by omega) (by omega) (by omega)
                · --
                  rcases lt_or_le doe 129295 with hq8 | hq8
                  · --
                    exact yoe_window doe 88 3 0 353 (by omega) (by omega) (by omega) (by omega) (by omega) (by omega) (by omega) (by omega)
                  · --
                    exact yoe_window doe 88 3 0 354 (by omega) (by omega) (by omega) (by omega) (by omega) (by omega) (by omega) (by omega)
              · --
                rcases lt_or_le doe 130026 with hq7 | hq7
                · --
                  rcases lt_or_le doe 129940 with hq8 | hq8
                  · --
                    exact yoe_window doe 88 3 0 355 (by omega) (by omega) (by omega) (by omega) (by omega) (by omega) (by omega) (by omega)
                  · --
                    exact yoe_window doe 89 3 0 355 (by omega) (by omega) (by omega) (by omega) (by omega) (by omega) (by omega) (by omega)
                · --
                  rcases lt_or_le doe 130391 with hq8 | hq8
                  · --
                    exact yoe_window doe 89 3 0 356 (by omega) (by omega) (by omega) (by omega) (by omega) (by omega) (by omega) (by omega)
                  · --
                    exact yoe_window doe 89 3 0 357 (by omega) (by omega) (by omega) (by omega) (by omega) (by omega) (by omega) (by omega)
            · --
              rcases lt_or_le doe 131852 with hq6 | hq6
              · --
                rcases lt_or_le doe 131400 with hq7 | hq7
                · --
                  rcases lt_or_le doe 131121 with hq8 | hq8
                  · --
                    exact yoe_window doe 89 3 0 358 (by omega) (by omega) (by omega) (by omega) (by omega) (by omega) (by omega) (by omega)
                  · --
                    exact yoe_window doe 89 3 0 359 (by omega) (by omega) (by omega) (by omega) (by omega) (by omega) (by omega) (by omega)
                · --
                  rcases lt_or_le doe 131487 with hq8 | hq8
                  · --
                    exact yoe_window doe 90 3 0 359 (by omega) (by omega) (by omega) (by omega) (by omega) (by omega) (by omega) (by omega)
                  · --
                    exact yoe_window doe 90 3 0 360 (by omega) (by omega) (by omega) (by omega) (by omega) (by omega) (by omega) (by omega)
              · --
                rcases lt_or_le doe 132582 with hq7 | hq7
                · --
                  rcases lt_or_le doe 132217 with hq8 | hq8
                  · --
                    exact yoe_window doe 90 3 0 361 (by omega) (by omega) (by omega) (by omega) (by omega) (by omega) (by omega) (by omega)
                  · --
                    exact yoe_window doe 90 3 0 362 (by omega) (by omega) (by omega) (by omega) (by omega) (by omega) (by omega) (by omega)
                · --
                  rcases lt_or_le doe 132860 with hq8 | hq8
                  · --
                    exact yoe_window doe 90 3 0 363 (by omega) (by omega) (by omega) (by omega) (by omega) (by omega) (by omega) (by omega)
                  · --
                    exact yoe_window doe 91 3 0 363 (by omega) (by omega) (by omega) (by omega) (by omega) (by omega) (by omega) (by omega)
          · --
            rcases lt_or_le doe 135504 with hq5 | hq5
            · --
              rcases lt_or_le doe 134320 with hq6 | hq6
              · --
                rcases lt_or_le doe 133678 with hq7 | hq7
                · --
                  rcases lt_or_le doe 133313 with hq8 | hq8
                  · --
                    exact yoe_window doe 91 3 0 364 (by omega) (by omega) (by omega) (by omega) (by omega) (by omega) (by omega) (by omega)
                  · --
                    exact yoe_window doe 91 3 0 365 (by omega) (by omega) (by omega) (by omega) (by omega) (by omega) (by omega) (by omega)
                · --
                  rcases lt_or_le doe 134043 with hq8 | hq8
                  · --
                    exact yoe_window doe 91 3 0 366 (by omega) (by omega) (by omega) (by omega) (by omega) (by omega) (by omega) (by omega)
                  · --
                    exact yoe_window doe 91 3 0 367 (by omega) (by omega) (by omega) (by omega) (by omega) (by omega) (by omega) (by omega)
              · --
                rcases lt_or_le doe 134774 with hq7 | hq7
                · --
                  rcases lt_or_le doe 134409 with hq8 | hq8
                  · --
                    exact yoe_window doe 92 3 0 367 (by omega) (by omega) (by omega) (by omega) (by omega) (by omega) (by omega) (by omega)
                  · --
                    exact yoe_window doe 92 3 0 368 (by omega) (by omega) (by omega) (by omega) (by omega) (by omega) (by omega) (by omega)
                · --
                  rcases lt_or_le doe 135139 with hq8 | hq8
                  · --
                    exact yoe_window doe 92 3 0 369 (by omega) (by omega) (by omega) (by omega) (by omega) (by omega) (by omega) (by omega)
                  · --
                    exact yoe_window doe 92 3 0 370 (by omega) (by omega) (by omega) (by omega) (by omega) (by omega) (by omega) (by omega)
            · --
              rcases lt_or_le doe 136600 with hq6 | hq6
              · --
                rcases lt_or_le doe 135870 with hq7 | hq7
                · --
                  rcases lt_or_le doe 135780 with hq8 | hq8
                  · --
                    exact yoe_window doe 92 3 0 371 (by omega) (by omega) (by omega) (by omega) (by omega) (by omega) (by omega) (by omega)
                  · --
                    exact yoe_window doe 93 3 0 371 (by omega) (by omega) (by omega) (by omega) (by omega) (by omega) (by omega) (by omega)
                · --
                  rcases lt_or_le doe 136235 with hq8 | hq8
                  · --
                    exact yoe_window doe 93 3 0 372 (by omega) (by omega) (by omega) (by omega) (by omega) (by omega) (by omega) (by omega)
                  · --
                    exact yoe_window doe 93 3 0 373 (by omega) (by omega) (by omega) (by omega) (by omega) (by omega) (by omega) (by omega)
              · --
                rcases lt_or_le doe 137240 with hq7 | hq7
                · --
                  rcases lt_or_le doe 136965 with hq8 | hq8
                  · --
                    exact yoe_window doe 93 3 0 374 (by omega) (by omega) (by omega) (by omega) (by omega) (by omega) (by omega) (by omega)
                  · --
                    exact yoe_window doe 93 3 0 375 (by omega) (by omega) (by omega) (by omega) (by omega) (by omega) (by omega) (by omega)
                · --
                  exact yoe_window doe 94 3 0 375 (by omega) (by omega) (by omega) (by omega) (by omega) (by omega) (by omega) (by omega)
        · --
          rcases lt_or_le doe 142079 with hq4 | hq4
          · --
            rcases lt_or_le doe 139887 with hq5 | hq5
            · --
              rcases lt_or_le doe 138700 with hq6 | hq6
              · --
                rcases lt_or_le doe 138061 with hq7 | hq7
                · --
                  rcases lt_or_le doe 137696 with hq8 | hq8
                  · --
                    exact yoe_window doe 94 3 0 376 (by omega) (by omega) (by omega) (by omega) (by omega) (by omega) (by omega) (by omega)
                  · --
                    exact yoe_window doe 94 3 0 377 (by omega) (by omega) (by omega) (by omega) (by omega) (by omega) (by omega) (by omega)
                · --
                  rcases lt_or_le doe 138426 with hq8 | hq8
                  · --
                    exact yoe_window doe 94 3 0 378 (by omega) (by omega) (by omega) (by omega) (by omega) (by omega) (by omega) (by omega)
                  · --
                    exact yoe_window doe 94 3 0 379 (by omega) (by omega) (by omega) (by omega) (by omega) (by omega) (by omega) (by omega)
              · --
                rcases lt_or_le doe 139157 with hq7 | hq7
                · --
                  rcases lt_or_le doe 138792 with hq8 | hq8
                  · --
                    exact yoe_window doe 95 3 0 379 (by omega) (by omega) (by omega) (by omega) (by omega) (by omega) (by omega) (by omega)
                  · --
                    exact yoe_window doe 95 3 0 380 (by omega) (by omega) (by omega) (by omega) (by omega) (by omega) (by omega) (by omega)
                · --
                  rcases lt_or_le doe 139522 with hq8 | hq8
                  · --
                    exact yoe_window doe 95 3 0 381 (by omega) (by omega) (by omega) (by omega) (by omega) (by omega) (by omega) (by omega)
                  · --
                    exact yoe_window doe 95 3 0 382 (by omega) (by omega) (by omega) (by omega) (by omega) (by omega) (by omega) (by omega)
            · --
              rcases lt_or_le doe 140983 with hq6 | hq6
              · --
                rcases lt_or_le doe 140253 with hq7 | hq7
                · --
                  rcases lt_or_le doe 140160 with hq8 | hq8
                  · --
                    exact yoe_window doe 95 3 0 383 (by omega) (by omega) (by omega) (by omega) (by omega) (by omega) (by omega) (by omega)
                  · --
                    exact yoe_window doe 96 3 0 383 (by omega) (by omega) (by omega) (by omega) (by omega) (by omega) (by omega) (by omega)
                · --
                  rcases lt_or_le doe 140618 with hq8 | hq8
                  · --
                    exact yoe_window doe 96 3 0 384 (by omega) (by omega) (by omega) (by omega) (by omega) (by omega) (by omega) (by omega)
                  · --
                    exact yoe_window doe 96 3 0 385 (by omega) (by omega) (by omega) (by omega) (by omega) (by omega) (by omega) (by omega)
              · --
                rcases lt_or_le doe 141620 with hq7 | hq7
                · --
                  rcases lt_or_le doe 141348 with hq8 | hq8
                  · --
                    exact yoe_window doe 96 3 0 386 (by omega) (by omega) (by omega) (by omega) (by omega) (by omega) (by omega) (by omega)
                  · --
                    exact yoe_window doe 96 3 0 387 (by omega) (by omega) (by omega) (by omega) (by omega) (by omega) (by omega) (by omega)
                · --
                  rcases lt_or_le doe 141714 with hq8 | hq8
                  · --
                    exact yoe_window doe 97 3 0 387 (by omega) (by omega) (by omega) (by omega) (by omega) (by omega) (by omega) (by omega)
                  · --
                    exact yoe_window doe 97 3 0 388 (by omega) (by omega) (by omega) (by omega) (by omega) (by omega) (by omega) (by omega)
          · --
            rcases lt_or_le doe 144540 with hq5 | hq5
            · --
              rcases lt_or_le doe 143175 with hq6 | hq6
              · --
                rcases lt_or_le doe 142809 with hq7 | hq7
                · --
                  rcases lt_or_le doe 142444 with hq8 | hq8
                  · --
                    exact yoe_window doe 97 3 0 389 (by omega) (by omega) (by omega) (by omega) (by omega) (by omega) (by omega) (by omega)
                  · --
                    exact yoe_window doe 97 3 0 390 (by omega) (by omega) (by omega) (by omega) (by omega) (by omega) (by omega) (by omega)
                · --
                  rcases lt_or_le doe 143080 with hq8 | hq8
                  · --
                    exact yoe_window doe 97 3 0 391 (by omega) (by omega) (by omega) (by omega) (by omega) (by omega) (by omega) (by omega)
                  · --
                    exact yoe_window doe 98 3 0 391 (by omega) (by omega) (by omega) (by omega) (by omega) (by omega) (by omega) (by omega)
              · --
                rcases lt_or_le doe 143905 with hq7 | hq7
                · --
                  rcases lt_or_le doe 143540 with hq8 | hq8
                  · --
                    exact yoe_window doe 98 3 0 392 (by omega) (by omega) (by omega) (by omega) (by omega) (by omega) (by omega) (by omega)
                  · --
                    exact yoe_window doe 98 3 0 393 (by omega) (by omega) (by omega) (by omega) (by omega) (by omega) (by omega) (by omega)
                · --
                  rcases lt_or_le doe 144270 with hq8 | hq8
                  · --
                    exact yoe_window doe 98 3 0 394 (by omega) (by omega) (by omega) (by omega) (by omega) (by omega) (by omega) (by omega)
                  · --
                    exact yoe_window doe 98 3 0 395 (by omega) (by omega) (by omega) (by omega) (by omega) (by omega) (by omega) (by omega)
            · --
              rcases lt_or_le doe 145731 with hq6 | hq6
              · --
                rcases lt_or_le doe 145001 with hq7 | hq7
                · --
                  rcases lt_or_le doe 144636 with hq8 | hq8
                  · --
                    exact yoe_window doe 99 3 0 395 (by omega) (by omega) (by omega) (by omega) (by omega) (by omega) (by omega) (by omega)
                  · --
                    exact yoe_window doe 99 3 0 396 (by omega) (by omega) (by omega) (by omega) (by omega) (by omega) (by omega) (by omega)
                · --
                  rcases lt_or_le doe 145366 with hq8 | hq8
                  · --
                    exact yoe_window doe 99 3 0 397 (by omega) (by omega) (by omega) (by omega) (by omega) (by omega) (by omega) (by omega)
                  · --
                    exact yoe_window doe 99 3 0 398 (by omega) (by omega) (by omega) (by omega) (by omega) (by omega) (by omega) (by omega)
              · --
                rcases lt_or_le doe 146096 with hq7 | hq7
                · --
                  rcases lt_or_le doe 146000 with hq8 | hq8
                  · --
                    exact yoe_window doe 99 3 0 399 (by omega) (by omega) (by omega) (by omega) (by omega) (by omega) (by omega) (by omega)
                  · --
                    exact yoe_window doe 100 3 0 399 (by omega) (by omega) (by omega) (by omega) (by omega) (by omega) (by omega) (by omega)
                · --
                  exact yoe_window doe 100 4 1 399 (by omega) (by omega) (by omega) (by omega) (by omega) (by omega) (by omega) (by omega)

theorem mp_correct (doy : Int) (h0 : 0 ≤ doy) (h1 : doy ≤ 365) :
    0 ≤ mpOfDoy doy ∧ mpOfDoy doy ≤ 11 ∧
    monthStartDoy (mpOfDoy doy) ≤ doy ∧ doy - monthStartDoy (mpOfDoy doy) ≤ 30 := by
  unfold mpOfDoy monthStartDoy
  have hs : (0 ≤ doy ∧ doy ≤ 30) ∨ (31 ≤ doy ∧ doy ≤ 60) ∨ (61 ≤ doy ∧ doy ≤ 91) ∨ (92 ≤ doy ∧ doy ≤ 121) ∨ (122 ≤ doy ∧ doy ≤ 152) ∨ (153 ≤ doy ∧ doy ≤ 183) ∨ (184 ≤ doy ∧ doy ≤ 213) ∨ (214 ≤ doy ∧ doy ≤ 244) ∨ (245 ≤ doy ∧ doy ≤ 274) ∨ (275 ≤ doy ∧ doy ≤ 305) ∨ (306 ≤ doy ∧ doy ≤ 336) ∨ (337 ≤ doy ∧ doy ≤ 365) := by omega
  rcases hs with h|h|h|h|h|h|h|h|h|h|h|h
  · have hmp : (5 * doy + 2) / 153 = 0 := by omega
    rw [hmp]
    omega
  · have hmp : (5 * doy + 2) / 153 = 1 := by omega
    rw [hmp]
    omega
  · have hmp : (5 * doy + 2) / 153 = 2 := by omega
    rw [hmp]
    omega
  · have hmp : (5 * doy + 2) / 153 = 3 := by omega
    rw [hmp]
    omega
  · have hmp : (5 * doy + 2) / 153 = 4 := by omega
    rw [hmp]
    omega
  · have hmp : (5 * doy + 2) / 153 = 5 := by omega
    rw [hmp]
    omega
  · have hmp : (5 * doy + 2) / 153 = 6 := by omega
    rw [hmp]
    omega
  · have hmp : (5 * doy + 2) / 153 = 7 := by omega
    rw [hmp]
    omega
  · have hmp : (5 * doy + 2) / 153 = 8 := by omega
    rw [hmp]
    omega
  · have hmp : (5 * doy + 2) / 153 = 9 := by omega
    rw [hmp]
    omega
  · have hmp : (5 * doy + 2) / 153 = 10 := by omega
    rw [hmp]
    omega
  · have hmp : (5 * doy + 2) / 153 = 11 := by omega
    rw [hmp]
    omega

set_option maxHeartbeats 4000000 in
theorem daysFromCivil_of_civilFromDays (z : Int) :
    daysFromCivil (civilFromDays z).1 (civilFromDays z).2.1 (civilFromDays z).2.2 = z := by
  have h0 : 0 ≤ doeOfDays z := by unfold doeOfDays; omega
  have h1 : doeOfDays z ≤ 146096 := by unfold doeOfDays; omega
  have hy := yoe_core (doeOfDays z) h0 h1
  have hys : yearStartDoe (yoeOfDoe (doeOfDays z)) =
      365 * yoeOfDoe (doeOfDays z) + yoeOfDoe (doeOfDays z) / 4 -
        yoeOfDoe (doeOfDays z) / 100 := rfl
  have hdoy : doyOfDoe (doeOfDays z) =
      doeOfDays z - yearStartDoe (yoeOfDoe (doeOfDays z)) := rfl
  have hdoy0 : 0 ≤ doyOfDoe (doeOfDays z) := by omega
  have hdoy1 : doyOfDoe (doeOfDays z) ≤ 365 := by omega
  have hmp := mp_correct (doyOfDoe (doeOfDays z)) hdoy0 hdoy1
  have hmpv : mpOfDoy (doyOfDoe (doeOfDays z)) =
      (5 * doyOfDoe (doeOfDays z) + 2) / 153 := rfl
  have hms : monthStartDoy (mpOfDoy (doyOfDoe (doeOfDays z))) =
      (153 * mpOfDoy (doyOfDoe (doeOfDays z)) + 2) / 5 := rfl
  have hdoe : doeOfDays z = z + 719468 - (z + 719468) / 146097 * 146097 := rfl
  have hera : eraOfDays z = (z + 719468) / 146097 := rfl
  have hq1 : (eraOfDays z * 400 + yoeOfDoe (doeOfDays z)) / 400 = eraOfDays z := by omega
  have hq2 : (eraOfDays z * 400 + yoeOfDoe (doeOfDays z)) % 400 = yoeOfDoe (doeOfDays z) := by
    omega
  by_cases hcase : mpOfDoy (doyOfDoe (doeOfDays z)) < 10
  · simp only [civilFromDays, if_pos hcase, daysFromCivil, yShifted]
    rw [if_neg (by omega), if_pos (by omega)]
    simp only [show ∀ x : Int, x + 3 + -3 = x from fun x => by ring, add_zero]
    rw [hq1, hq2]
    omega
  · simp only [civilFromDays, if_neg hcase, daysFromCivil, yShifted]
    rw [if_pos (by omega), if_neg (by omega)]
    simp only [show ∀ x : Int, x + -9 + 9 = x from fun x => by ring,
      show ∀ x : Int, x + 1 - 1 = x from fun x => by ring]
    rw [hq1, hq2]
    omega

theorem civilFromDays_md_ranges (z : Int) :
    1 ≤ (civilFromDays z).2.1 ∧ (civilFromDays z).2.1 ≤ 12 ∧
    1 ≤ (civilFromDays z).2.2 ∧ (civilFromDays z).2.2 ≤ 31 := by
  have h0 : 0 ≤ doeOfDays z := by unfold doeOfDays; omega
  have h1 : doeOfDays z ≤ 146096 := by unfold doeOfDays; omega
  have hy := yoe_core (doeOfDays z) h0 h1
  have hdoy : doyOfDoe (doeOfDays z) =
      doeOfDays z - yearStartDoe (yoeOfDoe (doeOfDays z)) := rfl
  have hdoy0 : 0 ≤ doyOfDoe (doeOfDays z) := by omega
  have hdoy1 : doyOfDoe (doeOfDays z) ≤ 365 := by omega
  have hmp := mp_correct (doyOfDoe (doeOfDays z)) hdoy0 hdoy1
  by_cases hcase : mpOfDoy (doyOfDoe (doeOfDays z)) < 10
  · simp only [civilFromDays, if_pos hcase]
    omega
  · simp only [civilFromDays, if_neg hcase]
    omega

set_option maxHeartbeats 4000000 in
theorem civilFromDays_y_range (z : Int) (hz0 : 0 ≤ z) (hz1 : z ≤ 2932896) :
    0 ≤ (civilFromDays z).1 ∧ (civilFromDays z).1 ≤ 9999 := by
  have h0 : 0 ≤ doeOfDays z := by unfold doeOfDays; omega
  have h1 : doeOfDays z ≤ 146096 := by unfold doeOfDays; omega
  have hy := yoe_core (doeOfDays z) h0 h1
  have hys : yearStartDoe (yoeOfDoe (doeOfDays z)) =
      365 * yoeOfDoe (doeOfDays z) + yoeOfDoe (doeOfDays z) / 4 -
        yoeOfDoe (doeOfDays z) / 100 := rfl
  have hdoy : doyOfDoe (doeOfDays z) =
      doeOfDays z - yearStartDoe (yoeOfDoe (doeOfDays z)) := rfl
  have hdoy0 : 0 ≤ doyOfDoe (doeOfDays z) := by omega
  have hdoy1 : doyOfDoe (doeOfDays z) ≤ 365 := by omega
  have hmp := mp_correct (doyOfDoe (doeOfDays z)) hdoy0 hdoy1
  have hms : monthStartDoy (mpOfDoy (doyOfDoe (doeOfDays z))) =
      (153 * mpOfDoy (doyOfDoe (doeOfDays z)) + 2) / 5 := rfl
  have hdoe : doeOfDays z = z + 719468 - (z + 719468) / 146097 * 146097 := rfl
  have hera : eraOfDays z = (z + 719468) / 146097 := rfl
  by_cases hcase : mpOfDoy (doyOfDoe (doeOfDays z)) < 10
  · simp only [civilFromDays, if_pos hcase]
    omega
  · simp only [civilFromDays, if_neg hcase]
    omega

theorem digitChar_inj (a b : Int) (ha0 : 0 ≤ a) (ha9 : a ≤ 9) (hb0 : 0 ≤ b) (hb9 : b ≤ 9)
    (h : digitChar a = digitChar b) : a = b := by
  interval_cases a <;> interval_cases b <;> revert h <;> decide

theorem formatCivil_inj (c1 c2 : Int × Int × Int)
    (hy1 : 0 ≤ c1.1 ∧ c1.1 ≤ 9999) (hm1 : 0 ≤ c1.2.1 ∧ c1.2.1 ≤ 99)
    (hd1 : 0 ≤ c1.2.2 ∧ c1.2.2 ≤ 99)
    (hy2 : 0 ≤ c2.1 ∧ c2.1 ≤ 9999) (hm2 : 0 ≤ c2.2.1 ∧ c2.2.1 ≤ 99)
    (hd2 : 0 ≤ c2.2.2 ∧ c2.2.2 ≤ 99)
    (h : formatCivil c1 = formatCivil c2) : c1 = c2 := by
  obtain ⟨y1, m1, d1⟩ := c1
  obtain ⟨y2, m2, d2⟩ := c2
  simp only [formatCivil, pad4, pad2] at h
  have hdata := congrArg String.data h
  simp only [String.data_append, show ("-" : String).data = ['-'] from rfl] at hdata
  simp only [List.cons_append, List.nil_append, List.cons.injEq, and_true] at hdata
  simp only at hy1 hm1 hd1 hy2 hm2 hd2
  obtain ⟨e1, e2, e3, e4, e5, e6, e7, e8, e9, e10⟩ := hdata
  have g1 := digitChar_inj _ _ (by omega) (by omega) (by omega) (by omega) e1
  have g2 := digitChar_inj _ _ (by omega) (by omega) (by omega) (by omega) e2
  have g3 := digitChar_inj _ _ (by omega) (by omega) (by omega) (by omega) e3
  have g4 := digitChar_inj _ _ (by omega) (by omega) (by omega) (by omega) e4
  have g5 := digitChar_inj _ _ (by omega) (by omega) (by omega) (by omega) e6
  have g6 := digitChar_inj _ _ (by omega) (by omega) (by omega) (by omega) e7
  have g7 := digitChar_inj _ _ (by omega) (by omega) (by omega) (by omega) e9
  have g8 := digitChar_inj _ _ (by omega) (by omega) (by omega) (by omega) e10
  refine Prod.ext ?_ (Prod.ext ?_ ?_) <;> simp only <;> omega

theorem daysFromCivil_add_d (y m d i : Int) :
    daysFromCivil y m (d + i) = daysFromCivil y m d + i := by
  unfold daysFromCivil
  ring

theorem jsSetDate_fixed (off D i : Int) :
    jsSetDate (fixedTz off) (1440 * D) (jsGetDate (fixedTz off) (1440 * D) + i) =
      1440 * (D + i) := by
  unfold jsSetDate jsGetDate jsWithDayOfMonth
  simp only [show ∀ t, (fixedTz off).offsetAtUtc t = off from fun t => rfl,
    show ∀ t, (fixedTz off).offsetAtLocal t = off from fun t => rfl]
  rw [daysFromCivil_add_d, daysFromCivil_of_civilFromDays]
  omega

theorem mealPlans_weekDates_fixed (off y m d : Int) :
    mealPlans_weekDates (fixedTz off) y m d =
      (List.range 7).map (fun (i : Nat) =>
        formatCivil (civilFromDays (daysFromCivil y m d + (i : Int)))) := by
  unfold mealPlans_weekDates toISODateString parseDateKey
  refine List.map_congr_left (fun i _ => ?_)
  rw [jsSetDate_fixed off (daysFromCivil y m d) (i : Int)]
  rw [Int.mul_ediv_cancel_left _ (by norm_num : (1440 : Int) ≠ 0)]

theorem weekDates_fixed_nodup (off y m d : Int) (h0 : 0 ≤ daysFromCivil y m d)
    (h1 : daysFromCivil y m d + 6 ≤ 2932896) :
    (mealPlans_weekDates (fixedTz off) y m d).Nodup := by
  rw [mealPlans_weekDates_fixed]
  have key : ∀ x ∈ List.range 7, ∀ x' ∈ List.range 7,
      (fun (i : Nat) => formatCivil (civilFromDays (daysFromCivil y m d + (i : Int)))) x =
        (fun (i : Nat) => formatCivil (civilFromDays (daysFromCivil y m d + (i : Int)))) x' →
      x = x' := by
    intro a ha b hb heq
    rw [List.mem_range] at ha hb
    simp only at heq
    have hza : 0 ≤ daysFromCivil y m d + (a : Int) ∧
        daysFromCivil y m d + (a : Int) ≤ 2932896 := by omega
    have hzb : 0 ≤ daysFromCivil y m d + (b : Int) ∧
        daysFromCivil y m d + (b : Int) ≤ 2932896 := by omega
    have hca := civilFromDays_md_ranges (daysFromCivil y m d + (a : Int))
    have hcb := civilFromDays_md_ranges (daysFromCivil y m d + (b : Int))
    have hya := civilFromDays_y_range (daysFromCivil y m d + (a : Int)) hza.1 hza.2
    have hyb := civilFromDays_y_range (daysFromCivil y m d + (b : Int)) hzb.1 hzb.2
    have hciv := formatCivil_inj _ _ ⟨hya.1, hya.2⟩ ⟨by omega, by omega⟩ ⟨by omega, by omega⟩
      ⟨hyb.1, hyb.2⟩ ⟨by omega, by omega⟩ ⟨by omega, by omega⟩ heq
    have hback := congrArg (fun c => daysFromCivil c.1 c.2.1 c.2.2) hciv
    simp only [daysFromCivil_of_civilFromDays] at hback
    omega
  exact List.Nodup.map_on key (List.nodup_range 7)

/-- The `getWeek` query returns exactly the household's entries whose `day` is a
member of the generated key list (projected back out of the join). -/
theorem getWeek_meals (tz : Timezone) (db : DB) (hh : String) (y m d : Int) :
    (getWeek tz db hh y m d).map JoinedMeal.meal =
      (mealsByHousehold db hh).filter (fun mm =>
        (mealPlans_weekDates tz y m d).contains mm.day) := by
  simp only [getWeek, List.map_map]
  have : ∀ l : List MealPlan, ∀ f : MealPlan → Option Dish,
      l.map ((fun jm => JoinedMeal.meal jm) ∘ (fun mm => (⟨mm, f mm⟩ : JoinedMeal))) = l := by
    intro l f
    induction l with
    | nil => rfl
    | cons x t ih => simp [ih]
  exact this _ _

/-- C2 (amended) — Week-window behaviour of the two queries: the key
generation of `getWeek` and of `getWeekShoppingList` is identical;
`getWeek` returns exactly the household's entries whose `day` string is a
member of the generated 7-key list; and in a *fixed-offset* timezone the 7
keys are the consecutive, distinct calendar dates `startDate .. startDate+6`
(UTC-rendered, for start days within years 0..9999).  (The claim's further
assertions — that the keys are formatted in *local* time and stay 7 distinct
consecutive dates across a DST transition — are refuted by
`c2_counterexample`: the code mutates the date in local time but formats it
with the UTC `toISOString`, so a spring-forward window in a DST zone west of
UTC repeats one key and drops the seventh day.) -/
theorem c2_week_window (tz : Timezone) (db : DB) (hh : String) (off y m d : Int)
    (hD0 : 0 ≤ daysFromCivil y m d) (hD1 : daysFromCivil y m d + 6 ≤ 2932896) :
    mealPlans_weekDates tz y m d = shoppingList_weekDates tz y m d ∧
    (getWeek tz db hh y m d).map JoinedMeal.meal =
      (mealsByHousehold db hh).filter (fun mm =>
        (mealPlans_weekDates tz y m d).contains mm.day) ∧
    mealPlans_weekDates (fixedTz off) y m d =
      (List.range 7).map (fun (i : Nat) =>
        formatCivil (civilFromDays (daysFromCivil y m d + (i : Int)))) ∧
    (mealPlans_weekDates (fixedTz off) y m d).Nodup :=
  ⟨rfl, getWeek_meals tz db hh y m d, mealPlans_weekDates_fixed off y m d,
    weekDates_fixed_nodup off y m d hD0 hD1⟩

/-- C2 counterexample: in US Pacific time, the window starting at the
spring-forward date 2026-03-08 yields the key "2026-03-08" twice and never
yields "2026-03-14" — not 7 distinct consecutive dates, and the duplicated
first key shows the rendering is UTC, not local (the second iteration's
local date is 2026-03-09's predecessor). -/
theorem c2_counterexample :
    mealPlans_weekDates tzPacific2026 2026 3 8 =
      ["2026-03-08", "2026-03-08", "2026-03-09", "2026-03-10", "2026-03-11",
        "2026-03-12", "2026-03-13"] ∧
    ¬ (mealPlans_weekDates tzPacific2026 2026 3 8).Nodup := by
  refine ⟨?_, ?_⟩ <;> decide

/-- Witness for C2 at a fixed-offset zone (UTC−8) and a concrete store. -/
theorem c2_week_window_witness :
    mealPlans_weekDates (fixedTz (-480)) 2026 3 2 =
        shoppingList_weekDates (fixedTz (-480)) 2026 3 2 ∧
    (getWeek (fixedTz (-480)) sparseDB "h" 2026 3 2).map JoinedMeal.meal =
      (mealsByHousehold sparseDB "h").filter (fun mm =>
        (mealPlans_weekDates (fixedTz (-480)) 2026 3 2).contains mm.day) ∧
    mealPlans_weekDates (fixedTz (-480)) 2026 3 2 =
      (List.range 7).map (fun (i : Nat) =>
        formatCivil (civilFromDays (daysFromCivil 2026 3 2 + (i : Int)))) ∧
    (mealPlans_weekDates (fixedTz (-480)) 2026 3 2).Nodup :=
  c2_week_window (fixedTz (-480)) sparseDB "h" (-480) 2026 3 2 (by decide) (by decide)
